import Mathlib

/-!
# Pin-word protocol of the chip emulators

A shallow embedding of the 64-bit pin word shared by the CPU and peripheral chip
headers (`z80.h`, `m6502.h`, `z80ctc.h`, `z80pio.h`, `i8255.h`, `ay38910.h`,
`m6522.h`, `m6526.h`, `m6569.h`, `m6581.h`, `mc6845.h`, `mc6847.h`).

A `uint64_t` is a natural number below `2 ^ 64`; every C operator that can leave
that range is followed by an explicit reduction modulo `2 ^ 64`.  An `int` is an
integer, converted to `uint64_t` by reduction modulo `2 ^ 64` (sign extension).  Next to
its value, every pin constant of a peripheral header carries what the header says about its
place in the pin word: one of the CPU's pins, or a pin of the chip itself.

The later sections cover the helpers whose bodies the headers only declare: the interrupt
daisy chain of the Z80 peripherals, the banked address space of `mem.h`, the clock pacer of
`clk.h`, the exec loop and the trap table of the CPUs.  Those are modelled from the
specification and marked as such at each definition.
-/

namespace Chips

/-! ## C integer operators -/

/-- Conversion of an unsigned value to `uint64_t` (also `(uint64_t)w`). -/
def u64 (x : Nat) : Nat := x % 2 ^ 64

/-- The operator `~x` on a `uint64_t` (an `...ULL` constant). -/
def u64_not (x : Nat) : Nat := 2 ^ 64 - 1 - x % 2 ^ 64

/-- The operator `x << n` evaluated in `uint64_t`: bits shifted past bit 63 are lost. -/
def u64_shl (x n : Nat) : Nat := ((x % 2 ^ 64) <<< n) % 2 ^ 64

/-- The cast `(uint16_t)x`. -/
def u16_cast (x : Nat) : Nat := x % 2 ^ 16

/-- The cast `(uint8_t)x`. -/
def u8_cast (x : Nat) : Nat := x % 2 ^ 8

/-- The operator `~x` on a two's complement `int`. -/
def int_not (x : Int) : Int := -x - 1

/-- The usual arithmetic conversion of an `int` operand to `uint64_t`. -/
def int_to_u64 (x : Int) : Nat := (x % 2 ^ 64).toNat

/-! ## Pin constants of z80.h -/

def Z80_A0 : Nat := 1 <<< 0
def Z80_A1 : Nat := 1 <<< 1
def Z80_A2 : Nat := 1 <<< 2
def Z80_A3 : Nat := 1 <<< 3
def Z80_A4 : Nat := 1 <<< 4
def Z80_A5 : Nat := 1 <<< 5
def Z80_A6 : Nat := 1 <<< 6
def Z80_A7 : Nat := 1 <<< 7
def Z80_A8 : Nat := 1 <<< 8
def Z80_A9 : Nat := 1 <<< 9
def Z80_A10 : Nat := 1 <<< 10
def Z80_A11 : Nat := 1 <<< 11
def Z80_A12 : Nat := 1 <<< 12
def Z80_A13 : Nat := 1 <<< 13
def Z80_A14 : Nat := 1 <<< 14
def Z80_A15 : Nat := 1 <<< 15
def Z80_D0 : Nat := 1 <<< 16
def Z80_D1 : Nat := 1 <<< 17
def Z80_D2 : Nat := 1 <<< 18
def Z80_D3 : Nat := 1 <<< 19
def Z80_D4 : Nat := 1 <<< 20
def Z80_D5 : Nat := 1 <<< 21
def Z80_D6 : Nat := 1 <<< 22
def Z80_D7 : Nat := 1 <<< 23
def Z80_M1 : Nat := 1 <<< 24
def Z80_MREQ : Nat := 1 <<< 25
def Z80_IORQ : Nat := 1 <<< 26
def Z80_RD : Nat := 1 <<< 27
def Z80_WR : Nat := 1 <<< 28
def Z80_HALT : Nat := 1 <<< 29
def Z80_INT : Nat := 1 <<< 30
def Z80_NMI : Nat := 1 <<< 31
def Z80_BUSREQ : Nat := 1 <<< 32
def Z80_BUSACK : Nat := 1 <<< 33
def Z80_WAIT0 : Nat := 1 <<< 34
def Z80_WAIT1 : Nat := 1 <<< 35
def Z80_WAIT2 : Nat := 1 <<< 36
def Z80_IEIO : Nat := 1 <<< 37
def Z80_RETI : Nat := 1 <<< 38

def Z80_CTRL_MASK : Nat := Z80_M1 ||| Z80_MREQ ||| Z80_IORQ ||| Z80_RD ||| Z80_WR
def Z80_WAIT_SHIFT : Nat := 34
def Z80_WAIT_MASK : Nat := Z80_WAIT0 ||| Z80_WAIT1 ||| Z80_WAIT2
def Z80_PIN_MASK : Nat := (1 <<< 40) - 1

/-- Every single-pin constant that z80.h defines, in source order. -/
def Z80_pins : List Nat :=
  [ Z80_A0, Z80_A1, Z80_A2, Z80_A3, Z80_A4, Z80_A5, Z80_A6, Z80_A7, Z80_A8, Z80_A9, Z80_A10
  , Z80_A11, Z80_A12, Z80_A13, Z80_A14, Z80_A15, Z80_D0, Z80_D1, Z80_D2, Z80_D3, Z80_D4, Z80_D5
  , Z80_D6, Z80_D7, Z80_M1, Z80_MREQ, Z80_IORQ, Z80_RD, Z80_WR, Z80_HALT, Z80_INT, Z80_NMI
  , Z80_BUSREQ, Z80_BUSACK, Z80_WAIT0, Z80_WAIT1, Z80_WAIT2, Z80_IEIO, Z80_RETI ]

/-! ## Pin constants of m6502.h -/

def M6502_A0 : Nat := 1 <<< 0
def M6502_A1 : Nat := 1 <<< 1
def M6502_A2 : Nat := 1 <<< 2
def M6502_A3 : Nat := 1 <<< 3
def M6502_A4 : Nat := 1 <<< 4
def M6502_A5 : Nat := 1 <<< 5
def M6502_A6 : Nat := 1 <<< 6
def M6502_A7 : Nat := 1 <<< 7
def M6502_A8 : Nat := 1 <<< 8
def M6502_A9 : Nat := 1 <<< 9
def M6502_A10 : Nat := 1 <<< 10
def M6502_A11 : Nat := 1 <<< 11
def M6502_A12 : Nat := 1 <<< 12
def M6502_A13 : Nat := 1 <<< 13
def M6502_A14 : Nat := 1 <<< 14
def M6502_A15 : Nat := 1 <<< 15
def M6502_D0 : Nat := 1 <<< 16
def M6502_D1 : Nat := 1 <<< 17
def M6502_D2 : Nat := 1 <<< 18
def M6502_D3 : Nat := 1 <<< 19
def M6502_D4 : Nat := 1 <<< 20
def M6502_D5 : Nat := 1 <<< 21
def M6502_D6 : Nat := 1 <<< 22
def M6502_D7 : Nat := 1 <<< 23
def M6502_RW : Nat := 1 <<< 24
def M6502_SYNC : Nat := 1 <<< 25
def M6502_IRQ : Nat := 1 <<< 26
def M6502_NMI : Nat := 1 <<< 27
def M6502_RDY : Nat := 1 <<< 28
def M6510_AEC : Nat := 1 <<< 29

def M6502_PIN_MASK : Nat := 0xFFFFFFFF

/-- Every single-pin constant that m6502.h defines, in source order. -/
def M6502_pins : List Nat :=
  [ M6502_A0, M6502_A1, M6502_A2, M6502_A3, M6502_A4, M6502_A5, M6502_A6, M6502_A7, M6502_A8
  , M6502_A9, M6502_A10, M6502_A11, M6502_A12, M6502_A13, M6502_A14, M6502_A15, M6502_D0
  , M6502_D1, M6502_D2, M6502_D3, M6502_D4, M6502_D5, M6502_D6, M6502_D7, M6502_RW, M6502_SYNC
  , M6502_IRQ, M6502_NMI, M6502_RDY, M6510_AEC ]

/-! ## Pin constants of z80ctc.h -/

def Z80CTC_M1 : Nat := 1 <<< 24
def Z80CTC_IORQ : Nat := 1 <<< 26
def Z80CTC_RD : Nat := 1 <<< 27
def Z80CTC_INT : Nat := 1 <<< 30
def Z80CTC_RESET : Nat := 1 <<< 31
def Z80CTC_IEIO : Nat := 1 <<< 37
def Z80CTC_RETI : Nat := 1 <<< 38
def Z80CTC_CE : Nat := 1 <<< 44
def Z80CTC_CS0 : Nat := 1 <<< 45
def Z80CTC_CS1 : Nat := 1 <<< 46
def Z80CTC_CLKTRG0 : Nat := 1 <<< 47
def Z80CTC_CLKTRG1 : Nat := 1 <<< 48
def Z80CTC_CLKTRG2 : Nat := 1 <<< 49
def Z80CTC_CLKTRG3 : Nat := 1 <<< 50
def Z80CTC_ZCTO0 : Nat := 1 <<< 51
def Z80CTC_ZCTO1 : Nat := 1 <<< 52
def Z80CTC_ZCTO2 : Nat := 1 <<< 53

/-- Every single-pin constant that z80ctc.h defines, in source order. -/
def Z80CTC_pins : List Nat :=
  [ Z80CTC_M1, Z80CTC_IORQ, Z80CTC_RD, Z80CTC_INT, Z80CTC_RESET, Z80CTC_IEIO, Z80CTC_RETI
  , Z80CTC_CE, Z80CTC_CS0, Z80CTC_CS1, Z80CTC_CLKTRG0, Z80CTC_CLKTRG1, Z80CTC_CLKTRG2
  , Z80CTC_CLKTRG3, Z80CTC_ZCTO0, Z80CTC_ZCTO1, Z80CTC_ZCTO2 ]

/-! ## Pin constants of z80pio.h -/

def Z80PIO_M1 : Nat := 1 <<< 24
def Z80PIO_IORQ : Nat := 1 <<< 26
def Z80PIO_RD : Nat := 1 <<< 27
def Z80PIO_INT : Nat := 1 <<< 30
def Z80PIO_IEIO : Nat := 1 <<< 37
def Z80PIO_RETI : Nat := 1 <<< 38
def Z80PIO_CE : Nat := 1 <<< 44
def Z80PIO_BASEL : Nat := 1 <<< 45
def Z80PIO_CDSEL : Nat := 1 <<< 46
def Z80PIO_ARDY : Nat := 1 <<< 47
def Z80PIO_BRDY : Nat := 1 <<< 48
def Z80PIO_ASTB : Nat := 1 <<< 49
def Z80PIO_BSTB : Nat := 1 <<< 40

/-- Every single-pin constant that z80pio.h defines, in source order. -/
def Z80PIO_pins : List Nat :=
  [ Z80PIO_M1, Z80PIO_IORQ, Z80PIO_RD, Z80PIO_INT, Z80PIO_IEIO, Z80PIO_RETI, Z80PIO_CE
  , Z80PIO_BASEL, Z80PIO_CDSEL, Z80PIO_ARDY, Z80PIO_BRDY, Z80PIO_ASTB, Z80PIO_BSTB ]

/-! ## Pin constants of i8255.h -/

def I8255_CS : Nat := 1 <<< 40
def I8255_RD : Nat := 1 <<< 41
def I8255_WR : Nat := 1 <<< 42
def I8255_A0 : Nat := 1 <<< 43
def I8255_A1 : Nat := 1 <<< 44
def I8255_D0 : Nat := 1 <<< 16
def I8255_D1 : Nat := 1 <<< 17
def I8255_D2 : Nat := 1 <<< 18
def I8255_D3 : Nat := 1 <<< 19
def I8255_D4 : Nat := 1 <<< 20
def I8255_D5 : Nat := 1 <<< 21
def I8255_D6 : Nat := 1 <<< 22
def I8255_D7 : Nat := 1 <<< 23

/-- Every single-pin constant that i8255.h defines, in source order. -/
def I8255_pins : List Nat :=
  [ I8255_CS, I8255_RD, I8255_WR, I8255_A0, I8255_A1, I8255_D0, I8255_D1, I8255_D2, I8255_D3
  , I8255_D4, I8255_D5, I8255_D6, I8255_D7 ]

/-! ## Pin constants of ay38910.h -/

def AY38910_DA0 : Nat := 1 <<< 16
def AY38910_DA1 : Nat := 1 <<< 17
def AY38910_DA2 : Nat := 1 <<< 18
def AY38910_DA3 : Nat := 1 <<< 19
def AY38910_DA4 : Nat := 1 <<< 20
def AY38910_DA5 : Nat := 1 <<< 21
def AY38910_DA6 : Nat := 1 <<< 22
def AY38910_DA7 : Nat := 1 <<< 23
def AY38910_RESET : Nat := 1 <<< 34
def AY38910_BDIR : Nat := 1 <<< 44
def AY38910_BC1 : Nat := 1 <<< 45
def AY38910_A8 : Nat := 1 <<< 46

/-- Every single-pin constant that ay38910.h defines, in source order. -/
def AY38910_pins : List Nat :=
  [ AY38910_DA0, AY38910_DA1, AY38910_DA2, AY38910_DA3, AY38910_DA4, AY38910_DA5, AY38910_DA6
  , AY38910_DA7, AY38910_RESET, AY38910_BDIR, AY38910_BC1, AY38910_A8 ]

/-! ## Pin constants of m6522.h -/

def M6522_RW : Nat := 1 <<< 24
def M6522_CS1 : Nat := 1 <<< 40
def M6522_CS2 : Nat := 1 <<< 41
def M6522_CA1 : Nat := 1 <<< 42
def M6522_CA2 : Nat := 1 <<< 43
def M6522_CB1 : Nat := 1 <<< 44
def M6522_CB2 : Nat := 1 <<< 45
def M6522_PA0 : Nat := 1 <<< 48
def M6522_PA1 : Nat := 1 <<< 49
def M6522_PA2 : Nat := 1 <<< 50
def M6522_PA3 : Nat := 1 <<< 51
def M6522_PA4 : Nat := 1 <<< 52
def M6522_PA5 : Nat := 1 <<< 53
def M6522_PA6 : Nat := 1 <<< 54
def M6522_PA7 : Nat := 1 <<< 55
def M6522_PB0 : Nat := 1 <<< 56
def M6522_PB1 : Nat := 1 <<< 57
def M6522_PB2 : Nat := 1 <<< 58
def M6522_PB3 : Nat := 1 <<< 59
def M6522_PB4 : Nat := 1 <<< 60
def M6522_PB5 : Nat := 1 <<< 61
def M6522_PB6 : Nat := 1 <<< 62
def M6522_PB7 : Nat := 1 <<< 63
def M6522_RS0 : Nat := 1 <<< 0
def M6522_RS1 : Nat := 1 <<< 1
def M6522_RS2 : Nat := 1 <<< 2
def M6522_RS3 : Nat := 1 <<< 3
def M6522_D0 : Nat := 1 <<< 16
def M6522_D1 : Nat := 1 <<< 17
def M6522_D2 : Nat := 1 <<< 18
def M6522_D3 : Nat := 1 <<< 19
def M6522_D4 : Nat := 1 <<< 20
def M6522_D5 : Nat := 1 <<< 21
def M6522_D6 : Nat := 1 <<< 22
def M6522_D7 : Nat := 1 <<< 23

def M6522_RS : Nat := M6522_RS3 ||| M6522_RS2 ||| M6522_RS1 ||| M6522_RS0

/-- Every single-pin constant that m6522.h defines, in source order. -/
def M6522_pins : List Nat :=
  [ M6522_RW, M6522_CS1, M6522_CS2, M6522_CA1, M6522_CA2, M6522_CB1, M6522_CB2, M6522_PA0
  , M6522_PA1, M6522_PA2, M6522_PA3, M6522_PA4, M6522_PA5, M6522_PA6, M6522_PA7, M6522_PB0
  , M6522_PB1, M6522_PB2, M6522_PB3, M6522_PB4, M6522_PB5, M6522_PB6, M6522_PB7, M6522_RS0
  , M6522_RS1, M6522_RS2, M6522_RS3, M6522_D0, M6522_D1, M6522_D2, M6522_D3, M6522_D4, M6522_D5
  , M6522_D6, M6522_D7 ]

/-! ## Pin constants of m6526.h -/

def M6526_RS0 : Nat := 1 <<< 0
def M6526_RS1 : Nat := 1 <<< 1
def M6526_RS2 : Nat := 1 <<< 2
def M6526_RS3 : Nat := 1 <<< 3
def M6526_D0 : Nat := 1 <<< 16
def M6526_D1 : Nat := 1 <<< 17
def M6526_D2 : Nat := 1 <<< 18
def M6526_D3 : Nat := 1 <<< 19
def M6526_D4 : Nat := 1 <<< 20
def M6526_D5 : Nat := 1 <<< 21
def M6526_D6 : Nat := 1 <<< 22
def M6526_D7 : Nat := 1 <<< 23
def M6526_RW : Nat := 1 <<< 24
def M6526_IRQ : Nat := 1 <<< 26
def M6526_CS : Nat := 1 <<< 40
def M6526_FLAG : Nat := 1 <<< 41
def M6526_PC : Nat := 1 <<< 42
def M6526_SP : Nat := 1 <<< 43
def M6526_TOD : Nat := 1 <<< 44
def M6526_CNT : Nat := 1 <<< 45

def M6526_RS : Nat := M6526_RS3 ||| M6526_RS2 ||| M6526_RS1 ||| M6526_RS0

/-- Every single-pin constant that m6526.h defines, in source order. -/
def M6526_pins : List Nat :=
  [ M6526_RS0, M6526_RS1, M6526_RS2, M6526_RS3, M6526_D0, M6526_D1, M6526_D2, M6526_D3, M6526_D4
  , M6526_D5, M6526_D6, M6526_D7, M6526_RW, M6526_IRQ, M6526_CS, M6526_FLAG, M6526_PC, M6526_SP
  , M6526_TOD, M6526_CNT ]

/-! ## Pin constants of m6569.h -/

def M6569_A0 : Nat := 1 <<< 0
def M6569_A1 : Nat := 1 <<< 1
def M6569_A2 : Nat := 1 <<< 2
def M6569_A3 : Nat := 1 <<< 3
def M6569_A4 : Nat := 1 <<< 4
def M6569_A5 : Nat := 1 <<< 5
def M6569_A6 : Nat := 1 <<< 6
def M6569_A7 : Nat := 1 <<< 7
def M6569_A8 : Nat := 1 <<< 8
def M6569_A9 : Nat := 1 <<< 9
def M6569_A10 : Nat := 1 <<< 10
def M6569_A11 : Nat := 1 <<< 11
def M6569_A12 : Nat := 1 <<< 12
def M6569_A13 : Nat := 1 <<< 13
def M6569_D0 : Nat := 1 <<< 16
def M6569_D1 : Nat := 1 <<< 17
def M6569_D2 : Nat := 1 <<< 18
def M6569_D3 : Nat := 1 <<< 19
def M6569_D4 : Nat := 1 <<< 20
def M6569_D5 : Nat := 1 <<< 21
def M6569_D6 : Nat := 1 <<< 22
def M6569_D7 : Nat := 1 <<< 23
def M6569_RW : Nat := 1 <<< 24
def M6569_IRQ : Nat := 1 <<< 26
def M6569_BA : Nat := 1 <<< 28
def M6569_AEC : Nat := 1 <<< 29
def M6569_CS : Nat := 1 <<< 40

/-- Every single-pin constant that m6569.h defines, in source order. -/
def M6569_pins : List Nat :=
  [ M6569_A0, M6569_A1, M6569_A2, M6569_A3, M6569_A4, M6569_A5, M6569_A6, M6569_A7, M6569_A8
  , M6569_A9, M6569_A10, M6569_A11, M6569_A12, M6569_A13, M6569_D0, M6569_D1, M6569_D2, M6569_D3
  , M6569_D4, M6569_D5, M6569_D6, M6569_D7, M6569_RW, M6569_IRQ, M6569_BA, M6569_AEC, M6569_CS ]

/-! ## Pin constants of m6581.h -/

def M6581_A0 : Nat := 1 <<< 0
def M6581_A1 : Nat := 1 <<< 1
def M6581_A2 : Nat := 1 <<< 2
def M6581_A3 : Nat := 1 <<< 3
def M6581_A4 : Nat := 1 <<< 4
def M6581_D0 : Nat := 1 <<< 16
def M6581_D1 : Nat := 1 <<< 17
def M6581_D2 : Nat := 1 <<< 18
def M6581_D3 : Nat := 1 <<< 19
def M6581_D4 : Nat := 1 <<< 20
def M6581_D5 : Nat := 1 <<< 21
def M6581_D6 : Nat := 1 <<< 22
def M6581_D7 : Nat := 1 <<< 23
def M6581_RW : Nat := 1 <<< 24
def M6581_CS : Nat := 1 <<< 40

/-- Every single-pin constant that m6581.h defines, in source order. -/
def M6581_pins : List Nat :=
  [ M6581_A0, M6581_A1, M6581_A2, M6581_A3, M6581_A4, M6581_D0, M6581_D1, M6581_D2, M6581_D3
  , M6581_D4, M6581_D5, M6581_D6, M6581_D7, M6581_RW, M6581_CS ]

/-! ## Pin constants of mc6845.h -/

def MC6845_MA0 : Nat := 1 <<< 0
def MC6845_MA1 : Nat := 1 <<< 1
def MC6845_MA2 : Nat := 1 <<< 2
def MC6845_MA3 : Nat := 1 <<< 3
def MC6845_MA4 : Nat := 1 <<< 4
def MC6845_MA5 : Nat := 1 <<< 5
def MC6845_MA6 : Nat := 1 <<< 6
def MC6845_MA7 : Nat := 1 <<< 7
def MC6845_MA8 : Nat := 1 <<< 8
def MC6845_MA9 : Nat := 1 <<< 9
def MC6845_MA10 : Nat := 1 <<< 10
def MC6845_MA11 : Nat := 1 <<< 11
def MC6845_MA12 : Nat := 1 <<< 12
def MC6845_MA13 : Nat := 1 <<< 13
def MC6845_D0 : Nat := 1 <<< 16
def MC6845_D1 : Nat := 1 <<< 17
def MC6845_D2 : Nat := 1 <<< 18
def MC6845_D3 : Nat := 1 <<< 19
def MC6845_D4 : Nat := 1 <<< 20
def MC6845_D5 : Nat := 1 <<< 21
def MC6845_D6 : Nat := 1 <<< 22
def MC6845_D7 : Nat := 1 <<< 23
def MC6845_CS : Nat := 1 <<< 40
def MC6845_RS : Nat := 1 <<< 41
def MC6845_RW : Nat := 1 <<< 42
def MC6845_LPSTB : Nat := 1 <<< 43
def MC6845_DE : Nat := 1 <<< 44
def MC6845_VS : Nat := 1 <<< 45
def MC6845_HS : Nat := 1 <<< 46
def MC6845_RA0 : Nat := 1 <<< 48
def MC6845_RA1 : Nat := 1 <<< 49
def MC6845_RA2 : Nat := 1 <<< 50
def MC6845_RA3 : Nat := 1 <<< 51
def MC6845_RA4 : Nat := 1 <<< 52

/-- Every single-pin constant that mc6845.h defines, in source order. -/
def MC6845_pins : List Nat :=
  [ MC6845_MA0, MC6845_MA1, MC6845_MA2, MC6845_MA3, MC6845_MA4, MC6845_MA5, MC6845_MA6
  , MC6845_MA7, MC6845_MA8, MC6845_MA9, MC6845_MA10, MC6845_MA11, MC6845_MA12, MC6845_MA13
  , MC6845_D0, MC6845_D1, MC6845_D2, MC6845_D3, MC6845_D4, MC6845_D5, MC6845_D6, MC6845_D7
  , MC6845_CS, MC6845_RS, MC6845_RW, MC6845_LPSTB, MC6845_DE, MC6845_VS, MC6845_HS, MC6845_RA0
  , MC6845_RA1, MC6845_RA2, MC6845_RA3, MC6845_RA4 ]

/-! ## Pin constants of mc6847.h -/

def MC6847_A0 : Nat := 1 <<< 0
def MC6847_A1 : Nat := 1 <<< 1
def MC6847_A2 : Nat := 1 <<< 2
def MC6847_A3 : Nat := 1 <<< 3
def MC6847_A4 : Nat := 1 <<< 4
def MC6847_A5 : Nat := 1 <<< 5
def MC6847_A6 : Nat := 1 <<< 6
def MC6847_A7 : Nat := 1 <<< 7
def MC6847_A8 : Nat := 1 <<< 8
def MC6847_A9 : Nat := 1 <<< 9
def MC6847_A10 : Nat := 1 <<< 10
def MC6847_A11 : Nat := 1 <<< 11
def MC6847_A12 : Nat := 1 <<< 12
def MC6847_D0 : Nat := 1 <<< 16
def MC6847_D1 : Nat := 1 <<< 17
def MC6847_D2 : Nat := 1 <<< 18
def MC6847_D3 : Nat := 1 <<< 19
def MC6847_D4 : Nat := 1 <<< 20
def MC6847_D5 : Nat := 1 <<< 21
def MC6847_D6 : Nat := 1 <<< 22
def MC6847_D7 : Nat := 1 <<< 23
def MC6847_FS : Nat := 1 <<< 40
def MC6847_HS : Nat := 1 <<< 41
def MC6847_RP : Nat := 1 <<< 42
def MC6847_AG : Nat := 1 <<< 43
def MC6847_AS : Nat := 1 <<< 44
def MC6847_INTEXT : Nat := 1 <<< 45
def MC6847_INV : Nat := 1 <<< 46
def MC6847_GM0 : Nat := 1 <<< 47
def MC6847_GM1 : Nat := 1 <<< 48
def MC6847_GM2 : Nat := 1 <<< 49
def MC6847_CSS : Nat := 1 <<< 50

/-- Every single-pin constant that mc6847.h defines, in source order. -/
def MC6847_pins : List Nat :=
  [ MC6847_A0, MC6847_A1, MC6847_A2, MC6847_A3, MC6847_A4, MC6847_A5, MC6847_A6, MC6847_A7
  , MC6847_A8, MC6847_A9, MC6847_A10, MC6847_A11, MC6847_A12, MC6847_D0, MC6847_D1, MC6847_D2
  , MC6847_D3, MC6847_D4, MC6847_D5, MC6847_D6, MC6847_D7, MC6847_FS, MC6847_HS, MC6847_RP
  , MC6847_AG, MC6847_AS, MC6847_INTEXT, MC6847_INV, MC6847_GM0, MC6847_GM1, MC6847_GM2
  , MC6847_CSS ]
/-- The pins under the control-pin heading of z80.h: system control, CPU control,
wait-state and virtual interrupt pins. -/
def Z80_control_pins : List Nat :=
  [ Z80_M1, Z80_MREQ, Z80_IORQ, Z80_RD, Z80_WR, Z80_HALT, Z80_INT, Z80_NMI, Z80_BUSREQ
  , Z80_BUSACK, Z80_WAIT0, Z80_WAIT1, Z80_WAIT2, Z80_IEIO, Z80_RETI ]

/-! ## Accessor macros of z80.h

The macros that assign to `p` are embedded as functions returning the new pin word.
Macro arguments are unsigned values; where the macro converts its argument to
`uint64_t` the conversion is written out. -/

/-- Embeds `Z80_MAKE_PINS(ctrl, addr, data)`:
`((ctrl)|(((data)<<16)&0xFF0000ULL)|((addr)&0xFFFFULL))`. -/
def Z80_MAKE_PINS (ctrl addr data : Nat) : Nat :=
  (ctrl ||| (u64_shl data 16 &&& 0xFF0000)) ||| (u64 addr &&& 0xFFFF)

/-- Embeds `Z80_GET_ADDR(p)`: `((uint16_t)(p&0xFFFFULL))`. -/
def Z80_GET_ADDR (p : Nat) : Nat := u16_cast (p &&& 0xFFFF)

/-- Embeds `Z80_SET_ADDR(p,a)`: `p=((p&~0xFFFFULL)|((a)&0xFFFFULL))`. -/
def Z80_SET_ADDR (p a : Nat) : Nat := (p &&& u64_not 0xFFFF) ||| (u64 a &&& 0xFFFF)

/-- Embeds `Z80_GET_DATA(p)`: `((uint8_t)((p&0xFF0000ULL)>>16))`. -/
def Z80_GET_DATA (p : Nat) : Nat := u8_cast ((p &&& 0xFF0000) >>> 16)

/-- Embeds `Z80_SET_DATA(p,d)`: `p=((p&~0xFF0000ULL)|(((d)<<16)&0xFF0000ULL))`. -/
def Z80_SET_DATA (p d : Nat) : Nat := (p &&& u64_not 0xFF0000) ||| (u64_shl d 16 &&& 0xFF0000)

/-- Embeds `Z80_GET_WAIT(p)`: `((p&Z80_WAIT_MASK)>>Z80_WAIT_SHIFT)`. -/
def Z80_GET_WAIT (p : Nat) : Nat := (p &&& Z80_WAIT_MASK) >>> Z80_WAIT_SHIFT

/-- Embeds `Z80_SET_WAIT(p,w)`:
`p=((p&~Z80_WAIT_MASK)|((((uint64_t)w)<<Z80_WAIT_SHIFT)&Z80_WAIT_MASK))`. -/
def Z80_SET_WAIT (p w : Nat) : Nat :=
  (p &&& u64_not Z80_WAIT_MASK) ||| (u64_shl (u64 w) Z80_WAIT_SHIFT &&& Z80_WAIT_MASK)

/-! ## Accessor macros of m6502.h -/

/-- Embeds `M6502_GET_ADDR(p)`: `((uint16_t)(p&0xFFFFULL))`. -/
def M6502_GET_ADDR (p : Nat) : Nat := u16_cast (p &&& 0xFFFF)

/-- Embeds `M6502_SET_ADDR(p,a)`: `p=((p&~0xFFFFULL)|((a)&0xFFFFULL))`. -/
def M6502_SET_ADDR (p a : Nat) : Nat := (p &&& u64_not 0xFFFF) ||| (u64 a &&& 0xFFFF)

/-- Embeds `M6502_GET_DATA(p)`: `((uint8_t)((p&0xFF0000ULL)>>16))`. -/
def M6502_GET_DATA (p : Nat) : Nat := u8_cast ((p &&& 0xFF0000) >>> 16)

/-- Embeds `M6502_SET_DATA(p,d)`: `p=(((p)&~0xFF0000ULL)|(((d)<<16)&0xFF0000ULL))`. -/
def M6502_SET_DATA (p d : Nat) : Nat := (p &&& u64_not 0xFF0000) ||| (u64_shl d 16 &&& 0xFF0000)

/-- Embeds `M6502_MAKE_PINS(ctrl, addr, data)`:
`((ctrl)|(((data)<<16)&0xFF0000ULL)|((addr)&0xFFFFULL))`. -/
def M6502_MAKE_PINS (ctrl addr data : Nat) : Nat :=
  (ctrl ||| (u64_shl data 16 &&& 0xFF0000)) ||| (u64 addr &&& 0xFFFF)

/-! ## Data-bus macros of the peripheral chip headers

Two spellings occur.  `m6569.h`, `mc6845.h` and `mc6847.h` repeat the `ULL` form of
`z80.h`.  The other headers write `(uint8_t)(p>>16)` and
`p=((p&~0xFF0000)|((d&0xFF)<<16))`, where `0xFF0000` is an `int` constant, so
`~0xFF0000` is a negative `int` that is converted to `uint64_t` before the `&`. -/

/-- Embeds `M6569_GET_DATA(p)`: `((uint8_t)((p&0xFF0000ULL)>>16))`. -/
def M6569_GET_DATA (p : Nat) : Nat := u8_cast ((p &&& 0xFF0000) >>> 16)

/-- Embeds `M6569_SET_DATA(p,d)`: `p=(((p)&~0xFF0000ULL)|(((d)<<16)&0xFF0000ULL))`. -/
def M6569_SET_DATA (p d : Nat) : Nat := (p &&& u64_not 0xFF0000) ||| (u64_shl d 16 &&& 0xFF0000)

/-- Embeds `MC6845_GET_DATA(p)`: `((uint8_t)((p&0xFF0000ULL)>>16))`. -/
def MC6845_GET_DATA (p : Nat) : Nat := u8_cast ((p &&& 0xFF0000) >>> 16)

/-- Embeds `MC6845_SET_DATA(p,d)`: `p=((p&~0xFF0000ULL)|(((d)<<16)&0xFF0000ULL))`. -/
def MC6845_SET_DATA (p d : Nat) : Nat := (p &&& u64_not 0xFF0000) ||| (u64_shl d 16 &&& 0xFF0000)

/-- Embeds `MC6847_GET_DATA(p)`: `((uint8_t)((p&0xFF0000ULL)>>16))`. -/
def MC6847_GET_DATA (p : Nat) : Nat := u8_cast ((p &&& 0xFF0000) >>> 16)

/-- Embeds `MC6847_SET_DATA(p,d)`: `p=((p&~0xFF0000ULL)|(((d)<<16)&0xFF0000ULL))`. -/
def MC6847_SET_DATA (p d : Nat) : Nat := (p &&& u64_not 0xFF0000) ||| (u64_shl d 16 &&& 0xFF0000)

/-- Embeds `M6522_GET_DATA(p)`: `((uint8_t)(p>>16))`. -/
def M6522_GET_DATA (p : Nat) : Nat := u8_cast (p >>> 16)

/-- Embeds `M6522_SET_DATA(p,d)`: `p=((p&~0xFF0000)|((d&0xFF)<<16))`. -/
def M6522_SET_DATA (p d : Nat) : Nat :=
  (p &&& int_to_u64 (int_not 0xFF0000)) ||| ((d &&& 0xFF) <<< 16)

/-- Embeds `M6526_GET_DATA(p)`: `((uint8_t)(p>>16))`. -/
def M6526_GET_DATA (p : Nat) : Nat := u8_cast (p >>> 16)

/-- Embeds `M6526_SET_DATA(p,d)`: `p=((p&~0xFF0000)|((d&0xFF)<<16))`. -/
def M6526_SET_DATA (p d : Nat) : Nat :=
  (p &&& int_to_u64 (int_not 0xFF0000)) ||| ((d &&& 0xFF) <<< 16)

/-- Embeds `I8255_GET_DATA(p)`: `((uint8_t)(p>>16))`. -/
def I8255_GET_DATA (p : Nat) : Nat := u8_cast (p >>> 16)

/-- Embeds `I8255_SET_DATA(p,d)`: `p=((p&~0xFF0000)|((d&0xFF)<<16))`. -/
def I8255_SET_DATA (p d : Nat) : Nat :=
  (p &&& int_to_u64 (int_not 0xFF0000)) ||| ((d &&& 0xFF) <<< 16)

/-- Embeds `AY38910_GET_DATA(p)`: `((uint8_t)(p>>16))`. -/
def AY38910_GET_DATA (p : Nat) : Nat := u8_cast (p >>> 16)

/-- Embeds `AY38910_SET_DATA(p,d)`: `p=((p&~0xFF0000)|((d&0xFF)<<16))`. -/
def AY38910_SET_DATA (p d : Nat) : Nat :=
  (p &&& int_to_u64 (int_not 0xFF0000)) ||| ((d &&& 0xFF) <<< 16)

/-- Embeds `Z80CTC_GET_DATA(p)`: `((uint8_t)(p>>16))`. -/
def Z80CTC_GET_DATA (p : Nat) : Nat := u8_cast (p >>> 16)

/-- Embeds `Z80CTC_SET_DATA(p,d)`: `p=((p&~0xFF0000)|((d&0xFF)<<16))`. -/
def Z80CTC_SET_DATA (p d : Nat) : Nat :=
  (p &&& int_to_u64 (int_not 0xFF0000)) ||| ((d &&& 0xFF) <<< 16)

/-- Embeds `Z80PIO_GET_DATA(p)`: `((uint8_t)(p>>16))`. -/
def Z80PIO_GET_DATA (p : Nat) : Nat := u8_cast (p >>> 16)

/-- Embeds `Z80PIO_SET_DATA(p,d)`: `p=((p&~0xFF0000)|((d&0xFF)<<16))`. -/
def Z80PIO_SET_DATA (p d : Nat) : Nat :=
  (p &&& int_to_u64 (int_not 0xFF0000)) ||| ((d &&& 0xFF) <<< 16)

/-! ## Machines and their peripheral chips -/

/-- The union of a list of pin constants as one mask. -/
def pins_mask (l : List Nat) : Nat := l.foldl (fun m c => m ||| c) 0

/-- The pins of a header that lie above bit 39, the region left to the chip itself. -/
def chip_specific (l : List Nat) : List Nat := l.filter (fun c => decide (2 ^ 40 ≤ c))

/-- The peripheral chip types of `kc85_t`: `z80ctc_t ctc; z80pio_t pio;`. -/
def kc85_chips : List (List Nat) := [Z80CTC_pins, Z80PIO_pins]

/-- The peripheral chip types of `z9001_t`: `z80pio_t pio1; z80pio_t pio2; z80ctc_t ctc;`. -/
def z9001_chips : List (List Nat) := [Z80PIO_pins, Z80CTC_pins]

/-- The peripheral chip types of `atom_t`: `mc6847_t vdg; i8255_t ppi; m6522_t via;`. -/
def atom_chips : List (List Nat) := [MC6847_pins, I8255_pins, M6522_pins]

/-- The peripheral chip types of `cpc_t`: `ay38910_t psg; mc6845_t vdg; i8255_t ppi;`. -/
def cpc_chips : List (List Nat) := [AY38910_pins, MC6845_pins, I8255_pins]

/-- The peripheral chip types of `c64_t`:
`m6526_t cia_1; m6526_t cia_2; m6569_t vic; m6581_t sid;`. -/
def c64_chips : List (List Nat) := [M6526_pins, M6569_pins, M6581_pins]

/-- The machines whose bus wiring is considered. -/
def machines : List (List (List Nat)) :=
  [kc85_chips, z9001_chips, atom_chips, cpc_chips, c64_chips]

/-- Every pin constant defined by a peripheral chip header. -/
def peripheral_pins : List Nat :=
  Z80CTC_pins ++ Z80PIO_pins ++ I8255_pins ++ AY38910_pins ++ M6522_pins ++ M6526_pins ++
    M6569_pins ++ M6581_pins ++ MC6845_pins ++ MC6847_pins

/-! ## What the peripheral headers say about their pins

Each pin constant of a peripheral header is paired with what the header says about its
place in the pin word. A pin is marked as sitting on a CPU pin where the header says so: by a
comment naming the CPU pin (`same as Z80_M1`, `same as M6502_RW`, `shared with m6502 RDY`),
by a section comment (`data bus pins shared with CPU`, `register select same as lower 4
shared address bus bits`, `the address output pins share the same pin locations as the
system address bus`, `8 bits data/address bus shared with CPU data bus`), or by being an
address or data bus pin `A<n>`, `D<n>` of a chip on the CPU bus. The CPU pin is taken from
z80.h for the chips of the Z80 machines and from m6502.h for the 65xx chips and the MC6847;
both CPU headers define the address and data lines at the same bits. `I8255_A0`, `I8255_A1`
and `AY38910_A8` are listed by their headers among the chip's own control pins. -/

/-- What a peripheral header says about the place of one of its pins. -/
inductive pin_doc where
  /-- A pin of the chip itself: chip select, register select, port, video and timer lines. -/
  | own : pin_doc
  /-- The header places the pin on this pin of z80.h or m6502.h. -/
  | cpu (pin : Nat) : pin_doc
  /-- The header names a CPU pin as the same pin, but neither z80.h nor m6502.h defines a
  pin of that name: `Z80CTC_RESET` (`same as Z80_RESET`) and `AY38910_RESET` (`reset pin
  shared with CPU`). Both CPU headers leave reset to a function call. -/
  | cpu_missing : pin_doc
  deriving DecidableEq

/-- What z80ctc.h says about each of its pins, in source order. -/
def Z80CTC_pin_docs : List (Nat × pin_doc) :=
  [ (Z80CTC_M1, pin_doc.cpu Z80_M1), (Z80CTC_IORQ, pin_doc.cpu Z80_IORQ)
  , (Z80CTC_RD, pin_doc.cpu Z80_RD), (Z80CTC_INT, pin_doc.cpu Z80_INT)
  , (Z80CTC_RESET, pin_doc.cpu_missing), ( Z80CTC_IEIO, pin_doc.cpu Z80_IEIO)
  , (Z80CTC_RETI, pin_doc.cpu Z80_RETI), (Z80CTC_CE, pin_doc.own), (Z80CTC_CS0, pin_doc.own)
  , (Z80CTC_CS1, pin_doc.own), (Z80CTC_CLKTRG0, pin_doc.own), (Z80CTC_CLKTRG1, pin_doc.own)
  , (Z80CTC_CLKTRG2, pin_doc.own), (Z80CTC_CLKTRG3, pin_doc.own), (Z80CTC_ZCTO0, pin_doc.own)
  , (Z80CTC_ZCTO1, pin_doc.own), (Z80CTC_ZCTO2, pin_doc.own) ]

/-- What z80pio.h says about each of its pins, in source order. -/
def Z80PIO_pin_docs : List (Nat × pin_doc) :=
  [ (Z80PIO_M1, pin_doc.cpu Z80_M1), (Z80PIO_IORQ, pin_doc.cpu Z80_IORQ)
  , (Z80PIO_RD, pin_doc.cpu Z80_RD), (Z80PIO_INT, pin_doc.cpu Z80_INT)
  , ( Z80PIO_IEIO, pin_doc.cpu Z80_IEIO), (Z80PIO_RETI, pin_doc.cpu Z80_RETI)
  , (Z80PIO_CE, pin_doc.own), (Z80PIO_BASEL, pin_doc.own), (Z80PIO_CDSEL, pin_doc.own)
  , (Z80PIO_ARDY, pin_doc.own), (Z80PIO_BRDY, pin_doc.own), (Z80PIO_ASTB, pin_doc.own)
  , (Z80PIO_BSTB, pin_doc.own) ]

/-- What i8255.h says about each of its pins, in source order. -/
def I8255_pin_docs : List (Nat × pin_doc) :=
  [ (I8255_CS, pin_doc.own), (I8255_RD, pin_doc.own), (I8255_WR, pin_doc.own)
  , (I8255_A0, pin_doc.own), (I8255_A1, pin_doc.own), (I8255_D0, pin_doc.cpu Z80_D0)
  , (I8255_D1, pin_doc.cpu Z80_D1), (I8255_D2, pin_doc.cpu Z80_D2), (I8255_D3, pin_doc.cpu Z80_D3)
  , (I8255_D4, pin_doc.cpu Z80_D4), (I8255_D5, pin_doc.cpu Z80_D5), (I8255_D6, pin_doc.cpu Z80_D6)
  , (I8255_D7, pin_doc.cpu Z80_D7) ]

/-- What ay38910.h says about each of its pins, in source order. -/
def AY38910_pin_docs : List (Nat × pin_doc) :=
  [ (AY38910_DA0, pin_doc.cpu Z80_D0), (AY38910_DA1, pin_doc.cpu Z80_D1)
  , (AY38910_DA2, pin_doc.cpu Z80_D2), (AY38910_DA3, pin_doc.cpu Z80_D3)
  , (AY38910_DA4, pin_doc.cpu Z80_D4), (AY38910_DA5, pin_doc.cpu Z80_D5)
  , (AY38910_DA6, pin_doc.cpu Z80_D6), (AY38910_DA7, pin_doc.cpu Z80_D7)
  , (AY38910_RESET, pin_doc.cpu_missing), (AY38910_BDIR, pin_doc.own), (AY38910_BC1, pin_doc.own)
  , (AY38910_A8, pin_doc.own) ]

/-- What m6522.h says about each of its pins, in source order. -/
def M6522_pin_docs : List (Nat × pin_doc) :=
  [ (M6522_RW, pin_doc.cpu M6502_RW), (M6522_CS1, pin_doc.own), (M6522_CS2, pin_doc.own)
  , (M6522_CA1, pin_doc.own), (M6522_CA2, pin_doc.own), (M6522_CB1, pin_doc.own)
  , (M6522_CB2, pin_doc.own), (M6522_PA0, pin_doc.own), (M6522_PA1, pin_doc.own)
  , (M6522_PA2, pin_doc.own), (M6522_PA3, pin_doc.own), (M6522_PA4, pin_doc.own)
  , (M6522_PA5, pin_doc.own), (M6522_PA6, pin_doc.own), (M6522_PA7, pin_doc.own)
  , (M6522_PB0, pin_doc.own), (M6522_PB1, pin_doc.own), (M6522_PB2, pin_doc.own)
  , (M6522_PB3, pin_doc.own), (M6522_PB4, pin_doc.own), (M6522_PB5, pin_doc.own)
  , (M6522_PB6, pin_doc.own), (M6522_PB7, pin_doc.own), (M6522_RS0, pin_doc.cpu M6502_A0)
  , (M6522_RS1, pin_doc.cpu M6502_A1), (M6522_RS2, pin_doc.cpu M6502_A2)
  , (M6522_RS3, pin_doc.cpu M6502_A3), (M6522_D0, pin_doc.cpu M6502_D0)
  , (M6522_D1, pin_doc.cpu M6502_D1), (M6522_D2, pin_doc.cpu M6502_D2)
  , (M6522_D3, pin_doc.cpu M6502_D3), (M6522_D4, pin_doc.cpu M6502_D4)
  , (M6522_D5, pin_doc.cpu M6502_D5), (M6522_D6, pin_doc.cpu M6502_D6)
  , (M6522_D7, pin_doc.cpu M6502_D7) ]

/-- What m6526.h says about each of its pins, in source order. -/
def M6526_pin_docs : List (Nat × pin_doc) :=
  [ (M6526_RS0, pin_doc.cpu M6502_A0), (M6526_RS1, pin_doc.cpu M6502_A1)
  , (M6526_RS2, pin_doc.cpu M6502_A2), (M6526_RS3, pin_doc.cpu M6502_A3)
  , (M6526_D0, pin_doc.cpu M6502_D0), (M6526_D1, pin_doc.cpu M6502_D1)
  , (M6526_D2, pin_doc.cpu M6502_D2), (M6526_D3, pin_doc.cpu M6502_D3)
  , (M6526_D4, pin_doc.cpu M6502_D4), (M6526_D5, pin_doc.cpu M6502_D5)
  , (M6526_D6, pin_doc.cpu M6502_D6), (M6526_D7, pin_doc.cpu M6502_D7)
  , (M6526_RW, pin_doc.cpu M6502_RW), (M6526_IRQ, pin_doc.cpu M6502_IRQ), (M6526_CS, pin_doc.own)
  , (M6526_FLAG, pin_doc.own), (M6526_PC, pin_doc.own), (M6526_SP, pin_doc.own)
  , (M6526_TOD, pin_doc.own), (M6526_CNT, pin_doc.own) ]

/-- What m6569.h says about each of its pins, in source order. -/
def M6569_pin_docs : List (Nat × pin_doc) :=
  [ (M6569_A0, pin_doc.cpu M6502_A0), (M6569_A1, pin_doc.cpu M6502_A1)
  , (M6569_A2, pin_doc.cpu M6502_A2), (M6569_A3, pin_doc.cpu M6502_A3)
  , (M6569_A4, pin_doc.cpu M6502_A4), (M6569_A5, pin_doc.cpu M6502_A5)
  , (M6569_A6, pin_doc.cpu M6502_A6), (M6569_A7, pin_doc.cpu M6502_A7)
  , (M6569_A8, pin_doc.cpu M6502_A8), (M6569_A9, pin_doc.cpu M6502_A9)
  , (M6569_A10, pin_doc.cpu M6502_A10), (M6569_A11, pin_doc.cpu M6502_A11)
  , (M6569_A12, pin_doc.cpu M6502_A12), (M6569_A13, pin_doc.cpu M6502_A13)
  , (M6569_D0, pin_doc.cpu M6502_D0), (M6569_D1, pin_doc.cpu M6502_D1)
  , (M6569_D2, pin_doc.cpu M6502_D2), (M6569_D3, pin_doc.cpu M6502_D3)
  , (M6569_D4, pin_doc.cpu M6502_D4), (M6569_D5, pin_doc.cpu M6502_D5)
  , (M6569_D6, pin_doc.cpu M6502_D6), (M6569_D7, pin_doc.cpu M6502_D7)
  , (M6569_RW, pin_doc.cpu M6502_RW), (M6569_IRQ, pin_doc.cpu M6502_IRQ)
  , (M6569_BA, pin_doc.cpu M6502_RDY), (M6569_AEC, pin_doc.cpu M6510_AEC), (M6569_CS, pin_doc.own) ]

/-- What m6581.h says about each of its pins, in source order. -/
def M6581_pin_docs : List (Nat × pin_doc) :=
  [ (M6581_A0, pin_doc.cpu M6502_A0), (M6581_A1, pin_doc.cpu M6502_A1)
  , (M6581_A2, pin_doc.cpu M6502_A2), (M6581_A3, pin_doc.cpu M6502_A3)
  , (M6581_A4, pin_doc.cpu M6502_A4), (M6581_D0, pin_doc.cpu M6502_D0)
  , (M6581_D1, pin_doc.cpu M6502_D1), (M6581_D2, pin_doc.cpu M6502_D2)
  , (M6581_D3, pin_doc.cpu M6502_D3), (M6581_D4, pin_doc.cpu M6502_D4)
  , (M6581_D5, pin_doc.cpu M6502_D5), (M6581_D6, pin_doc.cpu M6502_D6)
  , (M6581_D7, pin_doc.cpu M6502_D7), (M6581_RW, pin_doc.cpu M6502_RW), (M6581_CS, pin_doc.own) ]

/-- What mc6845.h says about each of its pins, in source order. -/
def MC6845_pin_docs : List (Nat × pin_doc) :=
  [ (MC6845_MA0, pin_doc.cpu Z80_A0), (MC6845_MA1, pin_doc.cpu Z80_A1)
  , (MC6845_MA2, pin_doc.cpu Z80_A2), (MC6845_MA3, pin_doc.cpu Z80_A3)
  , (MC6845_MA4, pin_doc.cpu Z80_A4), (MC6845_MA5, pin_doc.cpu Z80_A5)
  , (MC6845_MA6, pin_doc.cpu Z80_A6), (MC6845_MA7, pin_doc.cpu Z80_A7)
  , (MC6845_MA8, pin_doc.cpu Z80_A8), (MC6845_MA9, pin_doc.cpu Z80_A9)
  , (MC6845_MA10, pin_doc.cpu Z80_A10), (MC6845_MA11, pin_doc.cpu Z80_A11)
  , (MC6845_MA12, pin_doc.cpu Z80_A12), (MC6845_MA13, pin_doc.cpu Z80_A13)
  , (MC6845_D0, pin_doc.cpu Z80_D0), (MC6845_D1, pin_doc.cpu Z80_D1)
  , (MC6845_D2, pin_doc.cpu Z80_D2), (MC6845_D3, pin_doc.cpu Z80_D3)
  , (MC6845_D4, pin_doc.cpu Z80_D4), (MC6845_D5, pin_doc.cpu Z80_D5)
  , (MC6845_D6, pin_doc.cpu Z80_D6), (MC6845_D7, pin_doc.cpu Z80_D7), (MC6845_CS, pin_doc.own)
  , (MC6845_RS, pin_doc.own), (MC6845_RW, pin_doc.own), (MC6845_LPSTB, pin_doc.own)
  , (MC6845_DE, pin_doc.own), (MC6845_VS, pin_doc.own), (MC6845_HS, pin_doc.own)
  , (MC6845_RA0, pin_doc.own), (MC6845_RA1, pin_doc.own), (MC6845_RA2, pin_doc.own)
  , (MC6845_RA3, pin_doc.own), (MC6845_RA4, pin_doc.own) ]

/-- What mc6847.h says about each of its pins, in source order. -/
def MC6847_pin_docs : List (Nat × pin_doc) :=
  [ (MC6847_A0, pin_doc.cpu M6502_A0), (MC6847_A1, pin_doc.cpu M6502_A1)
  , (MC6847_A2, pin_doc.cpu M6502_A2), (MC6847_A3, pin_doc.cpu M6502_A3)
  , (MC6847_A4, pin_doc.cpu M6502_A4), (MC6847_A5, pin_doc.cpu M6502_A5)
  , (MC6847_A6, pin_doc.cpu M6502_A6), (MC6847_A7, pin_doc.cpu M6502_A7)
  , (MC6847_A8, pin_doc.cpu M6502_A8), (MC6847_A9, pin_doc.cpu M6502_A9)
  , (MC6847_A10, pin_doc.cpu M6502_A10), (MC6847_A11, pin_doc.cpu M6502_A11)
  , (MC6847_A12, pin_doc.cpu M6502_A12), (MC6847_D0, pin_doc.cpu M6502_D0)
  , (MC6847_D1, pin_doc.cpu M6502_D1), (MC6847_D2, pin_doc.cpu M6502_D2)
  , (MC6847_D3, pin_doc.cpu M6502_D3), (MC6847_D4, pin_doc.cpu M6502_D4)
  , (MC6847_D5, pin_doc.cpu M6502_D5), (MC6847_D6, pin_doc.cpu M6502_D6)
  , (MC6847_D7, pin_doc.cpu M6502_D7), (MC6847_FS, pin_doc.own), (MC6847_HS, pin_doc.own)
  , (MC6847_RP, pin_doc.own), (MC6847_AG, pin_doc.own), (MC6847_AS, pin_doc.own)
  , (MC6847_INTEXT, pin_doc.own), (MC6847_INV, pin_doc.own), (MC6847_GM0, pin_doc.own)
  , (MC6847_GM1, pin_doc.own), (MC6847_GM2, pin_doc.own), (MC6847_CSS, pin_doc.own) ]

/-- Every pin constant defined by a peripheral chip header, with what its header says. -/
def peripheral_pin_docs : List (Nat × pin_doc) :=
  Z80CTC_pin_docs ++ Z80PIO_pin_docs ++ I8255_pin_docs ++ AY38910_pin_docs ++ M6522_pin_docs ++
    M6526_pin_docs ++ M6569_pin_docs ++ M6581_pin_docs ++ MC6845_pin_docs ++ MC6847_pin_docs

/-- The pin is documented as being the same as a CPU pin. -/
def pin_documented_shared (e : Nat × pin_doc) : Bool := decide (e.2 ≠ pin_doc.own)

/-- The pin is one of the CPU's own pins: its header places it on a pin that z80.h or
m6502.h defines, and it has the bit value of that pin. -/
def pin_is_cpu_pin (e : Nat × pin_doc) : Bool :=
  match e.2 with
  | pin_doc.cpu c => decide (e.1 = c)
  | _ => false

/-! ## Interrupt daisy-chain helper macros of z80.h

`Z80_DAISYCHAIN_BEGIN(pins)` expands to `if (pins&Z80_M1) { pins|=Z80_IEIO;` and
`Z80_DAISYCHAIN_END(pins)` to `pins&=~Z80_RETI; }`; the statements between the two macros
form the block, embedded as a function on the pin word. -/

/-- Embeds the assignment `pins|=Z80_IEIO;` of `Z80_DAISYCHAIN_BEGIN(pins)`: the pin word
with which the block is entered. -/
def Z80_DAISYCHAIN_BEGIN (pins : Nat) : Nat := pins ||| Z80_IEIO

/-- Embeds the assignment `pins&=~Z80_RETI;` of `Z80_DAISYCHAIN_END(pins)`. -/
def Z80_DAISYCHAIN_END (pins : Nat) : Nat := pins &&& u64_not Z80_RETI

/-- Embeds `Z80_DAISYCHAIN_BEGIN(pins) block Z80_DAISYCHAIN_END(pins)`, that is
`if (pins&Z80_M1) { pins|=Z80_IEIO; block pins&=~Z80_RETI; }`. -/
def Z80_DAISYCHAIN (block : Nat → Nat) (pins : Nat) : Nat :=
  if pins &&& Z80_M1 ≠ 0 then Z80_DAISYCHAIN_END (block (Z80_DAISYCHAIN_BEGIN pins)) else pins

/-! ## The M6510 port check of m6502.h -/

/-- Embeds `M6510_CHECK_IO(p)`: `((p&0xFFFEULL)==0)`. -/
def M6510_CHECK_IO (p : Nat) : Bool := decide ((p &&& 0xFFFE) = 0)

/-! ## Constants of mem.h -/

def MEM_ADDR_RANGE : Nat := 1 <<< 16
def MEM_ADDR_MASK : Nat := MEM_ADDR_RANGE - 1
def MEM_PAGE_SHIFT : Nat := 10
def MEM_PAGE_SIZE : Nat := 1 <<< MEM_PAGE_SHIFT
def MEM_PAGE_MASK : Nat := MEM_PAGE_SIZE - 1
def MEM_NUM_PAGES : Nat := MEM_ADDR_RANGE / MEM_PAGE_SIZE
def MEM_NUM_LAYERS : Nat := 4

/-! ## Interrupt-capable peripherals in the daisy chain -/

/-- The part of a peripheral's state that an interrupt-acknowledge cycle looks at: whether
an interrupt is pending and the interrupt-vector byte to answer with. -/
structure daisy_dev where
  int_pending : Bool
  int_vector : Nat

/-- Modelled from the spec: the test a peripheral's interrupt handler makes (the bodies of
`z80ctc_int` and `z80pio_int` are only declared in z80ctc.h and z80pio.h). The peripheral
responds when the pin word shows the interrupt-acknowledge pattern (M1 together with IORQ),
the chain-enable bit IEIO is still set and the peripheral has an interrupt pending. -/
def daisy_responds (dev : daisy_dev) (pins : Nat) : Bool :=
  decide (pins &&& (Z80_M1 ||| Z80_IORQ) = (Z80_M1 ||| Z80_IORQ)) &&
    (decide (pins &&& Z80_IEIO ≠ 0) && dev.int_pending)

/-- Modelled from the spec: the interrupt handler of a peripheral in the daisy chain (the
bodies of `z80ctc_int` and `z80pio_int` are only declared in z80ctc.h and z80pio.h). A
responding peripheral clears the chain-enable bit IEIO and writes its interrupt-vector byte
onto the data lines; a peripheral that does not respond returns the pin word unchanged. -/
def daisy_int (dev : daisy_dev) (pins : Nat) : Nat :=
  if daisy_responds dev pins = true then
    Z80_SET_DATA (pins &&& u64_not Z80_IEIO) dev.int_vector
  else pins

/-! ## The banked address space of mem.h

mem.h declares the structs and the functions; the function bodies are not part of the
sources. Host memory, which the mapped pointers point into, is a function from addresses to
bytes. -/

/-- A byte pointer as held in a `mem_page_t`: NULL, a pointer into host memory owned by the
caller, or a pointer into `mem_t.unmapped_page` or `mem_t.junk_page`. -/
inductive mem_ptr where
  | null : mem_ptr
  | host (addr : Nat) : mem_ptr
  | unmapped (off : Nat) : mem_ptr
  | junk (off : Nat) : mem_ptr
  deriving DecidableEq

/-- Pointer arithmetic `ptr + n`. -/
def mem_ptr.add : mem_ptr → Nat → mem_ptr
  | mem_ptr.null, _ => mem_ptr.null
  | mem_ptr.host a, n => mem_ptr.host (a + n)
  | mem_ptr.unmapped o, n => mem_ptr.unmapped (o + n)
  | mem_ptr.junk o, n => mem_ptr.junk (o + n)

/-- The struct `mem_page_t` of mem.h. -/
structure mem_page_t where
  read_ptr : mem_ptr
  write_ptr : mem_ptr

/-- The struct `mem_t` of mem.h: the per-layer page tables, the effective page table and
the two fallback pages. -/
structure mem_t where
  layers : Nat → Nat → mem_page_t
  page_table : Nat → mem_page_t
  unmapped_page : Nat → Nat
  junk_page : Nat → Nat

/-- Reads the byte a pointer points at. -/
def mem_load (mem : mem_t) (hostmem : Nat → Nat) : mem_ptr → Nat
  | mem_ptr.null => 0
  | mem_ptr.host a => hostmem a
  | mem_ptr.unmapped o => mem.unmapped_page o
  | mem_ptr.junk o => mem.junk_page o

/-- Writes a byte through a pointer; the result is the new `mem_t` and the new host
memory. -/
def mem_store (mem : mem_t) (hostmem : Nat → Nat) (data : Nat) : mem_ptr → mem_t × (Nat → Nat)
  | mem_ptr.null => (mem, hostmem)
  | mem_ptr.host a => (mem, fun x => if x = a then data else hostmem x)
  | mem_ptr.unmapped o =>
      (mem_t.mk mem.layers mem.page_table
        (fun x => if x = o then data else mem.unmapped_page x) mem.junk_page, hostmem)
  | mem_ptr.junk o =>
      (mem_t.mk mem.layers mem.page_table mem.unmapped_page
        (fun x => if x = o then data else mem.junk_page x), hostmem)

/-- Modelled from the spec: the order in which the effective page table is derived (the
body of the derivation is not in mem.h). The layers are walked from highest to lowest
priority; the spec names layer 1 as having higher priority than layer 0, so the walk starts
at the highest-numbered layer. -/
def mem_layer_order : List Nat := (List.range MEM_NUM_LAYERS).reverse

/-- Modelled from the spec: the effective mapping of one page (the body of the derivation is
not in mem.h). The first layer in priority order with a non-empty mapping of the page wins;
a page without a write source absorbs writes in the junk page; a page that no layer maps
reads from the unmapped page and writes to the junk page. -/
def mem_effective_page (mem : mem_t) (page_index : Nat) : mem_page_t :=
  match mem_layer_order.find?
      (fun l => decide ((mem.layers l page_index).read_ptr ≠ mem_ptr.null)) with
  | some l =>
      mem_page_t.mk (mem.layers l page_index).read_ptr
        (if (mem.layers l page_index).write_ptr = mem_ptr.null then mem_ptr.junk 0
         else (mem.layers l page_index).write_ptr)
  | none => mem_page_t.mk (mem_ptr.unmapped 0) (mem_ptr.junk 0)

/-- Modelled from the spec: deriving the effective page table from the layers (the body is
not in mem.h). -/
def mem_update_page_table (mem : mem_t) : mem_t :=
  mem_t.mk mem.layers (fun page_index => mem_effective_page mem page_index)
    mem.unmapped_page mem.junk_page

/-- Modelled from the spec: `mem_init` (declared in mem.h, body missing). No layer maps
anything, every page falls back to the unmapped page, which reads as the fixed value 0xFF,
and to the junk page. -/
def mem_init : mem_t :=
  mem_t.mk (fun _ _ => mem_page_t.mk mem_ptr.null mem_ptr.null)
    (fun _ => mem_page_t.mk (mem_ptr.unmapped 0) (mem_ptr.junk 0))
    (fun _ => 0xFF) (fun _ => 0)

/-- Modelled from the spec: the layer mutation of a map call (the bodies of the map
functions are not in mem.h). Every page of the layer whose start lies in
`addr .. addr+size-1` is marked with the matching part of the read source and of the write
source; a NULL write source is `none`. -/
def mem_map_layer (mem : mem_t) (layer addr size read_ptr : Nat) (write_ptr : Option Nat) :
    mem_t :=
  mem_t.mk
    (fun l page_index =>
      if l = layer ∧ addr ≤ page_index * MEM_PAGE_SIZE ∧
          page_index * MEM_PAGE_SIZE < addr + size then
        mem_page_t.mk (mem_ptr.host (read_ptr + (page_index * MEM_PAGE_SIZE - addr)))
          (match write_ptr with
           | some w => mem_ptr.host (w + (page_index * MEM_PAGE_SIZE - addr))
           | none => mem_ptr.null)
      else mem.layers l page_index)
    mem.page_table mem.unmapped_page mem.junk_page

/-- Modelled from the spec: `mem_map_rw` (declared in mem.h, body missing): the covered pages
of the layer are marked, then the effective page table is derived. -/
def mem_map_rw (mem : mem_t) (layer addr size read_ptr : Nat) (write_ptr : Option Nat) :
    mem_t :=
  mem_update_page_table (mem_map_layer mem layer addr size read_ptr write_ptr)

/-- Modelled from the spec: `mem_map_ram` (declared in mem.h, body missing): one buffer is
both read and write source. -/
def mem_map_ram (mem : mem_t) (layer addr size ptr : Nat) : mem_t :=
  mem_map_rw mem layer addr size ptr (some ptr)

/-- Modelled from the spec: `mem_map_rom` (declared in mem.h, body missing): a read source
without write source. -/
def mem_map_rom (mem : mem_t) (layer addr size ptr : Nat) : mem_t :=
  mem_map_rw mem layer addr size ptr none

/-- Modelled from the spec: the layer mutation of `mem_unmap_layer` (body not in mem.h): every
page of the layer becomes empty, the other layers keep their mappings. -/
def mem_clear_layer (mem : mem_t) (layer : Nat) : mem_t :=
  mem_t.mk
    (fun l page_index =>
      if l = layer then mem_page_t.mk mem_ptr.null mem_ptr.null else mem.layers l page_index)
    mem.page_table mem.unmapped_page mem.junk_page

/-- Modelled from the spec: `mem_unmap_layer` (declared in mem.h, body missing): the layer is
emptied, then the effective page table is derived. -/
def mem_unmap_layer (mem : mem_t) (layer : Nat) : mem_t :=
  mem_update_page_table (mem_clear_layer mem layer)

/-- Modelled from the spec: `mem_rd` (declared in mem.h, body missing): the byte at the page
offset of the read source of the effective page. -/
def mem_rd (mem : mem_t) (hostmem : Nat → Nat) (addr : Nat) : Nat :=
  mem_load mem hostmem
    ((mem.page_table (addr >>> MEM_PAGE_SHIFT)).read_ptr.add (addr &&& MEM_PAGE_MASK))

/-- Modelled from the spec: `mem_wr` (declared in mem.h, body missing): the byte is stored
at the page offset of the write source of the effective page. -/
def mem_wr (mem : mem_t) (hostmem : Nat → Nat) (addr data : Nat) : mem_t × (Nat → Nat) :=
  mem_store mem hostmem data
    ((mem.page_table (addr >>> MEM_PAGE_SHIFT)).write_ptr.add (addr &&& MEM_PAGE_MASK))

/-- A valid mapping request: an existing layer, a page-aligned address and size, and a range
inside the 16-bit address space. -/
def mem_valid_mapping (layer addr size : Nat) : Prop :=
  layer < MEM_NUM_LAYERS ∧ addr % MEM_PAGE_SIZE = 0 ∧ size % MEM_PAGE_SIZE = 0 ∧
    addr + size ≤ MEM_ADDR_RANGE

/-! ## The clock pacer of clk.h

clk.h declares `clk_t` and the three functions; their bodies are not part of the sources. -/

/-- The struct `clk_t` of clk.h: `int64_t freq_hz; int ticks_to_run; int overrun_ticks;`. -/
structure clk_t where
  freq_hz : Int
  ticks_to_run : Int
  overrun_ticks : Int

/-- Modelled from the spec: `clk_init` (declared in clk.h, body missing): the frequency is
stored, nothing is owed and nothing is overrun. -/
def clk_init (freq_hz : Int) : clk_t := clk_t.mk freq_hz 0 0

/-- Modelled from the spec: the tick count of a time span before the overrun is taken off,
`round(micro_seconds * freq / 1e6)`, rounding half up. -/
def clk_nominal_ticks (clk : clk_t) (micro_seconds : Int) : Int :=
  (clk.freq_hz * micro_seconds + 500000) / 1000000

/-- Modelled from the spec: `clk_ticks_to_run` (declared in clk.h, body missing): the ticks
owed for this step are the nominal ticks minus the overrun of the previous step, clamped to
be non-negative. The result is the new clock state; the returned budget is its field
`ticks_to_run`. -/
def clk_ticks_to_run (clk : clk_t) (micro_seconds : Int) : clk_t :=
  clk_t.mk clk.freq_hz (max 0 (clk_nominal_ticks clk micro_seconds - clk.overrun_ticks))
    clk.overrun_ticks

/-- Modelled from the spec: `clk_ticks_executed` (declared in clk.h, body missing): the new
overrun is the number of executed ticks minus the budget of this step; it is negative when
fewer ticks than the budget were executed. -/
def clk_ticks_executed (clk : clk_t) (ticks : Int) : clk_t :=
  clk_t.mk clk.freq_hz clk.ticks_to_run (ticks - clk.ticks_to_run)

/-- One pacing step in which the emulator executes exactly the budget it was given. -/
def clk_exact_step (micro_seconds : Int) (clk : clk_t) : clk_t :=
  clk_ticks_executed (clk_ticks_to_run clk micro_seconds)
    (clk_ticks_to_run clk micro_seconds).ticks_to_run

/-! ## The CPU execution engine

z80.h and m6502.h declare `z80_exec`, `z80_opdone` and `m6502_exec` and document them; the
function bodies are not part of the sources. What one opcode does to the registers is a
parameter of the model. -/

def Z80_MAX_NUM_TRAPS : Nat := 4
def M6502_MAX_NUM_TRAPS : Nat := 8

/-- The instruction semantics the engine is run with: where the program counter is found in
the register state, and what fetching and executing one opcode does. `step regs ddfd` gets
the registers and whether an index-prefix byte precedes the opcode, and returns the new
registers, the number of ticks taken, and whether the opcode was itself a DD/FD prefix byte
(so that its instruction is not yet complete). -/
structure cpu_isa (σ : Type) where
  pc : σ → Nat
  step : σ → Bool → σ × Nat × Bool

/-- The CPU state the engine works on: the registers, the flag that a DD/FD prefix byte has
been consumed and its instruction is pending, the trap slots (valid flag and address each)
and the id of the trap hit last, -1 for none. -/
structure cpu_state (σ : Type) where
  regs : σ
  ddfd : Bool
  trap_valid : Nat → Bool
  trap_addr : Nat → Nat
  trap_id : Int

/-- Modelled from the spec: the trap check made after a completed instruction (part of the
missing body of the exec functions). The valid slots are scanned in order; the first slot
whose address is the program counter is the trap hit, -1 means no slot matches. -/
def cpu_trap_scan (num_traps : Nat) (trap_valid : Nat → Bool) (trap_addr : Nat → Nat)
    (pc : Nat) : Int :=
  match (List.range num_traps).find? (fun i => trap_valid i && decide (trap_addr i = pc)) with
  | some i => (i : Int)
  | none => -1

/-- Modelled from the spec: one round of the exec loop (part of the missing body of the exec
functions), with the tick counter carried along. One opcode is fetched and executed; after a
DD/FD prefix byte the instruction is pending and no trap is checked, after a completed
instruction the program counter is checked against the trap slots. -/
def cpu_round {σ : Type} (isa : cpu_isa σ) (num_traps : Nat) (x : cpu_state σ × Nat) :
    cpu_state σ × Nat :=
  if (isa.step x.1.regs x.1.ddfd).2.2 = true then
    (cpu_state.mk (isa.step x.1.regs x.1.ddfd).1 true x.1.trap_valid x.1.trap_addr x.1.trap_id,
      x.2 + (isa.step x.1.regs x.1.ddfd).2.1)
  else
    (cpu_state.mk (isa.step x.1.regs x.1.ddfd).1 false x.1.trap_valid x.1.trap_addr
        (cpu_trap_scan num_traps x.1.trap_valid x.1.trap_addr
          (isa.pc (isa.step x.1.regs x.1.ddfd).1)),
      x.2 + (isa.step x.1.regs x.1.ddfd).2.1)

/-- Modelled from the spec: the loop of the exec functions (their bodies are missing),
`do { one round } while (ticks < num_ticks && trap_id < 0)`: as z80.h documents, the loop
may end right after a DD/FD prefix byte. The first argument bounds the number of further
rounds. -/
def cpu_exec_loop {σ : Type} (isa : cpu_isa σ) (num_traps num_ticks : Nat) :
    Nat → cpu_state σ × Nat → cpu_state σ × Nat
  | 0, x => cpu_round isa num_traps x
  | fuel + 1, x =>
      if (cpu_round isa num_traps x).2 < num_ticks ∧ (cpu_round isa num_traps x).1.trap_id < 0
      then cpu_exec_loop isa num_traps num_ticks fuel (cpu_round isa num_traps x)
      else cpu_round isa num_traps x

/-- The state in which an exec call starts its loop: no trap hit yet. -/
def cpu_exec_entry {σ : Type} (cpu : cpu_state σ) : cpu_state σ × Nat :=
  (cpu_state.mk cpu.regs cpu.ddfd cpu.trap_valid cpu.trap_addr (-1), 0)

/-- Modelled from the spec: the exec function of a CPU with `num_traps` trap slots (the
bodies of `z80_exec` and `m6502_exec` are missing). The trap id is reset, then the loop
runs. The result is the CPU state on return and the number of executed ticks. Every opcode
takes at least one tick, so `num_ticks` further rounds are always enough. -/
def cpu_exec {σ : Type} (isa : cpu_isa σ) (num_traps : Nat) (cpu : cpu_state σ)
    (num_ticks : Nat) : cpu_state σ × Nat :=
  cpu_exec_loop isa num_traps num_ticks num_ticks (cpu_exec_entry cpu)

/-- Modelled from the spec: `z80_exec` (declared and documented in z80.h, body missing),
the exec function with the four trap slots of the Z80. -/
def z80_exec {σ : Type} (isa : cpu_isa σ) (cpu : cpu_state σ) (num_ticks : Nat) :
    cpu_state σ × Nat :=
  cpu_exec isa Z80_MAX_NUM_TRAPS cpu num_ticks

/-- Modelled from the spec: `z80_opdone` (declared and documented in z80.h, body missing):
false when the CPU is in the middle of a DD/FD prefixed instruction. -/
def z80_opdone {σ : Type} (cpu : cpu_state σ) : Bool := !cpu.ddfd

/-- Modelled from the spec: `m6502_exec` (declared and documented in m6502.h, body missing),
the exec function with the eight trap slots of the 6502. -/
def m6502_exec {σ : Type} (isa : cpu_isa σ) (cpu : cpu_state σ) (num_ticks : Nat) :
    cpu_state σ × Nat :=
  cpu_exec isa M6502_MAX_NUM_TRAPS cpu num_ticks

/-- A small instruction set for examples: the register state is the program counter alone,
the byte at address 0 is a DD prefix, every other opcode is a one-byte instruction; each
opcode takes 4 ticks. -/
def demo_isa : cpu_isa Nat :=
  cpu_isa.mk (fun pc => pc) (fun pc _ => (pc + 1, 4, decide (pc = 0)))

/-- An example CPU state: program counter `pc`, no instruction pending, trap slot 1 armed
at address 3. -/
def demo_cpu (pc : Nat) : cpu_state Nat :=
  cpu_state.mk pc false (fun i => decide (i = 1)) (fun _ => 3) (-1)

/-! ## Constants of kc85.h -/

def KC85_NUM_SLOTS : Nat := 2
def KC85_EXP_BUFSIZE : Nat := KC85_NUM_SLOTS * 64 * 1024
def KC85_PIO_A_CAOS_ROM : Nat := 1 <<< 0
def KC85_PIO_A_RAM : Nat := 1 <<< 1
def KC85_PIO_A_IRM : Nat := 1 <<< 2
def KC85_PIO_A_RAM_RO : Nat := 1 <<< 3
def KC85_PIO_A_UNUSED : Nat := 1 <<< 4
def KC85_PIO_A_TAPE_LED : Nat := 1 <<< 5
def KC85_PIO_A_TAPE_MOTOR : Nat := 1 <<< 6
def KC85_PIO_A_BASIC_ROM : Nat := 1 <<< 7
def KC85_PIO_B_VOLUME_MASK : Nat := (1 <<< 5) - 1
def KC85_PIO_B_RAM8 : Nat := 1 <<< 5
def KC85_PIO_B_RAM8_RO : Nat := 1 <<< 6
def KC85_PIO_B_BLINK_ENABLED : Nat := 1 <<< 7
def KC85_IO84_SEL_VIEW_IMG : Nat := 1 <<< 0
def KC85_IO84_SEL_CPU_COLOR : Nat := 1 <<< 1
def KC85_IO84_SEL_CPU_IMG : Nat := 1 <<< 2
def KC85_IO84_HICOLOR : Nat := 1 <<< 3
def KC85_IO84_SEL_RAM8 : Nat := 1 <<< 4
def KC85_IO84_BLOCKSEL_RAM8 : Nat := 1 <<< 5
def KC85_IO86_RAM4 : Nat := 1 <<< 0
def KC85_IO86_RAM4_RO : Nat := 1 <<< 1
def KC85_IO86_CAOS_ROM_C : Nat := 1 <<< 7

/-- The memory layer of expansion slot `slot` of the KC85: kc85.h notes that each slot needs
its own layer, starting at layer 1, layer 0 being used by the base system. -/
def kc85_slot_layer (slot : Nat) : Nat := 1 + slot

/-! ## Frame constants of mc6847.h -/

def MC6847_VBLANK_LINES : Nat := 13
def MC6847_TOP_BORDER_LINES : Nat := 25
def MC6847_DISPLAY_LINES : Nat := 192
def MC6847_BOTTOM_BORDER_LINES : Nat := 26
def MC6847_VRETRACE_LINES : Nat := 6
def MC6847_ALL_LINES : Nat := 262
def MC6847_DISPLAY_START : Nat := MC6847_VBLANK_LINES + MC6847_TOP_BORDER_LINES
def MC6847_DISPLAY_END : Nat := MC6847_DISPLAY_START + MC6847_DISPLAY_LINES
def MC6847_BOTTOM_BORDER_END : Nat := MC6847_DISPLAY_END + MC6847_BOTTOM_BORDER_LINES
def MC6847_FSYNC_START : Nat := MC6847_DISPLAY_END
def MC6847_DISPLAY_WIDTH : Nat := 320
def MC6847_DISPLAY_HEIGHT : Nat :=
  MC6847_TOP_BORDER_LINES + MC6847_DISPLAY_LINES + MC6847_BOTTOM_BORDER_LINES
def MC6847_IMAGE_WIDTH : Nat := 256
def MC6847_IMAGE_HEIGHT : Nat := 192
def MC6847_BORDER_PIXELS : Nat := (MC6847_DISPLAY_WIDTH - MC6847_IMAGE_WIDTH) / 2

/-- The least size in bytes of `mc6847_desc_t.rgba8_buffer` that the comment on
`rgba8_buffer_size` asks for: `320*244*4`. -/
def mc6847_min_rgba8_buffer_size : Nat := 320 * 244 * 4

/-! ## Row-address and register-select macros -/

/-- Embeds `M6522_SET_ADDR(p,d)`: `p=((p&~0xF)|(d&0xF))`, with `~0xF` an `int`. -/
def M6522_SET_ADDR (p d : Nat) : Nat := (p &&& int_to_u64 (int_not 0xF)) ||| (d &&& 0xF)

/-- Embeds `M6526_SET_ADDR(p,d)`: `p=((p&~0xF)|(d&0xF))`, with `~0xF` an `int`. -/
def M6526_SET_ADDR (p d : Nat) : Nat := (p &&& int_to_u64 (int_not 0xF)) ||| (d &&& 0xF)

/-! ## The example tick callback of z80.h -/

/-- Embeds the tick callback given in the documentation of z80.h, over the global array
`uint8_t mem[1<<16]`; the arguments `num_ticks` and `user_data` are not used by its body. The
result is the new content of `mem` and the returned pin word.
```
if (pins & Z80_MREQ) {
    if (pins & Z80_RD) { Z80_SET_DATA(pins, mem[Z80_GET_ADDR(pins)]); }
    else if (pins & Z80_WR) { mem[Z80_GET_ADDR(pins)] = Z80_GET_DATA(pins); }
}
else if (pins & Z80_IORQ) { }
return pins;
``` -/
def tick (mem : Nat → Nat) (pins : Nat) : (Nat → Nat) × Nat :=
  if pins &&& Z80_MREQ ≠ 0 then
    if pins &&& Z80_RD ≠ 0 then
      (mem, Z80_SET_DATA pins (mem (Z80_GET_ADDR pins)))
    else if pins &&& Z80_WR ≠ 0 then
      (fun x => if x = Z80_GET_ADDR pins then Z80_GET_DATA pins else mem x, pins)
    else (mem, pins)
  else if pins &&& Z80_IORQ ≠ 0 then (mem, pins)
  else (mem, pins)

/-! ## The trap table

z80.h and m6502.h declare `set_trap`, `clear_trap` and `has_trap` for their CPU; the bodies
are not part of the sources. The specification gives every slot of the table a validity
flag and an address, the fields `trap_valid` and `trap_addr` of the CPU state on which the
exec loop makes its trap check. -/

theorem testBit_of_lt_pow {x n i : Nat} (h : x < 2 ^ n) (hi : n ≤ i) : x.testBit i = false :=
  Nat.testBit_lt_two_pow (Nat.lt_of_lt_of_le h (Nat.pow_le_pow_right (by decide) hi))

theorem testBit_u64 (x i : Nat) : (u64 x).testBit i = (decide (i < 64) && x.testBit i) := by
  unfold u64
  rw [Nat.testBit_mod_two_pow]

theorem testBit_u64_not (m i : Nat) :
    (u64_not m).testBit i = (decide (i < 64) && !(m.testBit i)) := by
  unfold u64_not
  have h : m % 2 ^ 64 < 2 ^ 64 := Nat.mod_lt _ (by decide)
  have e : 2 ^ 64 - 1 - m % 2 ^ 64 = 2 ^ 64 - (m % 2 ^ 64 + 1) := by omega
  rw [e, Nat.testBit_two_pow_sub_succ h, Nat.testBit_mod_two_pow]
  by_cases hi : i < 64 <;> simp [hi]

theorem testBit_u64_shl (x n i : Nat) :
    (u64_shl x n).testBit i
      = (decide (i < 64) && (decide (n ≤ i) && (decide (i - n < 64) && x.testBit (i - n)))) := by
  unfold u64_shl
  rw [Nat.testBit_mod_two_pow, Nat.testBit_shiftLeft, Nat.testBit_mod_two_pow]

theorem testBit_field (lo w i : Nat) :
    (((2 ^ w - 1) <<< lo)).testBit i = (decide (lo ≤ i) && decide (i < lo + w)) := by
  rw [Nat.testBit_shiftLeft, Nat.testBit_two_pow_sub_one]
  by_cases h : lo ≤ i
  · simp [h]; omega
  · simp [h]

theorem testBit_FFFF (i : Nat) : (0xFFFF : Nat).testBit i = decide (i < 16) := by
  have e : (0xFFFF : Nat) = 2 ^ 16 - 1 := by decide
  rw [e, Nat.testBit_two_pow_sub_one]

theorem testBit_FF (i : Nat) : (0xFF : Nat).testBit i = decide (i < 8) := by
  have e : (0xFF : Nat) = 2 ^ 8 - 1 := by decide
  rw [e, Nat.testBit_two_pow_sub_one]

theorem testBit_FF0000 (i : Nat) :
    (0xFF0000 : Nat).testBit i = (decide (16 ≤ i) && decide (i < 24)) := by
  have e : (0xFF0000 : Nat) = (2 ^ 8 - 1) <<< 16 := by decide
  rw [e, testBit_field]

theorem testBit_WAIT_MASK (i : Nat) :
    Z80_WAIT_MASK.testBit i = (decide (34 ≤ i) && decide (i < 37)) := by
  have e : Z80_WAIT_MASK = (2 ^ 3 - 1) <<< 34 := by decide
  rw [e, testBit_field]

theorem int_mask_eq : int_to_u64 (int_not 0xFF0000) = u64_not 0xFF0000 := by decide

/-! ## Address and data bus accessors -/

theorem get_set_addr (p a : Nat) : Z80_GET_ADDR (Z80_SET_ADDR p a) = a % 2 ^ 16 := by
  apply Nat.eq_of_testBit_eq
  intro i
  simp only [Z80_GET_ADDR, Z80_SET_ADDR, u16_cast, Nat.testBit_mod_two_pow, Nat.testBit_and,
    Nat.testBit_or, testBit_u64_not, testBit_FFFF, testBit_u64]
  by_cases h : i < 16
  · have h1 : i < 64 := by omega
    simp [h, h1]
  · simp [h]

theorem get_set_data (p d : Nat) : Z80_GET_DATA (Z80_SET_DATA p d) = d % 2 ^ 8 := by
  apply Nat.eq_of_testBit_eq
  intro i
  simp only [Z80_GET_DATA, Z80_SET_DATA, u8_cast, Nat.testBit_mod_two_pow, Nat.testBit_and,
    Nat.testBit_or, Nat.testBit_shiftRight, testBit_u64_not, testBit_FF0000, testBit_u64_shl]
  by_cases h : i < 8
  · have h1 : 16 + i < 64 := by omega
    have h3 : 16 + i < 24 := by omega
    have h4 : 16 + i - 16 = i := by omega
    have h5 : i < 64 := by omega
    simp [h, h1, h3, h4, h5]
  · simp [h]

theorem set_addr_frame (p a i : Nat) (hp : p < 2 ^ 64) (hi : 16 ≤ i) :
    (Z80_SET_ADDR p a).testBit i = p.testBit i := by
  simp only [Z80_SET_ADDR, Nat.testBit_and, Nat.testBit_or, testBit_u64_not, testBit_FFFF,
    testBit_u64]
  have h : ¬ i < 16 := by omega
  by_cases h64 : i < 64
  · simp [h, h64]
  · simp [h, h64, testBit_of_lt_pow hp (Nat.le_of_not_lt h64)]

theorem set_data_frame (p d i : Nat) (hp : p < 2 ^ 64) (hi : i < 16 ∨ 24 ≤ i) :
    (Z80_SET_DATA p d).testBit i = p.testBit i := by
  simp only [Z80_SET_DATA, Nat.testBit_and, Nat.testBit_or, testBit_u64_not, testBit_FF0000,
    testBit_u64_shl]
  by_cases h64 : i < 64
  · rcases hi with hi | hi
    · have h : ¬ 16 ≤ i := by omega
      simp [h, h64]
    · have h : ¬ i < 24 := by omega
      simp [h, h64]
  · simp [h64, testBit_of_lt_pow hp (Nat.le_of_not_lt h64)]

theorem set_wait_frame (p w i : Nat) (hp : p < 2 ^ 64) (hi : i < 34 ∨ 36 < i) :
    (Z80_SET_WAIT p w).testBit i = p.testBit i := by
  simp only [Z80_SET_WAIT, Nat.testBit_and, Nat.testBit_or, testBit_u64_not, testBit_WAIT_MASK,
    testBit_u64_shl]
  by_cases h64 : i < 64
  · rcases hi with hi | hi
    · have h : ¬ 34 ≤ i := by omega
      simp [h, h64]
    · have h : ¬ i < 37 := by omega
      simp [h, h64]
  · simp [h64, testBit_of_lt_pow hp (Nat.le_of_not_lt h64)]

theorem get_addr_set_data (p d : Nat) : Z80_GET_ADDR (Z80_SET_DATA p d) = Z80_GET_ADDR p := by
  apply Nat.eq_of_testBit_eq
  intro i
  simp only [Z80_GET_ADDR, Z80_SET_DATA, u16_cast, Nat.testBit_mod_two_pow, Nat.testBit_and,
    Nat.testBit_or, testBit_u64_not, testBit_FFFF, testBit_FF0000, testBit_u64_shl]
  by_cases h : i < 16
  · have h1 : i < 64 := by omega
    have h2 : ¬ 16 ≤ i := by omega
    simp [h, h1, h2]
  · simp [h]

theorem get_data_set_addr (p a : Nat) : Z80_GET_DATA (Z80_SET_ADDR p a) = Z80_GET_DATA p := by
  apply Nat.eq_of_testBit_eq
  intro i
  simp only [Z80_GET_DATA, Z80_SET_ADDR, u8_cast, Nat.testBit_mod_two_pow, Nat.testBit_and,
    Nat.testBit_or, Nat.testBit_shiftRight, testBit_u64_not, testBit_FFFF, testBit_FF0000,
    testBit_u64]
  by_cases h : i < 8
  · have h1 : 16 + i < 64 := by omega
    have h2 : ¬ 16 + i < 16 := by omega
    simp [h, h1, h2]
  · simp [h]

theorem and_pin_eq_of_frame {x y c : Nat} (h : ∀ i, c.testBit i = true → x.testBit i = y.testBit i) :
    x &&& c = y &&& c := by
  apply Nat.eq_of_testBit_eq
  intro i
  simp only [Nat.testBit_and]
  cases hc : c.testBit i
  · simp
  · simp [h i hc]

theorem control_pin_bits :
    ∀ c ∈ Z80_control_pins, c < 2 ^ 64 ∧ c &&& 0xFFFFFF = 0 := by decide

theorem testBit_FFFFFF (i : Nat) : (0xFFFFFF : Nat).testBit i = decide (i < 24) := by
  have e : (0xFFFFFF : Nat) = 2 ^ 24 - 1 := by decide
  rw [e, Nat.testBit_two_pow_sub_one]

theorem testBit_low_zero {c i : Nat} (hz : c &&& 0xFFFFFF = 0) (hi : i < 24) :
    c.testBit i = false := by
  have h := congrArg (fun x => Nat.testBit x i) hz
  simpa [Nat.testBit_and, testBit_FFFFFF, hi] using h

theorem make_pins_eq (ctrl addr data : Nat) (hc : ctrl < 2 ^ 64) (hz : ctrl &&& 0xFFFFFF = 0) :
    Z80_MAKE_PINS ctrl addr data = Z80_SET_DATA (Z80_SET_ADDR ctrl addr) data := by
  apply Nat.eq_of_testBit_eq
  intro i
  simp only [Z80_MAKE_PINS, Z80_SET_DATA, Z80_SET_ADDR, Nat.testBit_and, Nat.testBit_or,
    testBit_u64_not, testBit_FFFF, testBit_FF0000, testBit_u64, testBit_u64_shl]
  by_cases h24 : i < 24
  · have h64 : i < 64 := by omega
    rw [testBit_low_zero hz h24]
    by_cases h16 : i < 16
    · have h : ¬ 16 ≤ i := by omega
      simp [h16, h, h64]
    · simp [h16, h24, h64]
  · have h16 : ¬ i < 16 := by omega
    by_cases h64 : i < 64
    · simp [h16, h24, h64]
    · simp [h16, h24, h64, testBit_of_lt_pow hc (Nat.le_of_not_lt h64)]

/-! ## Claims C1 to C3 -/

/-- C1: reading the address bus after Z80_SET_ADDR(p, a) returns a for every 16-bit a, and
reading the data bus after Z80_SET_DATA(p, d) returns d for every 8-bit d, for every pin
word p; the same round trips hold for the M6502 accessors. -/
theorem C1_bus_round_trip (p a d : Nat) (ha : a < 2 ^ 16) (hd : d < 2 ^ 8) :
    Z80_GET_ADDR (Z80_SET_ADDR p a) = a ∧ Z80_GET_DATA (Z80_SET_DATA p d) = d ∧
    M6502_GET_ADDR (M6502_SET_ADDR p a) = a ∧ M6502_GET_DATA (M6502_SET_DATA p d) = d := by
  have e1 : Z80_GET_ADDR (Z80_SET_ADDR p a) = a := by
    rw [get_set_addr, Nat.mod_eq_of_lt ha]
  have e2 : Z80_GET_DATA (Z80_SET_DATA p d) = d := by
    rw [get_set_data, Nat.mod_eq_of_lt hd]
  exact ⟨e1, e2, e1, e2⟩

theorem C1_bus_round_trip_witness :
    Z80_GET_ADDR (Z80_SET_ADDR 0xFFFFFFFFFFFFFFFF 0x1234) = 0x1234 ∧
    Z80_GET_DATA (Z80_SET_DATA 0xFFFFFFFFFFFFFFFF 0x5A) = 0x5A ∧
    M6502_GET_ADDR (M6502_SET_ADDR 0xFFFFFFFFFFFFFFFF 0x1234) = 0x1234 ∧
    M6502_GET_DATA (M6502_SET_DATA 0xFFFFFFFFFFFFFFFF 0x5A) = 0x5A :=
  C1_bus_round_trip 0xFFFFFFFFFFFFFFFF 0x1234 0x5A (by decide) (by decide)

/-- C2: on a 64-bit pin word, Z80_SET_ADDR changes no bit outside bits 0..15, Z80_SET_DATA no
bit outside bits 16..23 and Z80_SET_WAIT no bit outside bits 34..36, whatever the argument;
hence setting the data bus keeps Z80_GET_ADDR and every control pin, and setting the address
keeps Z80_GET_DATA. -/
theorem C2_setter_frames (p a d w : Nat) (hp : p < 2 ^ 64) :
    (∀ i, 16 ≤ i → (Z80_SET_ADDR p a).testBit i = p.testBit i) ∧
    (∀ i, i < 16 ∨ 24 ≤ i → (Z80_SET_DATA p d).testBit i = p.testBit i) ∧
    (∀ i, i < 34 ∨ 36 < i → (Z80_SET_WAIT p w).testBit i = p.testBit i) ∧
    Z80_GET_ADDR (Z80_SET_DATA p d) = Z80_GET_ADDR p ∧
    (∀ c ∈ Z80_control_pins, Z80_SET_DATA p d &&& c = p &&& c) ∧
    Z80_GET_DATA (Z80_SET_ADDR p a) = Z80_GET_DATA p := by
  refine ⟨fun i hi => set_addr_frame p a i hp hi, fun i hi => set_data_frame p d i hp hi,
    fun i hi => set_wait_frame p w i hp hi, get_addr_set_data p d, ?_, get_data_set_addr p a⟩
  intro c hc
  apply and_pin_eq_of_frame
  intro i hi
  apply set_data_frame p d i hp
  by_cases h24 : i < 24
  · rw [testBit_low_zero (control_pin_bits c hc).2 h24] at hi
    exact absurd hi (by decide)
  · exact Or.inr (Nat.le_of_not_lt h24)

theorem C2_setter_frames_witness :
    (∀ i, 16 ≤ i → (Z80_SET_ADDR 0xA5A5A5A5A5A5A5A5 0x1234).testBit i
      = (0xA5A5A5A5A5A5A5A5 : Nat).testBit i) ∧
    (∀ i, i < 16 ∨ 24 ≤ i → (Z80_SET_DATA 0xA5A5A5A5A5A5A5A5 0x5A).testBit i
      = (0xA5A5A5A5A5A5A5A5 : Nat).testBit i) ∧
    (∀ i, i < 34 ∨ 36 < i → (Z80_SET_WAIT 0xA5A5A5A5A5A5A5A5 9).testBit i
      = (0xA5A5A5A5A5A5A5A5 : Nat).testBit i) ∧
    Z80_GET_ADDR (Z80_SET_DATA 0xA5A5A5A5A5A5A5A5 0x5A) = Z80_GET_ADDR 0xA5A5A5A5A5A5A5A5 ∧
    (∀ c ∈ Z80_control_pins,
      Z80_SET_DATA 0xA5A5A5A5A5A5A5A5 0x5A &&& c = 0xA5A5A5A5A5A5A5A5 &&& c) ∧
    Z80_GET_DATA (Z80_SET_ADDR 0xA5A5A5A5A5A5A5A5 0x1234) = Z80_GET_DATA 0xA5A5A5A5A5A5A5A5 :=
  C2_setter_frames 0xA5A5A5A5A5A5A5A5 0x1234 0x5A 9 (by decide)

/-- C3: for a control mask with no bit in bits 0..23, a 16-bit addr and an 8-bit data,
Z80_MAKE_PINS(ctrl, addr, data) has address addr, data byte data and bits 24..63 equal to
those of ctrl, and equals Z80_SET_ADDR then Z80_SET_DATA applied to ctrl; M6502_MAKE_PINS
satisfies the same with the M6502 accessors. -/
theorem C3_make_pins (ctrl addr data : Nat) (hc : ctrl < 2 ^ 64) (hz : ctrl &&& 0xFFFFFF = 0)
    (ha : addr < 2 ^ 16) (hd : data < 2 ^ 8) :
    (Z80_GET_ADDR (Z80_MAKE_PINS ctrl addr data) = addr ∧
     Z80_GET_DATA (Z80_MAKE_PINS ctrl addr data) = data ∧
     (∀ i, 24 ≤ i → (Z80_MAKE_PINS ctrl addr data).testBit i = ctrl.testBit i) ∧
     Z80_MAKE_PINS ctrl addr data = Z80_SET_DATA (Z80_SET_ADDR ctrl addr) data) ∧
    (M6502_GET_ADDR (M6502_MAKE_PINS ctrl addr data) = addr ∧
     M6502_GET_DATA (M6502_MAKE_PINS ctrl addr data) = data ∧
     (∀ i, 24 ≤ i → (M6502_MAKE_PINS ctrl addr data).testBit i = ctrl.testBit i) ∧
     M6502_MAKE_PINS ctrl addr data = M6502_SET_DATA (M6502_SET_ADDR ctrl addr) data) := by
  have e := make_pins_eq ctrl addr data hc hz
  have hs : Z80_SET_ADDR ctrl addr < 2 ^ 64 := by
    unfold Z80_SET_ADDR
    apply Nat.or_lt_two_pow
    · exact Nat.lt_of_le_of_lt Nat.and_le_left hc
    · exact Nat.lt_of_le_of_lt Nat.and_le_right (by decide)
  have k : Z80_GET_ADDR (Z80_MAKE_PINS ctrl addr data) = addr ∧
      Z80_GET_DATA (Z80_MAKE_PINS ctrl addr data) = data ∧
      (∀ i, 24 ≤ i → (Z80_MAKE_PINS ctrl addr data).testBit i = ctrl.testBit i) ∧
      Z80_MAKE_PINS ctrl addr data = Z80_SET_DATA (Z80_SET_ADDR ctrl addr) data := by
    refine ⟨?_, ?_, ?_, e⟩
    · rw [e, get_addr_set_data, get_set_addr, Nat.mod_eq_of_lt ha]
    · rw [e, get_set_data, Nat.mod_eq_of_lt hd]
    · intro i hi
      rw [e, set_data_frame _ data i hs (Or.inr hi), set_addr_frame ctrl addr i hc (by omega)]
  exact ⟨k, k⟩

theorem C3_make_pins_witness :
    (Z80_GET_ADDR (Z80_MAKE_PINS (Z80_MREQ ||| Z80_RD) 0xC000 0xAA) = 0xC000 ∧
     Z80_GET_DATA (Z80_MAKE_PINS (Z80_MREQ ||| Z80_RD) 0xC000 0xAA) = 0xAA ∧
     (∀ i, 24 ≤ i → (Z80_MAKE_PINS (Z80_MREQ ||| Z80_RD) 0xC000 0xAA).testBit i
       = (Z80_MREQ ||| Z80_RD).testBit i) ∧
     Z80_MAKE_PINS (Z80_MREQ ||| Z80_RD) 0xC000 0xAA
       = Z80_SET_DATA (Z80_SET_ADDR (Z80_MREQ ||| Z80_RD) 0xC000) 0xAA) ∧
    (M6502_GET_ADDR (M6502_MAKE_PINS (Z80_MREQ ||| Z80_RD) 0xC000 0xAA) = 0xC000 ∧
     M6502_GET_DATA (M6502_MAKE_PINS (Z80_MREQ ||| Z80_RD) 0xC000 0xAA) = 0xAA ∧
     (∀ i, 24 ≤ i → (M6502_MAKE_PINS (Z80_MREQ ||| Z80_RD) 0xC000 0xAA).testBit i
       = (Z80_MREQ ||| Z80_RD).testBit i) ∧
     M6502_MAKE_PINS (Z80_MREQ ||| Z80_RD) 0xC000 0xAA
       = M6502_SET_DATA (M6502_SET_ADDR (Z80_MREQ ||| Z80_RD) 0xC000) 0xAA) :=
  C3_make_pins (Z80_MREQ ||| Z80_RD) 0xC000 0xAA (by decide) (by decide) (by decide) (by decide)

/-! ## Claims C4 to C8: the layout of the pin constants -/

/-- C4: the Z80 address lines are bits 0..15, the data lines bits 16..23, Z80_CTRL_MASK is
bits 24..28, HALT/INT/NMI/BUSREQ/BUSACK are bits 29..33, Z80_WAIT_MASK is the three bits
34..36 starting at Z80_WAIT_SHIFT, IEIO and RETI are bits 37 and 38, no two Z80 pin constants
share a bit and each lies inside Z80_PIN_MASK (bits 0..39); the M6502/M6510 pin constants are
pairwise distinct single bits inside M6502_PIN_MASK. -/
theorem C4_cpu_pin_layout :
    ([ Z80_A0, Z80_A1, Z80_A2, Z80_A3, Z80_A4, Z80_A5, Z80_A6, Z80_A7, Z80_A8, Z80_A9, Z80_A10,
        Z80_A11, Z80_A12, Z80_A13, Z80_A14, Z80_A15 ] = (List.range 16).map (fun k => 2 ^ k)) ∧
    ([ Z80_D0, Z80_D1, Z80_D2, Z80_D3, Z80_D4, Z80_D5, Z80_D6, Z80_D7 ]
        = (List.range 8).map (fun k => 2 ^ (16 + k))) ∧
    Z80_CTRL_MASK = 2 ^ 24 + 2 ^ 25 + 2 ^ 26 + 2 ^ 27 + 2 ^ 28 ∧
    [ Z80_HALT, Z80_INT, Z80_NMI, Z80_BUSREQ, Z80_BUSACK ]
        = [2 ^ 29, 2 ^ 30, 2 ^ 31, 2 ^ 32, 2 ^ 33] ∧
    Z80_WAIT_SHIFT = 34 ∧ Z80_WAIT_MASK = 7 <<< Z80_WAIT_SHIFT ∧
    Z80_WAIT_MASK = 2 ^ 34 + 2 ^ 35 + 2 ^ 36 ∧
    Z80_IEIO = 2 ^ 37 ∧ Z80_RETI = 2 ^ 38 ∧
    Z80_PIN_MASK = 2 ^ 40 - 1 ∧
    Z80_pins.Pairwise (fun a b => a &&& b = 0) ∧
    (∀ c ∈ Z80_pins, c ≠ 0 ∧ c &&& Z80_PIN_MASK = c) ∧
    Z80_CTRL_MASK &&& Z80_PIN_MASK = Z80_CTRL_MASK ∧
    Z80_WAIT_MASK &&& Z80_PIN_MASK = Z80_WAIT_MASK ∧
    M6502_pins.Pairwise (fun a b => a ≠ b ∧ a &&& b = 0) ∧
    (∀ c ∈ M6502_pins, c ≠ 0 ∧ c &&& M6502_PIN_MASK = c) := by
  decide

set_option maxRecDepth 100000 in
/-- C6, the failing input: the claim holds for every pin it lists, and for every bus pin
documented as shared, but two pins documented as being the same as a CPU pin have no CPU pin
to be equal to. z80ctc.h documents Z80CTC_RESET as "same as Z80_RESET" and ay38910.h
documents AY38910_RESET as "reset pin shared with CPU"; neither z80.h nor m6502.h defines a
reset pin, and the two constants have the bit values of Z80_NMI and Z80_WAIT0, so that a pin
word with NMI or one wait state set has the chip's RESET bit set. -/
theorem C6_reset_pins_have_no_cpu_pin :
    peripheral_pin_docs.map Prod.fst = peripheral_pins ∧
    (Z80CTC_RESET, pin_doc.cpu_missing) ∈ Z80CTC_pin_docs ∧
    (AY38910_RESET, pin_doc.cpu_missing) ∈ AY38910_pin_docs ∧
    peripheral_pin_docs.filter (fun e => pin_documented_shared e && !pin_is_cpu_pin e)
      = [(Z80CTC_RESET, pin_doc.cpu_missing), (AY38910_RESET, pin_doc.cpu_missing)] ∧
    Z80CTC_RESET = Z80_NMI ∧ AY38910_RESET = Z80_WAIT0 ∧
    Z80_NMI &&& Z80CTC_RESET ≠ 0 ∧ Z80_WAIT0 &&& AY38910_RESET ≠ 0 ∧
    ¬ (∀ e ∈ peripheral_pin_docs, pin_documented_shared e = true → pin_is_cpu_pin e = true) ∧
    (Z80CTC_M1 = Z80_M1 ∧ Z80PIO_M1 = Z80_M1) ∧
    (Z80CTC_IORQ = Z80_IORQ ∧ Z80PIO_IORQ = Z80_IORQ) ∧
    (Z80CTC_RD = Z80_RD ∧ Z80PIO_RD = Z80_RD) ∧
    (Z80CTC_INT = Z80_INT ∧ Z80PIO_INT = Z80_INT) ∧
    ( Z80CTC_IEIO = Z80_IEIO ∧ Z80PIO_IEIO = Z80_IEIO) ∧
    (Z80CTC_RETI = Z80_RETI ∧ Z80PIO_RETI = Z80_RETI) ∧
    (M6522_RW = M6502_RW ∧ M6526_RW = M6502_RW ∧ M6569_RW = M6502_RW ∧ M6581_RW = M6502_RW) ∧
    (M6526_IRQ = M6502_IRQ ∧ M6569_IRQ = M6502_IRQ) ∧
    M6569_BA = M6502_RDY ∧ M6569_AEC = M6510_AEC := by
  decide

/-- C7, as stated, fails: some machine has two different peripheral chips whose pins above
bit 39 share a bit (in the KC85, Z80CTC_CE and Z80PIO_CE are both bit 44). -/
theorem C7_counterexample :
    (kc85_chips ∈ machines ∧ Z80CTC_pins ∈ kc85_chips ∧ Z80PIO_pins ∈ kc85_chips ∧
      Z80CTC_pins ≠ Z80PIO_pins ∧ Z80CTC_CE ∈ chip_specific Z80CTC_pins ∧
      Z80PIO_CE ∈ chip_specific Z80PIO_pins ∧ Z80CTC_CE = Z80PIO_CE) ∧
    ¬ (∀ m ∈ machines, ∀ A ∈ m, ∀ B ∈ m, A ≠ B →
        pins_mask (chip_specific A) &&& pins_mask (chip_specific B) = 0) := by
  decide

/-- C7, amended: within each peripheral chip of each machine the pins above bit 39 are
pairwise disjoint single bits in bits 40..63, while any two different peripheral chips of the
same machine reuse at least one of those bit positions. -/
theorem C7_chip_specific_regions :
    ∀ m ∈ machines, ∀ A ∈ m,
      (chip_specific A).Pairwise (fun a b => a &&& b = 0) ∧
      (∀ c ∈ chip_specific A, c ∈ (List.range 24).map (fun k => 2 ^ (40 + k))) ∧
      (∀ B ∈ m, A ≠ B → pins_mask (chip_specific A) &&& pins_mask (chip_specific B) ≠ 0) := by
  decide

theorem C7_chip_specific_regions_witness :
    kc85_chips ∈ machines ∧ Z80CTC_pins ∈ kc85_chips ∧
    ((chip_specific Z80CTC_pins).Pairwise (fun a b => a &&& b = 0) ∧
      (∀ c ∈ chip_specific Z80CTC_pins, c ∈ (List.range 24).map (fun k => 2 ^ (40 + k))) ∧
      (∀ B ∈ kc85_chips, Z80CTC_pins ≠ B →
        pins_mask (chip_specific Z80CTC_pins) &&& pins_mask (chip_specific B) ≠ 0)) :=
  ⟨by decide, by decide,
    C7_chip_specific_regions kc85_chips (by decide) Z80CTC_pins (by decide)⟩

set_option maxRecDepth 100000 in
/-- C8, the failing input: of all the pin constants of the peripheral headers, exactly two
are neither one of the CPU's own pins nor located at bit 40 or above: Z80CTC_RESET at bit 31
and AY38910_RESET at bit 34. Their headers document them as shared with a CPU reset pin,
which neither z80.h nor m6502.h defines. Every other pin constant is a CPU pin (an address
line, a data line, or a control pin that the CPU header defines at the same bit) or lies in
bits 40..63. -/
theorem C8_reset_pins_below_bit_40 :
    peripheral_pin_docs.map Prod.fst = peripheral_pins ∧
    peripheral_pin_docs.filter (fun e => !pin_is_cpu_pin e && decide (e.1 < 2 ^ 40))
      = [(Z80CTC_RESET, pin_doc.cpu_missing), (AY38910_RESET, pin_doc.cpu_missing)] ∧
    Z80CTC_RESET = 2 ^ 31 ∧ AY38910_RESET = 2 ^ 34 ∧
    pin_is_cpu_pin (Z80CTC_RESET, pin_doc.cpu_missing) = false ∧
    pin_is_cpu_pin (AY38910_RESET, pin_doc.cpu_missing) = false ∧
    ¬ (∀ e ∈ peripheral_pin_docs, pin_is_cpu_pin e = false → 2 ^ 40 ≤ e.1) ∧
    (peripheral_pin_docs.filter (fun e => !pin_is_cpu_pin e)).all
      (fun e => decide (e.2 = pin_doc.cpu_missing) || decide (2 ^ 40 ≤ e.1 ∧ e.1 < 2 ^ 64))
      = true := by
  decide

/-! ## Claim C5: one data bus for all chips -/

theorem get_data_eq_bits (p : Nat) : Z80_GET_DATA p = p / 2 ^ 16 % 2 ^ 8 := by
  apply Nat.eq_of_testBit_eq
  intro i
  simp only [Z80_GET_DATA, u8_cast, Nat.testBit_mod_two_pow, Nat.testBit_and,
    Nat.testBit_shiftRight, testBit_FF0000, ← Nat.shiftRight_eq_div_pow]
  by_cases h : i < 8
  · have h3 : 16 + i < 24 := by omega
    simp [h, h3]
  · simp [h]

theorem get_data_short_eq_bits (p : Nat) : u8_cast (p >>> 16) = p / 2 ^ 16 % 2 ^ 8 := by
  unfold u8_cast
  rw [Nat.shiftRight_eq_div_pow]

theorem set_data_int_eq (p d : Nat) :
    (p &&& int_to_u64 (int_not 0xFF0000)) ||| ((d &&& 0xFF) <<< 16) = Z80_SET_DATA p d := by
  rw [int_mask_eq]
  apply Nat.eq_of_testBit_eq
  intro i
  simp only [Z80_SET_DATA, Nat.testBit_and, Nat.testBit_or, Nat.testBit_shiftLeft,
    testBit_u64_not, testBit_FF0000, testBit_FF, testBit_u64_shl]
  by_cases h16 : 16 ≤ i
  · by_cases h24 : i < 24
    · have h1 : i < 64 := by omega
      have h2 : i - 16 < 8 := by omega
      have h3 : i - 16 < 64 := by omega
      simp [h16, h24, h1, h2, h3]
    · have h2 : ¬ i - 16 < 8 := by omega
      simp [h16, h24, h2]
  · simp [h16]

/-- C5: for every pin word p and every data value d, the GET_DATA macro of each of the eleven
chip headers returns bits 16..23 of p, each SET_DATA(p, d) yields the same pin word as
Z80_SET_DATA(p, d), and the variants written with the int mask ~0xFF0000 keep bits 32..63
of p. -/
theorem C5_data_bus_uniform (p d : Nat) :
    (Z80_GET_DATA p = p / 2 ^ 16 % 2 ^ 8 ∧ M6502_GET_DATA p = p / 2 ^ 16 % 2 ^ 8 ∧
     M6522_GET_DATA p = p / 2 ^ 16 % 2 ^ 8 ∧ M6526_GET_DATA p = p / 2 ^ 16 % 2 ^ 8 ∧
     M6569_GET_DATA p = p / 2 ^ 16 % 2 ^ 8 ∧ MC6845_GET_DATA p = p / 2 ^ 16 % 2 ^ 8 ∧
     MC6847_GET_DATA p = p / 2 ^ 16 % 2 ^ 8 ∧ I8255_GET_DATA p = p / 2 ^ 16 % 2 ^ 8 ∧
     AY38910_GET_DATA p = p / 2 ^ 16 % 2 ^ 8 ∧ Z80CTC_GET_DATA p = p / 2 ^ 16 % 2 ^ 8 ∧
     Z80PIO_GET_DATA p = p / 2 ^ 16 % 2 ^ 8) ∧
    (M6502_SET_DATA p d = Z80_SET_DATA p d ∧ M6522_SET_DATA p d = Z80_SET_DATA p d ∧
     M6526_SET_DATA p d = Z80_SET_DATA p d ∧ M6569_SET_DATA p d = Z80_SET_DATA p d ∧
     MC6845_SET_DATA p d = Z80_SET_DATA p d ∧ MC6847_SET_DATA p d = Z80_SET_DATA p d ∧
     I8255_SET_DATA p d = Z80_SET_DATA p d ∧ AY38910_SET_DATA p d = Z80_SET_DATA p d ∧
     Z80CTC_SET_DATA p d = Z80_SET_DATA p d ∧ Z80PIO_SET_DATA p d = Z80_SET_DATA p d) ∧
    (∀ i, 32 ≤ i → i < 64 →
      (M6522_SET_DATA p d).testBit i = p.testBit i ∧
      (M6526_SET_DATA p d).testBit i = p.testBit i ∧
      (I8255_SET_DATA p d).testBit i = p.testBit i ∧
      (AY38910_SET_DATA p d).testBit i = p.testBit i ∧
      (Z80CTC_SET_DATA p d).testBit i = p.testBit i ∧
      (Z80PIO_SET_DATA p d).testBit i = p.testBit i) := by
  have g := get_data_eq_bits p
  have gs := get_data_short_eq_bits p
  have e := set_data_int_eq p d
  refine ⟨⟨g, g, gs, gs, g, g, g, gs, gs, gs, gs⟩, ⟨rfl, e, e, rfl, rfl, rfl, e, e, e, e⟩, ?_⟩
  intro i h32 h64
  have k : ((p &&& int_to_u64 (int_not 0xFF0000)) ||| ((d &&& 0xFF) <<< 16)).testBit i
      = p.testBit i := by
    rw [e]
    simp only [Z80_SET_DATA, Nat.testBit_and, Nat.testBit_or, testBit_u64_not, testBit_FF0000,
      testBit_u64_shl]
    have h24 : ¬ i < 24 := by omega
    simp [h24, h64]
  exact ⟨k, k, k, k, k, k⟩

/-! ## Claims C9 and C10: the wait-state field -/

theorem get_set_wait (p w : Nat) : Z80_GET_WAIT (Z80_SET_WAIT p w) = w % 8 := by
  have e8 : (8 : Nat) = 2 ^ 3 := by decide
  rw [e8]
  apply Nat.eq_of_testBit_eq
  intro i
  simp only [Z80_GET_WAIT, Z80_SET_WAIT, Z80_WAIT_SHIFT, Nat.testBit_mod_two_pow,
    Nat.testBit_and, Nat.testBit_or, Nat.testBit_shiftRight, testBit_u64_not, testBit_WAIT_MASK,
    testBit_u64_shl, testBit_u64]
  by_cases h : i < 3
  · have h1 : 34 + i < 64 := by omega
    have h3 : 34 + i < 37 := by omega
    have h4 : 34 + i - 34 = i := by omega
    have h5 : i < 64 := by omega
    simp [h, h1, h3, h4, h5]
  · have h3 : ¬ 34 + i < 37 := by omega
    simp [h, h3]

theorem get_wait_le (p : Nat) : Z80_GET_WAIT p ≤ 7 := by
  unfold Z80_GET_WAIT
  rw [Nat.shiftRight_eq_div_pow]
  have e : Z80_WAIT_MASK = 7 * 2 ^ Z80_WAIT_SHIFT := by decide
  have h : p &&& Z80_WAIT_MASK ≤ 7 * 2 ^ Z80_WAIT_SHIFT :=
    Nat.le_trans Nat.and_le_right (Nat.le_of_eq e)
  have hpos : 0 < 2 ^ Z80_WAIT_SHIFT := Nat.pow_pos (by decide)
  exact Nat.le_of_lt_succ ((Nat.div_lt_iff_lt_mul hpos).2 (by omega))

/-- C9: for every pin word p and every count w with 0 <= w <= 7, Z80_GET_WAIT read after
Z80_SET_WAIT(p, w) returns w, and Z80_GET_WAIT(p) is at most 7 for every p. -/
theorem C9_wait_round_trip (p w : Nat) (hw : w ≤ 7) :
    Z80_GET_WAIT (Z80_SET_WAIT p w) = w ∧ Z80_GET_WAIT p ≤ 7 := by
  refine ⟨?_, get_wait_le p⟩
  rw [get_set_wait]
  omega

theorem C9_wait_round_trip_witness :
    Z80_GET_WAIT (Z80_SET_WAIT 0xFFFFFFFFFFFFFFFF 5) = 5 ∧
    Z80_GET_WAIT 0xFFFFFFFFFFFFFFFF ≤ 7 :=
  C9_wait_round_trip 0xFFFFFFFFFFFFFFFF 5 (by decide)

/-- C10, as stated, fails: a wait-state count of 8 set on the empty pin word reads back as
0, not as the saturated value 7. -/
theorem C10_counterexample :
    Z80_GET_WAIT (Z80_SET_WAIT 0 8) = 0 ∧
    ¬ (∀ p w : Nat, p < 2 ^ 64 → 7 < w → Z80_GET_WAIT (Z80_SET_WAIT p w) = 7) := by
  refine ⟨by decide, ?_⟩
  intro h
  have h8 := h 0 8 (by decide) (by decide)
  revert h8
  decide

/-- C10, amended: wait-state counts above 7 wrap, keeping their low three bits: for every
pin word p and every count w greater than 7, Z80_GET_WAIT read after Z80_SET_WAIT(p, w)
returns w mod 8. -/
theorem C10_wait_wraps (p w : Nat) (_hw : 7 < w) :
    Z80_GET_WAIT (Z80_SET_WAIT p w) = w % 8 :=
  get_set_wait p w

theorem C10_wait_wraps_witness : Z80_GET_WAIT (Z80_SET_WAIT 0xFFFFFFFFFFFFFFFF 9) = 9 % 8 :=
  C10_wait_wraps 0xFFFFFFFFFFFFFFFF 9 (by decide)

/-! ## Claim C11: the daisy-chain block -/

theorem testBit_IEIO (i : Nat) : Z80_IEIO.testBit i = decide (37 = i) := by
  have e : Z80_IEIO = 2 ^ 37 := by decide
  rw [e, Nat.testBit_two_pow]

theorem testBit_RETI (i : Nat) : Z80_RETI.testBit i = decide (38 = i) := by
  have e : Z80_RETI = 2 ^ 38 := by decide
  rw [e, Nat.testBit_two_pow]

theorem daisychain_empty_bits (p i : Nat) (hp : p < 2 ^ 64) :
    (Z80_DAISYCHAIN_END (Z80_DAISYCHAIN_BEGIN p)).testBit i
      = if i = 37 then true else if i = 38 then false else p.testBit i := by
  simp only [Z80_DAISYCHAIN_END, Z80_DAISYCHAIN_BEGIN, Nat.testBit_and, Nat.testBit_or,
    testBit_u64_not, testBit_IEIO, testBit_RETI]
  by_cases h37 : i = 37
  · subst h37
    simp
  · by_cases h38 : i = 38
    · subst h38
      simp
    · have a : ¬ 37 = i := fun h => h37 h.symm
      have b : ¬ 38 = i := fun h => h38 h.symm
      by_cases h64 : i < 64
      · simp [h37, h38, a, b, h64]
      · simp [h37, h38, a, b, h64, testBit_of_lt_pow hp (Nat.le_of_not_lt h64)]

theorem daisychain_end_clears (q : Nat) : Z80_DAISYCHAIN_END q &&& Z80_RETI = 0 := by
  apply Nat.eq_of_testBit_eq
  intro i
  simp only [Z80_DAISYCHAIN_END, Nat.testBit_and, testBit_u64_not, testBit_RETI,
    Nat.zero_testBit]
  by_cases h : 38 = i <;> simp [h]

theorem daisychain_begin_sets (p : Nat) : Z80_DAISYCHAIN_BEGIN p &&& Z80_IEIO = Z80_IEIO := by
  apply Nat.eq_of_testBit_eq
  intro i
  simp only [Z80_DAISYCHAIN_BEGIN, Nat.testBit_and, Nat.testBit_or, testBit_IEIO]
  by_cases h : 37 = i <;> simp [h]

/-- C11: for every 64-bit pin word p with Z80_M1 set, the block between Z80_DAISYCHAIN_BEGIN
and Z80_DAISYCHAIN_END is entered with Z80_IEIO set whatever its incoming state and
Z80_DAISYCHAIN_END clears Z80_RETI, so with an empty block the result is p with bit 37 (IEIO)
set, bit 38 (RETI) cleared and every other bit unchanged; for every pin word without Z80_M1
the block is skipped and p is returned unchanged. -/
theorem C11_daisychain_block (p : Nat) (hp : p < 2 ^ 64) (block : Nat → Nat) :
    (p &&& Z80_M1 ≠ 0 →
      Z80_DAISYCHAIN block p = Z80_DAISYCHAIN_END (block (Z80_DAISYCHAIN_BEGIN p)) ∧
      Z80_DAISYCHAIN_BEGIN p &&& Z80_IEIO = Z80_IEIO ∧
      Z80_DAISYCHAIN block p &&& Z80_RETI = 0 ∧
      (∀ i, (Z80_DAISYCHAIN (fun q => q) p).testBit i
        = if i = 37 then true else if i = 38 then false else p.testBit i)) ∧
    (p &&& Z80_M1 = 0 → Z80_DAISYCHAIN block p = p) := by
  constructor
  · intro h
    have e : ∀ b : Nat → Nat,
        Z80_DAISYCHAIN b p = Z80_DAISYCHAIN_END (b (Z80_DAISYCHAIN_BEGIN p)) := by
      intro b
      simp [Z80_DAISYCHAIN, h]
    refine ⟨e block, daisychain_begin_sets p, ?_, ?_⟩
    · rw [e block]
      exact daisychain_end_clears _
    · intro i
      rw [e]
      exact daisychain_empty_bits p i hp
  · intro h
    simp [Z80_DAISYCHAIN, h]

theorem C11_daisychain_block_witness :
    ((Z80_M1 ||| Z80_RETI) &&& Z80_M1 ≠ 0 →
      Z80_DAISYCHAIN (fun q => q) (Z80_M1 ||| Z80_RETI)
        = Z80_DAISYCHAIN_END ((fun q => q) (Z80_DAISYCHAIN_BEGIN (Z80_M1 ||| Z80_RETI))) ∧
      Z80_DAISYCHAIN_BEGIN (Z80_M1 ||| Z80_RETI) &&& Z80_IEIO = Z80_IEIO ∧
      Z80_DAISYCHAIN (fun q => q) (Z80_M1 ||| Z80_RETI) &&& Z80_RETI = 0 ∧
      (∀ i, (Z80_DAISYCHAIN (fun q => q) (Z80_M1 ||| Z80_RETI)).testBit i
        = if i = 37 then true else if i = 38 then false
          else (Z80_M1 ||| Z80_RETI).testBit i)) ∧
    ((Z80_M1 ||| Z80_RETI) &&& Z80_M1 = 0 →
      Z80_DAISYCHAIN (fun q => q) (Z80_M1 ||| Z80_RETI) = Z80_M1 ||| Z80_RETI) :=
  C11_daisychain_block (Z80_M1 ||| Z80_RETI) (by decide) (fun q => q)

/-! ## Claim C13: the M6510 port addresses -/

theorem m6502_get_addr_eq_mod (p : Nat) : M6502_GET_ADDR p = p % 2 ^ 16 := by
  have e : (0xFFFF : Nat) = 2 ^ 16 - 1 := by decide
  simp only [M6502_GET_ADDR, u16_cast, e, Nat.and_pow_two_sub_one_eq_mod, Nat.mod_mod]

theorem testBit_FFFE (i : Nat) :
    (0xFFFE : Nat).testBit i = (decide (1 ≤ i) && decide (i < 16)) := by
  have e : (0xFFFE : Nat) = (2 ^ 15 - 1) <<< 1 := by decide
  rw [e, testBit_field]

theorem and_FFFE_eq (p : Nat) : p &&& 0xFFFE = (p % 2 ^ 16 / 2) * 2 := by
  have m : p % 2 ^ 16 / 2 * 2 = ((p % 2 ^ 16) >>> 1) <<< 1 := by
    rw [Nat.shiftLeft_eq, Nat.shiftRight_eq_div_pow]
  rw [m]
  apply Nat.eq_of_testBit_eq
  intro i
  simp only [Nat.testBit_and, testBit_FFFE, Nat.testBit_shiftLeft, Nat.testBit_shiftRight,
    Nat.testBit_mod_two_pow]
  by_cases h1 : 1 ≤ i
  · have h2 : 1 + (i - 1) = i := by omega
    by_cases h16 : i < 16
    · simp [h1, h2, h16]
    · simp [h1, h2, h16]
  · have h0 : i = 0 := by omega
    subst h0
    simp

theorem check_io_iff (p : Nat) :
    M6510_CHECK_IO p = true ↔ M6502_GET_ADDR p = 0 ∨ M6502_GET_ADDR p = 1 := by
  unfold M6510_CHECK_IO
  rw [decide_eq_true_iff, and_FFFE_eq, m6502_get_addr_eq_mod]
  omega

/-- C13: for every pin word p, M6510_CHECK_IO(p) is true if and only if M6502_GET_ADDR(p)
is 0 or 1; two pin words with the same address get the same answer, whatever their data and
control bits. -/
theorem C13_check_io_addresses (p : Nat) :
    ( M6510_CHECK_IO p = true ↔ M6502_GET_ADDR p = 0 ∨ M6502_GET_ADDR p = 1) ∧
    (∀ q, M6502_GET_ADDR q = M6502_GET_ADDR p → M6510_CHECK_IO q = M6510_CHECK_IO p) := by
  refine ⟨check_io_iff p, ?_⟩
  intro q hq
  have hp := check_io_iff p
  have hq2 := check_io_iff q
  rw [hq] at hq2
  cases hcp : M6510_CHECK_IO p
  · cases hcq : M6510_CHECK_IO q
    · rfl
    · exact absurd (hp.2 (hq2.1 hcq)) (by simp [hcp])
  · exact hq2.2 (hp.1 hcp)

/-! ## Claim C14: pages of the 16-bit address space -/

/-- C14: MEM_NUM_PAGES * MEM_PAGE_SIZE = MEM_ADDR_RANGE = 65536 with MEM_PAGE_SIZE = 1024; for
every 16-bit address a the page index a >> MEM_PAGE_SHIFT is below MEM_NUM_PAGES, the offset
a & MEM_PAGE_MASK is below MEM_PAGE_SIZE and (page << MEM_PAGE_SHIFT) | offset = a; an address
lies in the 16384 bytes from 0xC000 exactly when its page is one of 48..63, and that range
ends at the top of the address range. -/
theorem C14_page_split (a : Nat) (ha : a < 2 ^ 16) :
    MEM_NUM_PAGES * MEM_PAGE_SIZE = MEM_ADDR_RANGE ∧ MEM_ADDR_RANGE = 65536 ∧
    MEM_PAGE_SIZE = 1024 ∧
    a >>> MEM_PAGE_SHIFT < MEM_NUM_PAGES ∧
    a &&& MEM_PAGE_MASK < MEM_PAGE_SIZE ∧
    ((a >>> MEM_PAGE_SHIFT) <<< MEM_PAGE_SHIFT) ||| (a &&& MEM_PAGE_MASK) = a ∧
    ((0xC000 ≤ a ∧ a < 0xC000 + 16384) ↔
      (48 ≤ a >>> MEM_PAGE_SHIFT ∧ a >>> MEM_PAGE_SHIFT ≤ 63)) ∧
    0xC000 + 16384 = MEM_ADDR_RANGE := by
  have e1 : MEM_PAGE_SHIFT = 10 := rfl
  have e2 : MEM_PAGE_MASK = 2 ^ 10 - 1 := by decide
  have e3 : MEM_NUM_PAGES = 64 := by decide
  have e4 : MEM_PAGE_SIZE = 1024 := by decide
  have e5 : MEM_ADDR_RANGE = 65536 := by decide
  have hm : a % 2 ^ 10 < 2 ^ 10 := Nat.mod_lt _ (by decide)
  have hor : ((a >>> 10) <<< 10) ||| (a % 2 ^ 10) = a := by
    rw [Nat.shiftLeft_eq, Nat.shiftRight_eq_div_pow, Nat.mul_comm,
      ← Nat.mul_add_lt_is_or hm]
    exact Nat.div_add_mod a (2 ^ 10)
  have hd : a >>> 10 = a / 2 ^ 10 := Nat.shiftRight_eq_div_pow a 10
  rw [e1, e2, e3, e4, e5, Nat.and_pow_two_sub_one_eq_mod]
  refine ⟨by decide, rfl, rfl, ?_, ?_, hor, ?_, by decide⟩
  · rw [hd]
    omega
  · omega
  · rw [hd]
    omega

theorem C14_page_split_witness :
    MEM_NUM_PAGES * MEM_PAGE_SIZE = MEM_ADDR_RANGE ∧ MEM_ADDR_RANGE = 65536 ∧
    MEM_PAGE_SIZE = 1024 ∧
    0xFFFF >>> MEM_PAGE_SHIFT < MEM_NUM_PAGES ∧
    0xFFFF &&& MEM_PAGE_MASK < MEM_PAGE_SIZE ∧
    ((0xFFFF >>> MEM_PAGE_SHIFT) <<< MEM_PAGE_SHIFT) ||| (0xFFFF &&& MEM_PAGE_MASK) = 0xFFFF ∧
    ((0xC000 ≤ 0xFFFF ∧ 0xFFFF < 0xC000 + 16384) ↔
      (48 ≤ 0xFFFF >>> MEM_PAGE_SHIFT ∧ 0xFFFF >>> MEM_PAGE_SHIFT ≤ 63)) ∧
    0xC000 + 16384 = MEM_ADDR_RANGE :=
  C14_page_split 0xFFFF (by decide)

/-! ## Claim C12: priority in the interrupt daisy chain -/

theorem testBit_M1_IORQ (i : Nat) :
    (Z80_M1 ||| Z80_IORQ).testBit i = (decide (24 = i) || decide (26 = i)) := by
  have e1 : Z80_M1 = 2 ^ 24 := by decide
  have e2 : Z80_IORQ = 2 ^ 26 := by decide
  rw [Nat.testBit_or, e1, e2, Nat.testBit_two_pow, Nat.testBit_two_pow]

theorem testBit_M1 (i : Nat) : Z80_M1.testBit i = decide (24 = i) := by
  have e1 : Z80_M1 = 2 ^ 24 := by decide
  rw [e1, Nat.testBit_two_pow]

theorem testBit_IORQ (i : Nat) : Z80_IORQ.testBit i = decide (26 = i) := by
  have e1 : Z80_IORQ = 2 ^ 26 := by decide
  rw [e1, Nat.testBit_two_pow]

theorem ack_bits {p : Nat} (h : p &&& (Z80_M1 ||| Z80_IORQ) = Z80_M1 ||| Z80_IORQ) :
    p.testBit 24 = true ∧ p.testBit 26 = true := by
  have h24 := congrArg (fun x => Nat.testBit x 24) h
  have h26 := congrArg (fun x => Nat.testBit x 26) h
  simp only [Nat.testBit_and, testBit_M1_IORQ] at h24 h26
  constructor
  · simpa using h24
  · simpa using h26

theorem ne_zero_of_testBit {x i : Nat} (h : x.testBit i = true) : x ≠ 0 := by
  intro hx
  rw [hx, Nat.zero_testBit] at h
  exact absurd h (by decide)

theorem daisy_begin_ack {p : Nat} (h : p &&& (Z80_M1 ||| Z80_IORQ) = Z80_M1 ||| Z80_IORQ) :
    Z80_DAISYCHAIN_BEGIN p &&& (Z80_M1 ||| Z80_IORQ) = Z80_M1 ||| Z80_IORQ := by
  obtain ⟨h24, h26⟩ := ack_bits h
  apply Nat.eq_of_testBit_eq
  intro i
  simp only [Z80_DAISYCHAIN_BEGIN, Nat.testBit_and, Nat.testBit_or, testBit_M1, testBit_IORQ,
    testBit_IEIO]
  by_cases a : 24 = i
  · subst a
    simp [h24]
  · by_cases b : 26 = i
    · subst b
      simp [h26]
    · simp [a, b]

theorem daisy_begin_responds (dev : daisy_dev) {p : Nat}
    (h : p &&& (Z80_M1 ||| Z80_IORQ) = Z80_M1 ||| Z80_IORQ) (hd : dev.int_pending = true) :
    daisy_responds dev (Z80_DAISYCHAIN_BEGIN p) = true := by
  have hne : Z80_DAISYCHAIN_BEGIN p &&& Z80_IEIO ≠ 0 := by
    rw [daisychain_begin_sets]
    decide
  simp [daisy_responds, daisy_begin_ack h, hne, hd]

theorem set_data_clears_chain (x d : Nat) :
    Z80_SET_DATA (x &&& u64_not Z80_IEIO) d &&& Z80_IEIO = 0 := by
  apply Nat.eq_of_testBit_eq
  intro i
  simp only [Z80_SET_DATA, Nat.testBit_and, Nat.testBit_or, testBit_u64_not, testBit_FF0000,
    testBit_u64_shl, testBit_IEIO, Nat.zero_testBit]
  by_cases h : 37 = i
  · subst h
    simp
  · simp [h]

theorem get_data_end (q : Nat) : Z80_GET_DATA (Z80_DAISYCHAIN_END q) = Z80_GET_DATA q := by
  apply Nat.eq_of_testBit_eq
  intro i
  simp only [Z80_GET_DATA, Z80_DAISYCHAIN_END, u8_cast, Nat.testBit_mod_two_pow,
    Nat.testBit_and, Nat.testBit_shiftRight, testBit_u64_not, testBit_FF0000, testBit_RETI]
  by_cases h : i < 8
  · have h1 : 16 + i < 64 := by omega
    have h2 : ¬ 38 = 16 + i := by omega
    simp [h, h1, h2]
  · simp [h]

/-- C12: in one interrupt-acknowledge cycle (M1 and IORQ set) with two peripherals P1 then P2
in the chain, both with an interrupt pending, P1 responds: it clears IEIO and its vector is
the byte on the data lines; P2 sees IEIO cleared, does not respond and returns the pin word
unchanged, so the byte on the data lines after the daisy-chain block is the vector of P1. -/
theorem C12_daisy_chain_order (p v1 v2 : Nat)
    (hack : p &&& (Z80_M1 ||| Z80_IORQ) = Z80_M1 ||| Z80_IORQ) (hv1 : v1 < 2 ^ 8) :
    daisy_responds (daisy_dev.mk true v1) (Z80_DAISYCHAIN_BEGIN p) = true ∧
    daisy_int (daisy_dev.mk true v1) (Z80_DAISYCHAIN_BEGIN p) &&& Z80_IEIO = 0 ∧
    Z80_GET_DATA (daisy_int (daisy_dev.mk true v1) (Z80_DAISYCHAIN_BEGIN p)) = v1 ∧
    daisy_responds (daisy_dev.mk true v2)
      (daisy_int (daisy_dev.mk true v1) (Z80_DAISYCHAIN_BEGIN p)) = false ∧
    daisy_int (daisy_dev.mk true v2) (daisy_int (daisy_dev.mk true v1) (Z80_DAISYCHAIN_BEGIN p))
      = daisy_int (daisy_dev.mk true v1) (Z80_DAISYCHAIN_BEGIN p) ∧
    Z80_GET_DATA (Z80_DAISYCHAIN
      (fun q => daisy_int (daisy_dev.mk true v2) (daisy_int (daisy_dev.mk true v1) q)) p)
      = v1 := by
  have r1 := daisy_begin_responds (daisy_dev.mk true v1) hack rfl
  have e1 : daisy_int (daisy_dev.mk true v1) (Z80_DAISYCHAIN_BEGIN p)
      = Z80_SET_DATA (Z80_DAISYCHAIN_BEGIN p &&& u64_not Z80_IEIO) v1 := by
    simp [daisy_int, r1]
  have c1 : daisy_int (daisy_dev.mk true v1) (Z80_DAISYCHAIN_BEGIN p) &&& Z80_IEIO = 0 := by
    rw [e1]
    exact set_data_clears_chain _ _
  have d1 : Z80_GET_DATA (daisy_int (daisy_dev.mk true v1) (Z80_DAISYCHAIN_BEGIN p)) = v1 := by
    rw [e1, get_set_data, Nat.mod_eq_of_lt hv1]
  have r2 : daisy_responds (daisy_dev.mk true v2)
      (daisy_int (daisy_dev.mk true v1) (Z80_DAISYCHAIN_BEGIN p)) = false := by
    simp [daisy_responds, c1]
  have e2 : daisy_int (daisy_dev.mk true v2)
      (daisy_int (daisy_dev.mk true v1) (Z80_DAISYCHAIN_BEGIN p))
      = daisy_int (daisy_dev.mk true v1) (Z80_DAISYCHAIN_BEGIN p) := by
    rw [daisy_int, r2]
    simp
  refine ⟨r1, c1, d1, r2, e2, ?_⟩
  have hm1 : p &&& Z80_M1 ≠ 0 := by
    apply ne_zero_of_testBit (i := 24)
    rw [Nat.testBit_and, (ack_bits hack).1, testBit_M1]
    simp
  have e3 : Z80_DAISYCHAIN
      (fun q => daisy_int (daisy_dev.mk true v2) (daisy_int (daisy_dev.mk true v1) q)) p
      = Z80_DAISYCHAIN_END (daisy_int (daisy_dev.mk true v2)
          (daisy_int (daisy_dev.mk true v1) (Z80_DAISYCHAIN_BEGIN p))) := by
    simp [Z80_DAISYCHAIN, hm1]
  rw [e3, e2, get_data_end, d1]

theorem C12_daisy_chain_order_witness :
    daisy_responds (daisy_dev.mk true 0xE0) (Z80_DAISYCHAIN_BEGIN (Z80_M1 ||| Z80_IORQ)) = true ∧
    daisy_int (daisy_dev.mk true 0xE0) (Z80_DAISYCHAIN_BEGIN (Z80_M1 ||| Z80_IORQ))
      &&& Z80_IEIO = 0 ∧
    Z80_GET_DATA (daisy_int (daisy_dev.mk true 0xE0)
      (Z80_DAISYCHAIN_BEGIN (Z80_M1 ||| Z80_IORQ))) = 0xE0 ∧
    daisy_responds (daisy_dev.mk true 0xF0)
      (daisy_int (daisy_dev.mk true 0xE0) (Z80_DAISYCHAIN_BEGIN (Z80_M1 ||| Z80_IORQ))) = false ∧
    daisy_int (daisy_dev.mk true 0xF0)
        (daisy_int (daisy_dev.mk true 0xE0) (Z80_DAISYCHAIN_BEGIN (Z80_M1 ||| Z80_IORQ)))
      = daisy_int (daisy_dev.mk true 0xE0) (Z80_DAISYCHAIN_BEGIN (Z80_M1 ||| Z80_IORQ)) ∧
    Z80_GET_DATA (Z80_DAISYCHAIN
      (fun q => daisy_int (daisy_dev.mk true 0xF0) (daisy_int (daisy_dev.mk true 0xE0) q))
      (Z80_M1 ||| Z80_IORQ)) = 0xE0 :=
  C12_daisy_chain_order (Z80_M1 ||| Z80_IORQ) 0xE0 0xF0 (by decide) (by decide)

/-! ## Claims C15 to C17: the banked address space -/

theorem layer_order_eq : mem_layer_order = [3, 2, 1, 0] := by decide

theorem effective_page_top (mem : mem_t) (pg l : Nat) (hl : l < MEM_NUM_LAYERS)
    (hmap : (mem.layers l pg).read_ptr ≠ mem_ptr.null)
    (hvis : ∀ k, l < k → k < MEM_NUM_LAYERS → (mem.layers k pg).read_ptr = mem_ptr.null) :
    mem_effective_page mem pg
      = mem_page_t.mk (mem.layers l pg).read_ptr
          (if (mem.layers l pg).write_ptr = mem_ptr.null then mem_ptr.junk 0
           else (mem.layers l pg).write_ptr) := by
  have h4 : l < 4 := hl
  unfold mem_effective_page
  rw [layer_order_eq]
  have c : l = 0 ∨ l = 1 ∨ l = 2 ∨ l = 3 := by omega
  rcases c with c | c | c | c <;> subst c
  · simp [List.find?, hvis 3 (by decide) (by decide), hvis 2 (by decide) (by decide),
      hvis 1 (by decide) (by decide), hmap]
  · simp [List.find?, hvis 3 (by decide) (by decide), hvis 2 (by decide) (by decide), hmap]
  · simp [List.find?, hvis 3 (by decide) (by decide), hmap]
  · simp [List.find?, hmap]

theorem page_of_addr {addr size a : Nat} (haddr : addr % MEM_PAGE_SIZE = 0)
    (hsize : size % MEM_PAGE_SIZE = 0) (h1 : addr ≤ a) (h2 : a < addr + size) :
    addr ≤ (a >>> MEM_PAGE_SHIFT) * MEM_PAGE_SIZE ∧
    (a >>> MEM_PAGE_SHIFT) * MEM_PAGE_SIZE < addr + size ∧
    (a >>> MEM_PAGE_SHIFT) * MEM_PAGE_SIZE - addr + (a &&& MEM_PAGE_MASK) = a - addr := by
  have e1 : MEM_PAGE_SHIFT = 10 := rfl
  have e2 : MEM_PAGE_MASK = 2 ^ 10 - 1 := by decide
  have e4 : MEM_PAGE_SIZE = 1024 := by decide
  rw [e4] at haddr hsize
  rw [e1, e2, e4, Nat.and_pow_two_sub_one_eq_mod, Nat.shiftRight_eq_div_pow]
  omega

/-- The layer entry that a map call writes for a covered address. -/
theorem map_layer_entry (mem : mem_t) (layer addr size rp : Nat) (wp : Option Nat) (a : Nat)
    (haddr : addr % MEM_PAGE_SIZE = 0) (hsize : size % MEM_PAGE_SIZE = 0)
    (h1 : addr ≤ a) (h2 : a < addr + size) :
    (mem_map_layer mem layer addr size rp wp).layers layer (a >>> MEM_PAGE_SHIFT)
      = mem_page_t.mk
          (mem_ptr.host (rp + ((a >>> MEM_PAGE_SHIFT) * MEM_PAGE_SIZE - addr)))
          (match wp with
           | some w => mem_ptr.host (w + ((a >>> MEM_PAGE_SHIFT) * MEM_PAGE_SIZE - addr))
           | none => mem_ptr.null) := by
  obtain ⟨p1, p2, _⟩ := page_of_addr haddr hsize h1 h2
  simp [mem_map_layer, p1, p2]

theorem map_layer_other (mem : mem_t) (layer addr size rp : Nat) (wp : Option Nat)
    (l pg : Nat) (h : l ≠ layer) :
    (mem_map_layer mem layer addr size rp wp).layers l pg = mem.layers l pg := by
  simp [mem_map_layer, h]

/-- The effective page of a covered address after a map call, when no higher-priority layer
maps the page of that address. -/
theorem map_rw_page (mem : mem_t) (layer addr size rp : Nat) (wp : Option Nat) (a : Nat)
    (hl : layer < MEM_NUM_LAYERS)
    (haddr : addr % MEM_PAGE_SIZE = 0) (hsize : size % MEM_PAGE_SIZE = 0)
    (hvis : ∀ l, layer < l → l < MEM_NUM_LAYERS →
      (mem.layers l (a >>> MEM_PAGE_SHIFT)).read_ptr = mem_ptr.null)
    (h1 : addr ≤ a) (h2 : a < addr + size) :
    (mem_map_rw mem layer addr size rp wp).page_table (a >>> MEM_PAGE_SHIFT)
      = mem_page_t.mk
          (mem_ptr.host (rp + ((a >>> MEM_PAGE_SHIFT) * MEM_PAGE_SIZE - addr)))
          (match wp with
           | some w => mem_ptr.host (w + ((a >>> MEM_PAGE_SHIFT) * MEM_PAGE_SIZE - addr))
           | none => mem_ptr.junk 0) := by
  have e := map_layer_entry mem layer addr size rp wp a haddr hsize h1 h2
  show mem_effective_page (mem_map_layer mem layer addr size rp wp) (a >>> MEM_PAGE_SHIFT) = _
  rw [effective_page_top _ _ layer hl (by rw [e]; simp)
    (fun k hk hk4 => by
      rw [map_layer_other _ _ _ _ _ _ _ _ (by omega)]
      exact hvis k hk hk4), e]
  cases wp <;> simp

theorem map_rw_read (mem : mem_t) (hostmem : Nat → Nat) (layer addr size rp : Nat)
    (wp : Option Nat) (a : Nat) (hl : layer < MEM_NUM_LAYERS)
    (haddr : addr % MEM_PAGE_SIZE = 0) (hsize : size % MEM_PAGE_SIZE = 0)
    (hvis : ∀ l, layer < l → l < MEM_NUM_LAYERS →
      (mem.layers l (a >>> MEM_PAGE_SHIFT)).read_ptr = mem_ptr.null)
    (h1 : addr ≤ a) (h2 : a < addr + size) :
    mem_rd (mem_map_rw mem layer addr size rp wp) hostmem a = hostmem (rp + (a - addr)) := by
  obtain ⟨_, _, p3⟩ := page_of_addr haddr hsize h1 h2
  unfold mem_rd
  rw [map_rw_page mem layer addr size rp wp a hl haddr hsize hvis h1 h2]
  simp only [mem_ptr.add, mem_load]
  rw [Nat.add_assoc, p3]

theorem map_rw_write (mem : mem_t) (hostmem : Nat → Nat) (layer addr size rp w a d : Nat)
    (hl : layer < MEM_NUM_LAYERS)
    (haddr : addr % MEM_PAGE_SIZE = 0) (hsize : size % MEM_PAGE_SIZE = 0)
    (hvis : ∀ l, layer < l → l < MEM_NUM_LAYERS →
      (mem.layers l (a >>> MEM_PAGE_SHIFT)).read_ptr = mem_ptr.null)
    (h1 : addr ≤ a) (h2 : a < addr + size) :
    mem_wr (mem_map_rw mem layer addr size rp (some w)) hostmem a d
      = (mem_map_rw mem layer addr size rp (some w),
          fun x => if x = w + (a - addr) then d else hostmem x) := by
  obtain ⟨_, _, p3⟩ := page_of_addr haddr hsize h1 h2
  unfold mem_wr
  rw [map_rw_page mem layer addr size rp (some w) a hl haddr hsize hvis h1 h2]
  simp only [mem_ptr.add, mem_store]
  rw [Nat.add_assoc, p3]

theorem map_rom_write (mem : mem_t) (hostmem : Nat → Nat) (layer addr size rp a d : Nat)
    (hl : layer < MEM_NUM_LAYERS)
    (haddr : addr % MEM_PAGE_SIZE = 0) (hsize : size % MEM_PAGE_SIZE = 0)
    (hvis : ∀ l, layer < l → l < MEM_NUM_LAYERS →
      (mem.layers l (a >>> MEM_PAGE_SHIFT)).read_ptr = mem_ptr.null)
    (h1 : addr ≤ a) (h2 : a < addr + size) :
    (mem_wr (mem_map_rom mem layer addr size rp) hostmem a d).2 = hostmem ∧
    (mem_wr (mem_map_rom mem layer addr size rp) hostmem a d).1.page_table
      = (mem_map_rom mem layer addr size rp).page_table := by
  unfold mem_wr mem_map_rom
  rw [map_rw_page mem layer addr size rp none a hl haddr hsize hvis h1 h2]
  simp [mem_ptr.add, mem_store]

theorem init_layers_empty (l pg : Nat) : (mem_init.layers l pg).read_ptr = mem_ptr.null := rfl

/-- C15, as stated, fails in two ways. (1) A mapping into a layer that a higher-priority
layer shadows is not read: with page 0 mapped in layer 1 to the buffer at host address 2048,
mapping page 0 in layer 0 to the buffer at host address 0 leaves mem_rd(0) at the byte of
the layer-1 buffer. (2) mem_map_rw with a write source different from the read source (read
source at host address 0, write source at 0x10000) does not round-trip: the byte 0xAA
written to address 0 is not read back, mem_rd returns the byte of the read source. -/
theorem C15_counterexample :
    (mem_valid_mapping 0 0 1024 ∧
      mem_rd (mem_map_ram (mem_map_ram mem_init 1 0 1024 2048) 0 0 1024 0)
        (fun x => if x < 1024 then 1 else 2) 0 = 2 ∧
      (fun x => if x < 1024 then 1 else 2) (0 + (0 - 0)) = 1) ∧
    (mem_rd (mem_wr (mem_map_rw mem_init 0 0 1024 0 (some 0x10000)) (fun _ => 0) 0 0xAA).1
        (mem_wr (mem_map_rw mem_init 0 0 1024 0 (some 0x10000)) (fun _ => 0) 0 0xAA).2 0 = 0 ∧
      mem_rd (mem_wr (mem_map_rw mem_init 0 0 1024 0 (some 0x10000)) (fun _ => 0) 0 0xAA).1
        (mem_wr (mem_map_rw mem_init 0 0 1024 0 (some 0x10000)) (fun _ => 0) 0 0xAA).2 0
          ≠ 0xAA) ∧
    ¬ (∀ (mem : mem_t) (hostmem : Nat → Nat) (layer addr size rp a : Nat),
        mem_valid_mapping layer addr size → addr ≤ a → a < addr + size →
        mem_rd (mem_map_ram mem layer addr size rp) hostmem a = hostmem (rp + (a - addr))) ∧
    ¬ (∀ (hostmem : Nat → Nat) (layer addr size rp w a d : Nat),
        mem_valid_mapping layer addr size → addr ≤ a → a < addr + size →
        mem_rd (mem_wr (mem_map_rw mem_init layer addr size rp (some w)) hostmem a d).1
          (mem_wr (mem_map_rw mem_init layer addr size rp (some w)) hostmem a d).2 a = d) := by
  have v : mem_valid_mapping 0 0 1024 := ⟨by decide, by decide, by decide, by decide⟩
  refine ⟨⟨v, by decide, by decide⟩, ⟨by decide, by decide⟩, ?_, ?_⟩
  · intro h
    have c := h (mem_map_ram mem_init 1 0 1024 2048) (fun x => if x < 1024 then 1 else 2)
      0 0 1024 0 0 v (by decide) (by decide)
    revert c
    decide
  · intro h
    have c := h (fun _ => 0) 0 0 1024 0 0x10000 0 0xAA v (by decide) (by decide)
    revert c
    decide

/-- C15, amended: for every valid layer, page-aligned address and size and every address
space, after the map call (which derives the effective page table), at every covered address
whose page no higher-priority layer maps: mem_rd returns the corresponding byte of the read
source (mem_map_rom, mem_map_ram, mem_map_rw); mem_wr followed by mem_rd returns the written
value when the write source is the read source (mem_map_ram, or mem_map_rw given the same
pointer twice); after mem_map_rw with a different write source the written byte is stored in
the write source and mem_rd still returns the byte of the read source. -/
theorem C15_map_read_write (mem : mem_t) (hostmem : Nat → Nat) (layer addr size rp w a d : Nat)
    (hv : mem_valid_mapping layer addr size)
    (ha : addr ≤ a ∧ a < addr + size)
    (hvis : ∀ l, layer < l → l < MEM_NUM_LAYERS →
      (mem.layers l (a >>> MEM_PAGE_SHIFT)).read_ptr = mem_ptr.null) :
    mem_rd (mem_map_rom mem layer addr size rp) hostmem a = hostmem (rp + (a - addr)) ∧
    mem_rd (mem_map_ram mem layer addr size rp) hostmem a = hostmem (rp + (a - addr)) ∧
    mem_rd (mem_map_rw mem layer addr size rp (some w)) hostmem a
      = hostmem (rp + (a - addr)) ∧
    mem_rd (mem_wr (mem_map_ram mem layer addr size rp) hostmem a d).1
      (mem_wr (mem_map_ram mem layer addr size rp) hostmem a d).2 a = d ∧
    (mem_wr (mem_map_rw mem layer addr size rp (some w)) hostmem a d).2 (w + (a - addr)) = d ∧
    mem_rd (mem_wr (mem_map_rw mem layer addr size rp (some w)) hostmem a d).1
      (mem_wr (mem_map_rw mem layer addr size rp (some w)) hostmem a d).2 a
      = (if w = rp then d else hostmem (rp + (a - addr))) := by
  obtain ⟨hl, haddr, hsize, _⟩ := hv
  obtain ⟨h1, h2⟩ := ha
  have rd := fun (h : Nat → Nat) (wp : Option Nat) =>
    map_rw_read mem h layer addr size rp wp a hl haddr hsize hvis h1 h2
  have wr := fun (w : Nat) =>
    map_rw_write mem hostmem layer addr size rp w a d hl haddr hsize hvis h1 h2
  refine ⟨rd hostmem none, rd hostmem (some rp), rd hostmem (some w), ?_, ?_, ?_⟩
  · unfold mem_map_ram
    rw [wr rp]
    simp only []
    rw [rd]
    simp
  · rw [wr w]
    simp
  · rw [wr w]
    simp only []
    rw [rd]
    by_cases hw : w = rp
    · simp [hw]
    · have hne : ¬ rp + (a - addr) = w + (a - addr) := by omega
      simp [hw, hne]

theorem C15_map_read_write_witness :
    (∃ pg, ((mem_map_rom mem_init 1 0 1024 7).layers 1 pg).read_ptr ≠ mem_ptr.null) ∧
    mem_rd (mem_map_rom (mem_map_rom mem_init 1 0 1024 7) 0 0x4000 0x2000 500)
      (fun x => x % 256) 0x4003 = (fun x => x % 256) (500 + (0x4003 - 0x4000)) ∧
    mem_rd (mem_map_ram (mem_map_rom mem_init 1 0 1024 7) 0 0x4000 0x2000 500)
      (fun x => x % 256) 0x4003 = (fun x => x % 256) (500 + (0x4003 - 0x4000)) ∧
    mem_rd (mem_map_rw (mem_map_rom mem_init 1 0 1024 7) 0 0x4000 0x2000 500 (some 70000))
      (fun x => x % 256) 0x4003 = (fun x => x % 256) (500 + (0x4003 - 0x4000)) ∧
    mem_rd
      (mem_wr (mem_map_ram (mem_map_rom mem_init 1 0 1024 7) 0 0x4000 0x2000 500)
        (fun x => x % 256) 0x4003 0xAA).1
      (mem_wr (mem_map_ram (mem_map_rom mem_init 1 0 1024 7) 0 0x4000 0x2000 500)
        (fun x => x % 256) 0x4003 0xAA).2 0x4003 = 0xAA ∧
    (mem_wr (mem_map_rw (mem_map_rom mem_init 1 0 1024 7) 0 0x4000 0x2000 500 (some 70000))
      (fun x => x % 256) 0x4003 0xAA).2 (70000 + (0x4003 - 0x4000)) = 0xAA ∧
    mem_rd
      (mem_wr (mem_map_rw (mem_map_rom mem_init 1 0 1024 7) 0 0x4000 0x2000 500 (some 70000))
        (fun x => x % 256) 0x4003 0xAA).1
      (mem_wr (mem_map_rw (mem_map_rom mem_init 1 0 1024 7) 0 0x4000 0x2000 500 (some 70000))
        (fun x => x % 256) 0x4003 0xAA).2 0x4003
      = (if 70000 = 500 then 0xAA else (fun x => x % 256) (500 + (0x4003 - 0x4000))) :=
  ⟨⟨0, by decide⟩,
    C15_map_read_write (mem_map_rom mem_init 1 0 1024 7) (fun x => x % 256) 0 0x4000 0x2000
      500 70000 0x4003 0xAA ⟨by decide, by decide, by decide, by decide⟩
      ⟨by decide, by decide⟩
      (fun l h0 h4 => by
        have c : l = 1 ∨ l = 2 ∨ l = 3 := by
          have h : l < 4 := h4
          omega
        rcases c with c | c | c <;> subst c <;> decide)⟩

/-- C16: after mapping a range in layer lo to buffer A and the same range in the
higher-priority layer hi to buffer B, at every address of the range: mem_rd returns the byte
of B, provided no layer of still higher priority maps the page of the address; after
mem_unmap_layer on hi, and without a new map call, mem_rd returns the byte of A again,
provided no layer other than hi with priority over lo maps that page. What the layers hold
on other pages, and what layers below lo hold, does not matter. -/
theorem C16_shadowed_layer_reemerges (mem : mem_t) (hostmem : Nat → Nat)
    (lo hi addr size pa pb : Nat) (wa wb : Option Nat) (a : Nat)
    (hlo : lo < hi) (hv : mem_valid_mapping hi addr size)
    (ha : addr ≤ a ∧ a < addr + size) :
    ((∀ l, hi < l → l < MEM_NUM_LAYERS →
        (mem.layers l (a >>> MEM_PAGE_SHIFT)).read_ptr = mem_ptr.null) →
      mem_rd (mem_map_rw (mem_map_rw mem lo addr size pa wa) hi addr size pb wb) hostmem a
        = hostmem (pb + (a - addr))) ∧
    ((∀ l, lo < l → l < MEM_NUM_LAYERS → l ≠ hi →
        (mem.layers l (a >>> MEM_PAGE_SHIFT)).read_ptr = mem_ptr.null) →
      mem_rd (mem_unmap_layer
          (mem_map_rw (mem_map_rw mem lo addr size pa wa) hi addr size pb wb) hi) hostmem a
        = hostmem (pa + (a - addr))) := by
  obtain ⟨hl, haddr, hsize, _⟩ := hv
  obtain ⟨h1, h2⟩ := ha
  have hlo4 : lo < MEM_NUM_LAYERS := Nat.lt_trans hlo hl
  constructor
  · intro hvis
    have m1top : ∀ l, hi < l → l < MEM_NUM_LAYERS →
        ((mem_map_rw mem lo addr size pa wa).layers l (a >>> MEM_PAGE_SHIFT)).read_ptr
          = mem_ptr.null := by
      intro l h h4
      show ((mem_map_layer mem lo addr size pa wa).layers l _).read_ptr = _
      rw [map_layer_other _ _ _ _ _ _ _ _ (by omega)]
      exact hvis l h h4
    exact map_rw_read _ hostmem hi addr size pb wb a hl haddr hsize m1top h1 h2
  · intro hvis
    obtain ⟨_, _, p3⟩ := page_of_addr haddr hsize h1 h2
    have e := map_layer_entry mem lo addr size pa wa a haddr hsize h1 h2
    have lay : ∀ k, k ≠ hi →
        (mem_clear_layer (mem_map_rw (mem_map_rw mem lo addr size pa wa) hi addr size pb wb)
          hi).layers k (a >>> MEM_PAGE_SHIFT)
        = (mem_map_layer mem lo addr size pa wa).layers k (a >>> MEM_PAGE_SHIFT) := by
      intro k hk
      show (if k = hi then _ else
        (mem_map_layer (mem_map_rw mem lo addr size pa wa) hi addr size pb wb).layers k _) = _
      rw [if_neg hk, map_layer_other _ _ _ _ _ _ _ _ hk]
      rfl
    have cleared :
        ((mem_clear_layer (mem_map_rw (mem_map_rw mem lo addr size pa wa) hi addr size pb wb)
          hi).layers hi (a >>> MEM_PAGE_SHIFT)).read_ptr = mem_ptr.null := by
      simp [mem_clear_layer]
    unfold mem_rd
    show mem_load _ hostmem ((mem_effective_page (mem_clear_layer _ hi)
      (a >>> MEM_PAGE_SHIFT)).read_ptr.add (a &&& MEM_PAGE_MASK)) = _
    rw [effective_page_top _ _ lo hlo4 (by rw [lay lo (by omega), e]; simp)
      (fun k hk hk4 => by
        by_cases hkh : k = hi
        · rw [hkh]
          exact cleared
        · rw [lay k hkh, map_layer_other _ _ _ _ _ _ _ _ (by omega)]
          exact hvis k hk hk4 hkh),
      lay lo (by omega), e]
    simp only [mem_ptr.add, mem_load]
    rw [Nat.add_assoc, p3]

theorem C16_shadowed_layer_reemerges_witness :
    (∃ pg, ((mem_map_rom mem_init 3 0 0x4000 7).layers 3 pg).read_ptr ≠ mem_ptr.null) ∧
    mem_rd (mem_map_rw (mem_map_rw (mem_map_rom mem_init 3 0 0x4000 7) 0 0x8000 0x4000 100
        (some 100)) 1 0x8000 0x4000 90000 none) (fun x => x % 256) 0x8005
      = (fun x => x % 256) (90000 + (0x8005 - 0x8000)) ∧
    mem_rd (mem_unmap_layer
        (mem_map_rw (mem_map_rw (mem_map_rom mem_init 3 0 0x4000 7) 0 0x8000 0x4000 100
          (some 100)) 1 0x8000 0x4000 90000 none) 1) (fun x => x % 256) 0x8005
      = (fun x => x % 256) (100 + (0x8005 - 0x8000)) :=
  ⟨⟨0, by decide⟩,
    (C16_shadowed_layer_reemerges (mem_map_rom mem_init 3 0 0x4000 7) (fun x => x % 256) 0 1
      0x8000 0x4000 100 90000 (some 100) none 0x8005 (by decide)
      ⟨by decide, by decide, by decide, by decide⟩ ⟨by decide, by decide⟩).1
      (fun l h1 h4 => by
        have c : l = 2 ∨ l = 3 := by
          have h : l < 4 := h4
          omega
        rcases c with c | c <;> subst c <;> decide),
    (C16_shadowed_layer_reemerges (mem_map_rom mem_init 3 0 0x4000 7) (fun x => x % 256) 0 1
      0x8000 0x4000 100 90000 (some 100) none 0x8005 (by decide)
      ⟨by decide, by decide, by decide, by decide⟩ ⟨by decide, by decide⟩).2
      (fun l h0 h4 hne => by
        have c : l = 2 ∨ l = 3 := by
          have h : l < 4 := h4
          omega
        rcases c with c | c <;> subst c <;> decide)⟩

/-- C17: after mem_map_rom of a 16384-byte image at 0xC000 in layer 0 of a fresh address
space, mem_rd(0xC000) is image byte 0 and mem_rd(0xFFFF) image byte 16383; for every address
of the range and every byte value, mem_wr leaves host memory (the ROM image included)
unchanged and a following mem_rd still returns the ROM byte. -/
theorem C17_rom_write_absorbed (hostmem : Nat → Nat) (rp a d : Nat)
    (ha : 0xC000 ≤ a ∧ a ≤ 0xFFFF) :
    mem_rd (mem_map_rom mem_init 0 0xC000 16384 rp) hostmem 0xC000 = hostmem rp ∧
    mem_rd (mem_map_rom mem_init 0 0xC000 16384 rp) hostmem 0xFFFF = hostmem (rp + 16383) ∧
    (mem_wr (mem_map_rom mem_init 0 0xC000 16384 rp) hostmem a d).2 = hostmem ∧
    mem_rd (mem_wr (mem_map_rom mem_init 0 0xC000 16384 rp) hostmem a d).1
      (mem_wr (mem_map_rom mem_init 0 0xC000 16384 rp) hostmem a d).2 a
      = hostmem (rp + (a - 0xC000)) := by
  have hl : 0 < MEM_NUM_LAYERS := by decide
  have haddr : 0xC000 % MEM_PAGE_SIZE = 0 := by decide
  have hsize : 16384 % MEM_PAGE_SIZE = 0 := by decide
  have htop : ∀ (x l : Nat), 0 < l → l < MEM_NUM_LAYERS →
      (mem_init.layers l (x >>> MEM_PAGE_SHIFT)).read_ptr = mem_ptr.null :=
    fun x l _ _ => init_layers_empty l (x >>> MEM_PAGE_SHIFT)
  have rd := fun (x : Nat) (h1 : 0xC000 ≤ x) (h2 : x < 0xC000 + 16384) =>
    map_rw_read mem_init hostmem 0 0xC000 16384 rp none x hl haddr hsize (htop x) h1 h2
  have h1 : 0xC000 ≤ a := ha.1
  have h2 : a < 0xC000 + 16384 := by omega
  obtain ⟨w1, w2⟩ :=
    map_rom_write mem_init hostmem 0 0xC000 16384 rp a d hl haddr hsize (htop a) h1 h2
  obtain ⟨_, _, p3⟩ := page_of_addr haddr hsize h1 h2
  refine ⟨?_, ?_, w1, ?_⟩
  · have r := rd 0xC000 (by decide) (by decide)
    simpa [mem_map_rom] using r
  · have r := rd 0xFFFF (by decide) (by decide)
    simpa [mem_map_rom] using r
  · rw [w1]
    unfold mem_rd
    rw [w2]
    show mem_load _ hostmem (((mem_map_rw mem_init 0 0xC000 16384 rp none).page_table
      (a >>> MEM_PAGE_SHIFT)).read_ptr.add (a &&& MEM_PAGE_MASK)) = _
    rw [map_rw_page mem_init 0 0xC000 16384 rp none a hl haddr hsize (htop a) h1 h2]
    simp only [mem_ptr.add, mem_load]
    rw [Nat.add_assoc, p3]

theorem C17_rom_write_absorbed_witness :
    mem_rd (mem_map_rom mem_init 0 0xC000 16384 7) (fun x => x % 251) 0xC000
      = (fun x => x % 251) 7 ∧
    mem_rd (mem_map_rom mem_init 0 0xC000 16384 7) (fun x => x % 251) 0xFFFF
      = (fun x => x % 251) (7 + 16383) ∧
    (mem_wr (mem_map_rom mem_init 0 0xC000 16384 7) (fun x => x % 251) 0xC000 0xAA).2
      = (fun x => x % 251) ∧
    mem_rd (mem_wr (mem_map_rom mem_init 0 0xC000 16384 7) (fun x => x % 251) 0xC000 0xAA).1
      (mem_wr (mem_map_rom mem_init 0 0xC000 16384 7) (fun x => x % 251) 0xC000 0xAA).2 0xC000
      = (fun x => x % 251) (7 + (0xC000 - 0xC000)) :=
  C17_rom_write_absorbed (fun x => x % 251) 7 0xC000 0xAA ⟨by decide, by decide⟩

/-! ## Claim C18: the clock pacer -/

theorem clk_exact_step_overrun (us : Int) (clk : clk_t) :
    (clk_exact_step us clk).overrun_ticks = 0 ∧
    (clk_exact_step us clk).freq_hz = clk.freq_hz := by
  simp [clk_exact_step, clk_ticks_executed, clk_ticks_to_run]

theorem clk_exact_iterate (us : Int) (clk : clk_t) (h : clk.overrun_ticks = 0) (n : Nat) :
    ((clk_exact_step us)^[n] clk).overrun_ticks = 0 ∧
    ((clk_exact_step us)^[n] clk).freq_hz = clk.freq_hz := by
  induction n with
  | zero => exact ⟨h, rfl⟩
  | succ k ih =>
    rw [Function.iterate_succ_apply']
    have s := clk_exact_step_overrun us ((clk_exact_step us)^[k] clk)
    exact ⟨s.1, s.2.trans ih.2⟩

/-- C18: if a step executes k ticks more than the budget returned by clk_ticks_to_run, the
next clk_ticks_to_run for the same elapsed time returns the nominal budget of that time
reduced by exactly k, bounded below by zero (which is the previous budget reduced by k when
the previous step started without overrun); and from clk_init, if every step executes
exactly its budget, every step returns the same budget. -/
theorem C18_overrun_carried (clk : clk_t) (us k : Int) (n : Nat) (_hk : 0 ≤ k) :
    (clk_ticks_to_run
        (clk_ticks_executed (clk_ticks_to_run clk us) ((clk_ticks_to_run clk us).ticks_to_run + k))
        us).ticks_to_run
      = max 0 (clk_nominal_ticks clk us - k) ∧
    (clk.overrun_ticks = 0 → 0 ≤ clk_nominal_ticks clk us →
      (clk_ticks_to_run
          (clk_ticks_executed (clk_ticks_to_run clk us)
            ((clk_ticks_to_run clk us).ticks_to_run + k))
          us).ticks_to_run
        = max 0 ((clk_ticks_to_run clk us).ticks_to_run - k)) ∧
    (clk_ticks_to_run ((clk_exact_step us)^[n] (clk_init clk.freq_hz)) us).ticks_to_run
      = (clk_ticks_to_run (clk_init clk.freq_hz) us).ticks_to_run := by
  refine ⟨?_, ?_, ?_⟩
  · simp [clk_ticks_to_run, clk_ticks_executed, clk_nominal_ticks]
  · intro h0 hn
    have e : ∀ a b, clk_nominal_ticks (clk_t.mk clk.freq_hz a b) us = clk_nominal_ticks clk us :=
      fun _ _ => rfl
    simp only [clk_ticks_to_run, clk_ticks_executed, e, h0]
    generalize clk_nominal_ticks clk us = N at hn
    omega
  · have it := clk_exact_iterate us (clk_init clk.freq_hz) rfl n
    simp only [clk_ticks_to_run, clk_nominal_ticks, it.1, it.2]
    rfl

theorem C18_overrun_carried_witness :
    (clk_ticks_to_run
        (clk_ticks_executed (clk_ticks_to_run (clk_init 2000000) 16667)
          ((clk_ticks_to_run (clk_init 2000000) 16667).ticks_to_run + 7))
        16667).ticks_to_run
      = max 0 (clk_nominal_ticks (clk_init 2000000) 16667 - 7) ∧
    ((clk_init 2000000).overrun_ticks = 0 → 0 ≤ clk_nominal_ticks (clk_init 2000000) 16667 →
      (clk_ticks_to_run
          (clk_ticks_executed (clk_ticks_to_run (clk_init 2000000) 16667)
            ((clk_ticks_to_run (clk_init 2000000) 16667).ticks_to_run + 7))
          16667).ticks_to_run
        = max 0 ((clk_ticks_to_run (clk_init 2000000) 16667).ticks_to_run - 7)) ∧
    (clk_ticks_to_run ((clk_exact_step 16667)^[3] (clk_init (clk_init 2000000).freq_hz))
        16667).ticks_to_run
      = (clk_ticks_to_run (clk_init (clk_init 2000000).freq_hz) 16667).ticks_to_run :=
  C18_overrun_carried (clk_init 2000000) 16667 7 3 (by decide)

/-! ## Claims C19 and C20: the exec loop -/

theorem exec_loop_iterate {σ : Type} (isa : cpu_isa σ) (nt b : Nat) :
    ∀ (fuel : Nat) (x : cpu_state σ × Nat),
      ∃ n, cpu_exec_loop isa nt b fuel x = (cpu_round isa nt)^[n + 1] x := by
  intro fuel
  induction fuel with
  | zero =>
    intro x
    exact ⟨0, rfl⟩
  | succ f ih =>
    intro x
    by_cases h : (cpu_round isa nt x).2 < b ∧ (cpu_round isa nt x).1.trap_id < 0
    · obtain ⟨n, hn⟩ := ih (cpu_round isa nt x)
      refine ⟨n + 1, ?_⟩
      rw [cpu_exec_loop, if_pos h, hn]
      rfl
    · refine ⟨0, ?_⟩
      rw [cpu_exec_loop, if_neg h]
      rfl

theorem round_ticks_pos {σ : Type} (isa : cpu_isa σ) (nt : Nat)
    (hpos : ∀ r d, 0 < (isa.step r d).2.1) (x : cpu_state σ × Nat) :
    x.2 + 1 ≤ (cpu_round isa nt x).2 := by
  have h := hpos x.1.regs x.1.ddfd
  unfold cpu_round
  split <;> simp only [] <;> omega

theorem iterate_ticks_ge {σ : Type} (isa : cpu_isa σ) (nt : Nat)
    (hpos : ∀ r d, 0 < (isa.step r d).2.1) (x : cpu_state σ × Nat) (j : Nat) :
    x.2 + j ≤ ((cpu_round isa nt)^[j] x).2 := by
  induction j with
  | zero => exact Nat.le_refl _
  | succ k ih =>
    rw [Function.iterate_succ_apply']
    have h := round_ticks_pos isa nt hpos ((cpu_round isa nt)^[k] x)
    omega

theorem exec_loop_budget {σ : Type} (isa : cpu_isa σ) (nt b : Nat)
    (hpos : ∀ r d, 0 < (isa.step r d).2.1) :
    ∀ (fuel : Nat) (x : cpu_state σ × Nat), b ≤ x.2 + fuel + 1 →
      (cpu_exec_loop isa nt b fuel x).1.trap_id < 0 → b ≤ (cpu_exec_loop isa nt b fuel x).2 := by
  intro fuel
  induction fuel with
  | zero =>
    intro x hb _
    have h := round_ticks_pos isa nt hpos x
    show b ≤ (cpu_round isa nt x).2
    omega
  | succ f ih =>
    intro x hb
    have h := round_ticks_pos isa nt hpos x
    by_cases c : (cpu_round isa nt x).2 < b ∧ (cpu_round isa nt x).1.trap_id < 0
    · rw [cpu_exec_loop, if_pos c]
      exact ih (cpu_round isa nt x) (by omega)
    · rw [cpu_exec_loop, if_neg c]
      intro ht
      by_contra hlt
      exact c ⟨by omega, ht⟩

theorem exec_loop_stops {σ : Type} (isa : cpu_isa σ) (nt b : Nat) :
    ∀ (n fuel : Nat) (x : cpu_state σ × Nat), n ≤ fuel →
      (∀ j, 1 ≤ j → j ≤ n → ((cpu_round isa nt)^[j] x).2 < b ∧
        ((cpu_round isa nt)^[j] x).1.trap_id < 0) →
      ¬ (((cpu_round isa nt)^[n + 1] x).2 < b ∧ ((cpu_round isa nt)^[n + 1] x).1.trap_id < 0) →
      cpu_exec_loop isa nt b fuel x = (cpu_round isa nt)^[n + 1] x := by
  intro n
  induction n with
  | zero =>
    intro fuel x _ _ hstop
    cases fuel with
    | zero => rfl
    | succ f =>
      have hstop1 : ¬ ((cpu_round isa nt x).2 < b ∧ (cpu_round isa nt x).1.trap_id < 0) :=
        hstop
      rw [cpu_exec_loop, if_neg hstop1]
      rfl
  | succ k ih =>
    intro fuel x hf hrun hstop
    cases fuel with
    | zero => omega
    | succ f =>
      have h1 : (cpu_round isa nt x).2 < b ∧ (cpu_round isa nt x).1.trap_id < 0 :=
        hrun 1 (Nat.le_refl 1) (by omega)
      rw [cpu_exec_loop, if_pos h1]
      rw [ih f (cpu_round isa nt x) (by omega)
        (fun j hj1 hj2 => hrun (j + 1) (by omega) (by omega)) hstop]
      rfl

theorem find_range_first (p : Nat → Bool) (s : Nat) (hp : p s = true)
    (hfirst : ∀ i, i < s → p i = false) :
    ∀ n, s < n → (List.range n).find? p = some s := by
  intro n
  induction n with
  | zero => intro h; omega
  | succ m ih =>
    intro h
    rw [List.range_succ, List.find?_append]
    by_cases hs : s < m
    · rw [ih hs]
      rfl
    · have e : s = m := by omega
      subst e
      have hn : (List.range s).find? p = none := by
        rw [List.find?_eq_none]
        intro x hx
        rw [hfirst x (List.mem_range.1 hx)]
        simp
      rw [hn]
      simp [hp]

theorem trap_scan_first (nt : Nat) (valid : Nat → Bool) (addr : Nat → Nat) (pc s : Nat)
    (hs : s < nt) (hvalid : valid s = true) (hpc : addr s = pc)
    (hfirst : ∀ i, i < s → ¬ (valid i = true ∧ addr i = pc)) :
    cpu_trap_scan nt valid addr pc = (s : Int) := by
  unfold cpu_trap_scan
  rw [find_range_first (fun i => valid i && decide (addr i = pc)) s (by simp [hvalid, hpc])
    (fun i hi => by
      have h := hfirst i hi
      show (valid i && decide (addr i = pc)) = false
      cases hv : valid i
      · rfl
      · have hne : ¬ addr i = pc := fun ha => h ⟨hv, ha⟩
        simp [hne]) nt hs]

theorem round_keeps_traps {σ : Type} (isa : cpu_isa σ) (nt : Nat) (x : cpu_state σ × Nat) :
    (cpu_round isa nt x).1.trap_valid = x.1.trap_valid ∧
    (cpu_round isa nt x).1.trap_addr = x.1.trap_addr := by
  unfold cpu_round
  split <;> exact ⟨rfl, rfl⟩

theorem iterate_keeps_traps {σ : Type} (isa : cpu_isa σ) (nt : Nat) (x : cpu_state σ × Nat)
    (j : Nat) :
    ((cpu_round isa nt)^[j] x).1.trap_valid = x.1.trap_valid ∧
    ((cpu_round isa nt)^[j] x).1.trap_addr = x.1.trap_addr := by
  induction j with
  | zero => exact ⟨rfl, rfl⟩
  | succ k ih =>
    rw [Function.iterate_succ_apply']
    have h := round_keeps_traps isa nt ((cpu_round isa nt)^[k] x)
    exact ⟨h.1.trans ih.1, h.2.trans ih.2⟩

theorem round_opdone {σ : Type} (isa : cpu_isa σ) (nt : Nat) (x : cpu_state σ × Nat) :
    z80_opdone (cpu_round isa nt x).1 = !(isa.step x.1.regs x.1.ddfd).2.2 := by
  unfold cpu_round z80_opdone
  split
  · next h => simp [h]
  · next h => simp [h]

theorem round_trap_id {σ : Type} (isa : cpu_isa σ) (nt : Nat) (x : cpu_state σ × Nat)
    (h : z80_opdone (cpu_round isa nt x).1 = true) :
    (cpu_round isa nt x).1.trap_id
      = cpu_trap_scan nt x.1.trap_valid x.1.trap_addr (isa.pc (cpu_round isa nt x).1.regs) := by
  rw [round_opdone] at h
  have hf : (isa.step x.1.regs x.1.ddfd).2.2 = false := by simpa using h
  unfold cpu_round
  simp [hf]

/-- C19, as stated, fails: z80.h documents that z80_exec may return right after a DD/FD
prefix byte. With a DD prefix at the program counter and a budget of 0 ticks, the exec loop
returns after the 4 ticks of the prefix byte with the instruction pending, and z80_opdone
is false. -/
theorem C19_counterexample :
    (z80_exec demo_isa (demo_cpu 0) 0).2 = 4 ∧
    z80_opdone (z80_exec demo_isa (demo_cpu 0) 0).1 = false ∧
    ¬ (∀ (cpu : cpu_state Nat) (budget : Nat),
        z80_opdone (z80_exec demo_isa cpu budget).1 = true) := by
  refine ⟨by decide, by decide, ?_⟩
  intro h
  have h0 := h (demo_cpu 0) 0
  revert h0
  decide

/-- C19, amended: for every CPU state and every tick budget including 0, z80_exec runs at
least one round of its loop, that is it fetches and executes at least one opcode before it
returns; it returns with z80_opdone true unless the last opcode it consumed was a DD/FD
prefix byte, in which case the prefixed instruction is pending and z80_opdone is false. -/
theorem C19_exec_runs_an_opcode {σ : Type} (isa : cpu_isa σ) (cpu : cpu_state σ)
    (budget : Nat) :
    ∃ n, z80_exec isa cpu budget
        = (cpu_round isa Z80_MAX_NUM_TRAPS)^[n + 1] (cpu_exec_entry cpu) ∧
      z80_opdone (z80_exec isa cpu budget).1
        = !(isa.step ((cpu_round isa Z80_MAX_NUM_TRAPS)^[n] (cpu_exec_entry cpu)).1.regs
              ((cpu_round isa Z80_MAX_NUM_TRAPS)^[n] (cpu_exec_entry cpu)).1.ddfd).2.2 := by
  obtain ⟨n, hn⟩ :=
    exec_loop_iterate isa Z80_MAX_NUM_TRAPS budget budget (cpu_exec_entry cpu)
  refine ⟨n, hn, ?_⟩
  have e : z80_exec isa cpu budget
      = (cpu_round isa Z80_MAX_NUM_TRAPS)^[n + 1] (cpu_exec_entry cpu) := hn
  rw [e, Function.iterate_succ_apply', round_opdone]

theorem trap_scan_hit (nt : Nat) (valid : Nat → Bool) (addr : Nat → Nat) (pc : Nat) :
    cpu_trap_scan nt valid addr pc = -1 ∨
    ∃ s, s < nt ∧ cpu_trap_scan nt valid addr pc = (s : Int) ∧ valid s = true ∧
      addr s = pc := by
  unfold cpu_trap_scan
  cases h : (List.range nt).find? (fun i => valid i && decide (addr i = pc)) with
  | none => exact Or.inl rfl
  | some s =>
    right
    have hp := List.find?_some h
    have hm := List.mem_of_find?_eq_some h
    have hp2 : valid s = true ∧ addr s = pc := by simpa using hp
    exact ⟨s, List.mem_range.1 hm, rfl, hp2.1, hp2.2⟩

theorem trap_scan_none (nt : Nat) (valid : Nat → Bool) (addr : Nat → Nat) (pc : Nat)
    (h : ∀ i, i < nt → ¬ (valid i = true ∧ addr i = pc)) :
    cpu_trap_scan nt valid addr pc = -1 := by
  unfold cpu_trap_scan
  have hn : (List.range nt).find? (fun i => valid i && decide (addr i = pc)) = none := by
    rw [List.find?_eq_none]
    intro i hi
    have := h i (List.mem_range.1 hi)
    simpa using this
  rw [hn]

theorem round_trap_id_pending {σ : Type} (isa : cpu_isa σ) (nt : Nat) (x : cpu_state σ × Nat)
    (h : z80_opdone (cpu_round isa nt x).1 = false) :
    (cpu_round isa nt x).1.trap_id = x.1.trap_id := by
  rw [round_opdone] at h
  have ht : (isa.step x.1.regs x.1.ddfd).2.2 = true := by simpa using h
  unfold cpu_round
  simp [ht]

/-- After one round that starts without a trap hit, a trap id of 0 or more is the id of a
valid slot whose address is the program counter, found at the end of an instruction. -/
theorem round_trap_inv {σ : Type} (isa : cpu_isa σ) (nt : Nat) (x : cpu_state σ × Nat)
    (h : x.1.trap_id < 0) :
    (cpu_round isa nt x).1.trap_id < 0 ∨
    ∃ s, s < nt ∧ (cpu_round isa nt x).1.trap_id = (s : Int) ∧ x.1.trap_valid s = true ∧
      x.1.trap_addr s = isa.pc (cpu_round isa nt x).1.regs ∧
      z80_opdone (cpu_round isa nt x).1 = true := by
  cases hd : z80_opdone (cpu_round isa nt x).1 with
  | false =>
    left
    rw [round_trap_id_pending isa nt x hd]
    exact h
  | true =>
    rw [round_trap_id isa nt x hd]
    rcases trap_scan_hit nt x.1.trap_valid x.1.trap_addr (isa.pc (cpu_round isa nt x).1.regs)
      with e | ⟨s, hs, e, hv, ha⟩
    · left
      rw [e]
      decide
    · right
      exact ⟨s, hs, e, hv, ha, rfl⟩

/-- The exec loop, entered without a trap hit, returns either without a trap hit or with
the id of a valid slot whose address is the program counter on return, at the end of an
instruction. -/
theorem exec_loop_trap_inv {σ : Type} (isa : cpu_isa σ) (nt b : Nat) :
    ∀ (fuel : Nat) (x : cpu_state σ × Nat), x.1.trap_id < 0 →
      (cpu_exec_loop isa nt b fuel x).1.trap_id < 0 ∨
      ∃ s, s < nt ∧ (cpu_exec_loop isa nt b fuel x).1.trap_id = (s : Int) ∧
        x.1.trap_valid s = true ∧
        x.1.trap_addr s = isa.pc (cpu_exec_loop isa nt b fuel x).1.regs ∧
        z80_opdone (cpu_exec_loop isa nt b fuel x).1 = true := by
  intro fuel
  induction fuel with
  | zero =>
    intro x hx
    exact round_trap_inv isa nt x hx
  | succ f ih =>
    intro x hx
    by_cases c : (cpu_round isa nt x).2 < b ∧ (cpu_round isa nt x).1.trap_id < 0
    · rw [cpu_exec_loop, if_pos c]
      have k := round_keeps_traps isa nt x
      have r := ih (cpu_round isa nt x) c.2
      rw [k.1, k.2] at r
      exact r
    · rw [cpu_exec_loop, if_neg c]
      exact round_trap_inv isa nt x hx

/-- As long as the program counter stands at no valid trap address at the end of an
instruction, the rounds of the loop leave the trap id at "no trap". -/
theorem iterate_quiet {σ : Type} (isa : cpu_isa σ) (nt : Nat) (cpu : cpu_state σ) (n : Nat)
    (hquiet : ∀ j, 1 ≤ j → j ≤ n →
      z80_opdone ((cpu_round isa nt)^[j] (cpu_exec_entry cpu)).1 = true →
      ∀ i, i < nt → ¬ (cpu.trap_valid i = true ∧
        cpu.trap_addr i = isa.pc ((cpu_round isa nt)^[j] (cpu_exec_entry cpu)).1.regs)) :
    ∀ j, j ≤ n → ((cpu_round isa nt)^[j] (cpu_exec_entry cpu)).1.trap_id < 0 := by
  intro j
  induction j with
  | zero =>
    intro _
    show (-1 : Int) < 0
    decide
  | succ k ih =>
    intro hk
    have q := hquiet (k + 1) (by omega) hk
    rw [Function.iterate_succ_apply'] at q ⊢
    cases hd : z80_opdone (cpu_round isa nt ((cpu_round isa nt)^[k] (cpu_exec_entry cpu))).1 with
    | false =>
      rw [round_trap_id_pending isa nt _ hd]
      exact ih (by omega)
    | true =>
      rw [round_trap_id isa nt _ hd]
      have kt := iterate_keeps_traps isa nt (cpu_exec_entry cpu) k
      have e : cpu_trap_scan nt (cpu_exec_entry cpu).1.trap_valid
          (cpu_exec_entry cpu).1.trap_addr
          (isa.pc (cpu_round isa nt ((cpu_round isa nt)^[k] (cpu_exec_entry cpu))).1.regs)
          = -1 := trap_scan_none nt _ _ _ (q hd)
      rw [kt.1, kt.2, e]
      decide

/-- C20: for an exec function with any number of trap slots (z80_exec with 4, m6502_exec
with 8), every opcode taking at least one tick. (1) If, after a run of n+1 opcodes whose tick
length is below the budget, the program counter stands at the address of the valid trap
slot s at the end of an instruction, and at no earlier instruction end of the run it stood
at the address of any valid slot, then exec returns there, early, with trap_id equal to s
(the first slot armed at that address) and a tick count below the budget. (2) Whenever exec
returns without a trap hit (trap_id < 0) the returned tick count is at least the budget.
(3) Whenever exec returns a tick count below the budget, trap_id is the id of a slot in
range that is valid and armed at the program counter on return, and the return is at the end
of an instruction: a trap hit is the only reason for undershooting, whatever trap_id the CPU
state held before the call. -/
theorem C20_trap_is_the_only_undershoot {σ : Type} (isa : cpu_isa σ) (num_traps : Nat)
    (cpu : cpu_state σ) (budget n s : Nat)
    (hpos : ∀ r d, 0 < (isa.step r d).2.1) :
    (s < num_traps → cpu.trap_valid s = true →
      (∀ i, i < s → ¬ (cpu.trap_valid i = true ∧ cpu.trap_addr i = cpu.trap_addr s)) →
      (∀ j, 1 ≤ j → j ≤ n →
        z80_opdone ((cpu_round isa num_traps)^[j] (cpu_exec_entry cpu)).1 = true →
        ∀ i, i < num_traps → ¬ (cpu.trap_valid i = true ∧
          cpu.trap_addr i
            = isa.pc ((cpu_round isa num_traps)^[j] (cpu_exec_entry cpu)).1.regs)) →
      z80_opdone ((cpu_round isa num_traps)^[n + 1] (cpu_exec_entry cpu)).1 = true →
      isa.pc ((cpu_round isa num_traps)^[n + 1] (cpu_exec_entry cpu)).1.regs
        = cpu.trap_addr s →
      ((cpu_round isa num_traps)^[n + 1] (cpu_exec_entry cpu)).2 < budget →
      cpu_exec isa num_traps cpu budget
          = (cpu_round isa num_traps)^[n + 1] (cpu_exec_entry cpu) ∧
        (cpu_exec isa num_traps cpu budget).1.trap_id = (s : Int) ∧
        (cpu_exec isa num_traps cpu budget).2 < budget) ∧
    ((cpu_exec isa num_traps cpu budget).1.trap_id < 0 →
      budget ≤ (cpu_exec isa num_traps cpu budget).2) ∧
    ((cpu_exec isa num_traps cpu budget).2 < budget →
      ∃ t, t < num_traps ∧ (cpu_exec isa num_traps cpu budget).1.trap_id = (t : Int) ∧
        cpu.trap_valid t = true ∧
        cpu.trap_addr t = isa.pc (cpu_exec isa num_traps cpu budget).1.regs ∧
        z80_opdone (cpu_exec isa num_traps cpu budget).1 = true) := by
  have hbud : (cpu_exec isa num_traps cpu budget).1.trap_id < 0 →
      budget ≤ (cpu_exec isa num_traps cpu budget).2 := by
    unfold cpu_exec
    exact exec_loop_budget isa num_traps budget hpos budget (cpu_exec_entry cpu)
      (by have z : (cpu_exec_entry cpu).2 = 0 := rfl; omega)
  refine ⟨?_, hbud, ?_⟩
  · intro hs hvalid hfirst hquiet hdone hpc hlen
    have ht : ((cpu_round isa num_traps)^[n + 1] (cpu_exec_entry cpu)).1.trap_id = (s : Int) := by
      rw [Function.iterate_succ_apply'] at hdone hpc ⊢
      rw [round_trap_id isa num_traps _ hdone]
      have k := iterate_keeps_traps isa num_traps (cpu_exec_entry cpu) n
      rw [k.1, k.2]
      exact trap_scan_first num_traps cpu.trap_valid cpu.trap_addr _ s hs hvalid hpc.symm
        (fun i hi => by rw [hpc]; exact hfirst i hi)
    have hn : n ≤ budget := by
      have g := iterate_ticks_ge isa num_traps hpos (cpu_exec_entry cpu) (n + 1)
      have z : (cpu_exec_entry cpu).2 = 0 := rfl
      omega
    have mono : ∀ j, j ≤ n + 1 →
        ((cpu_round isa num_traps)^[j] (cpu_exec_entry cpu)).2
          ≤ ((cpu_round isa num_traps)^[n + 1] (cpu_exec_entry cpu)).2 := by
      intro j hj
      obtain ⟨d, hd⟩ := Nat.exists_eq_add_of_le hj
      have g := iterate_ticks_ge isa num_traps hpos
        ((cpu_round isa num_traps)^[j] (cpu_exec_entry cpu)) d
      rw [← Function.iterate_add_apply, Nat.add_comm d j, ← hd] at g
      omega
    have e : cpu_exec isa num_traps cpu budget
        = (cpu_round isa num_traps)^[n + 1] (cpu_exec_entry cpu) := by
      unfold cpu_exec
      apply exec_loop_stops isa num_traps budget n budget (cpu_exec_entry cpu) hn
      · intro j hj1 hj2
        exact ⟨Nat.lt_of_le_of_lt (mono j (by omega)) hlen,
          iterate_quiet isa num_traps cpu n hquiet j hj2⟩
      · intro hc
        rw [ht] at hc
        have := hc.2
        omega
    rw [e]
    exact ⟨rfl, ht, hlen⟩
  · intro hlt
    have hentry : (cpu_exec_entry cpu).1.trap_id < 0 := by
      show (-1 : Int) < 0
      decide
    rcases exec_loop_trap_inv isa num_traps budget budget (cpu_exec_entry cpu) hentry
      with h | h
    · have := hbud h
      omega
    · exact h

theorem C20_trap_is_the_only_undershoot_witness :
    (z80_exec demo_isa (demo_cpu 1) 100
        = (cpu_round demo_isa Z80_MAX_NUM_TRAPS)^[1 + 1] (cpu_exec_entry (demo_cpu 1)) ∧
      (z80_exec demo_isa (demo_cpu 1) 100).1.trap_id = ((1 : Nat) : Int) ∧
      (z80_exec demo_isa (demo_cpu 1) 100).2 < 100) ∧
    ((z80_exec demo_isa (demo_cpu 5) 10).1.trap_id < 0 ∧
      10 ≤ (z80_exec demo_isa (demo_cpu 5) 10).2) ∧
    ((z80_exec demo_isa (demo_cpu 1) 100).2 < 100 ∧
      ∃ t, t < Z80_MAX_NUM_TRAPS ∧
        (z80_exec demo_isa (demo_cpu 1) 100).1.trap_id = (t : Int) ∧
        (demo_cpu 1).trap_valid t = true ∧
        (demo_cpu 1).trap_addr t = demo_isa.pc (z80_exec demo_isa (demo_cpu 1) 100).1.regs ∧
        z80_opdone (z80_exec demo_isa (demo_cpu 1) 100).1 = true) ∧
    ((z80_exec demo_isa (cpu_state.mk 0 false (fun _ => false) (fun _ => 0) 2) 20).1.trap_id
        < 0 ∧
      20 ≤ (z80_exec demo_isa (cpu_state.mk 0 false (fun _ => false) (fun _ => 0) 2) 20).2) :=
  ⟨(C20_trap_is_the_only_undershoot demo_isa Z80_MAX_NUM_TRAPS (demo_cpu 1) 100 1 1
      (fun _ _ => (by decide : (0 : Nat) < 4))).1 (by decide) (by decide) (by decide)
      (fun j h1 h2 _ => by
        have e : j = 1 := by omega
        subst e
        decide)
      (by decide) (by decide) (by decide),
    ⟨by decide,
      (C20_trap_is_the_only_undershoot demo_isa Z80_MAX_NUM_TRAPS (demo_cpu 5) 10 0 0
        (fun _ _ => (by decide : (0 : Nat) < 4))).2.1 (by decide)⟩,
    ⟨by decide,
      (C20_trap_is_the_only_undershoot demo_isa Z80_MAX_NUM_TRAPS (demo_cpu 1) 100 0 0
        (fun _ _ => (by decide : (0 : Nat) < 4))).2.2 (by decide)⟩,
    ⟨by decide,
      (C20_trap_is_the_only_undershoot demo_isa Z80_MAX_NUM_TRAPS
        (cpu_state.mk 0 false (fun _ => false) (fun _ => 0) 2) 20 0 0
        (fun _ _ => (by decide : (0 : Nat) < 4))).2.1 (by decide)⟩⟩

/-! ## Claims C22 to C24: machine and video constants -/

/-- C22: with layer 0 for the base system and one layer per expansion slot from layer 1 on,
every layer index used by the KC85 (0 .. KC85_NUM_SLOTS) is below MEM_NUM_LAYERS, and
KC85_EXP_BUFSIZE is KC85_NUM_SLOTS times the address range MEM_ADDR_RANGE of 64 KB. -/
theorem C22_kc85_layer_plan :
    (0 < MEM_NUM_LAYERS) ∧
    (∀ slot ∈ List.range KC85_NUM_SLOTS,
      1 ≤ kc85_slot_layer slot ∧ kc85_slot_layer slot ≤ KC85_NUM_SLOTS ∧
      kc85_slot_layer slot < MEM_NUM_LAYERS) ∧
    (∀ layer ∈ List.range (KC85_NUM_SLOTS + 1), layer < MEM_NUM_LAYERS) ∧
    KC85_EXP_BUFSIZE = KC85_NUM_SLOTS * MEM_ADDR_RANGE ∧ MEM_ADDR_RANGE = 64 * 1024 := by
  decide

/-- C23: the eight KC85_PIO_A masks are the single bits 0..7 in the documented order and
partition 0xFF; KC85_PIO_B_VOLUME_MASK is bits 0..4 and with RAM8 (bit 5), RAM8_RO (bit 6)
and BLINK_ENABLED (bit 7) partitions 0xFF; the KC85_IO84 masks are bits 0..5 in documented
order; KC85_IO86_RAM4, RAM4_RO and CAOS_ROM_C are bits 0, 1 and 7. -/
theorem C23_kc85_io_bits :
    ([KC85_PIO_A_CAOS_ROM, KC85_PIO_A_RAM, KC85_PIO_A_IRM, KC85_PIO_A_RAM_RO,
        KC85_PIO_A_UNUSED, KC85_PIO_A_TAPE_LED, KC85_PIO_A_TAPE_MOTOR, KC85_PIO_A_BASIC_ROM]
      = (List.range 8).map (fun k => 2 ^ k)) ∧
    ([KC85_PIO_A_CAOS_ROM, KC85_PIO_A_RAM, KC85_PIO_A_IRM, KC85_PIO_A_RAM_RO,
        KC85_PIO_A_UNUSED, KC85_PIO_A_TAPE_LED, KC85_PIO_A_TAPE_MOTOR,
        KC85_PIO_A_BASIC_ROM].Pairwise (fun a b => a &&& b = 0)) ∧
    pins_mask [KC85_PIO_A_CAOS_ROM, KC85_PIO_A_RAM, KC85_PIO_A_IRM, KC85_PIO_A_RAM_RO,
        KC85_PIO_A_UNUSED, KC85_PIO_A_TAPE_LED, KC85_PIO_A_TAPE_MOTOR, KC85_PIO_A_BASIC_ROM]
      = 0xFF ∧
    KC85_PIO_B_VOLUME_MASK = 2 ^ 0 + 2 ^ 1 + 2 ^ 2 + 2 ^ 3 + 2 ^ 4 ∧
    [KC85_PIO_B_RAM8, KC85_PIO_B_RAM8_RO, KC85_PIO_B_BLINK_ENABLED] = [2 ^ 5, 2 ^ 6, 2 ^ 7] ∧
    ([KC85_PIO_B_VOLUME_MASK, KC85_PIO_B_RAM8, KC85_PIO_B_RAM8_RO,
        KC85_PIO_B_BLINK_ENABLED].Pairwise (fun a b => a &&& b = 0)) ∧
    pins_mask [KC85_PIO_B_VOLUME_MASK, KC85_PIO_B_RAM8, KC85_PIO_B_RAM8_RO,
        KC85_PIO_B_BLINK_ENABLED] = 0xFF ∧
    ([KC85_IO84_SEL_VIEW_IMG, KC85_IO84_SEL_CPU_COLOR, KC85_IO84_SEL_CPU_IMG,
        KC85_IO84_HICOLOR, KC85_IO84_SEL_RAM8, KC85_IO84_BLOCKSEL_RAM8]
      = (List.range 6).map (fun k => 2 ^ k)) ∧
    [KC85_IO86_RAM4, KC85_IO86_RAM4_RO, KC85_IO86_CAOS_ROM_C] = [2 ^ 0, 2 ^ 1, 2 ^ 7] := by
  decide

/-- C24: MC6847_ALL_LINES (262) is the sum of the vblank, top border, display, bottom border
and vertical retrace lines; MC6847_BOTTOM_BORDER_END + MC6847_VRETRACE_LINES =
MC6847_ALL_LINES; MC6847_IMAGE_WIDTH + 2 * MC6847_BORDER_PIXELS = MC6847_DISPLAY_WIDTH; the
documented least frame buffer of 320*244*4 = 312320 bytes holds MC6847_DISPLAY_WIDTH *
MC6847_DISPLAY_HEIGHT pixels of 4 bytes. -/
theorem C24_mc6847_frame_constants :
    MC6847_ALL_LINES = 262 ∧
    MC6847_ALL_LINES = MC6847_VBLANK_LINES + MC6847_TOP_BORDER_LINES + MC6847_DISPLAY_LINES +
      MC6847_BOTTOM_BORDER_LINES + MC6847_VRETRACE_LINES ∧
    MC6847_BOTTOM_BORDER_END + MC6847_VRETRACE_LINES = MC6847_ALL_LINES ∧
    MC6847_IMAGE_WIDTH + 2 * MC6847_BORDER_PIXELS = MC6847_DISPLAY_WIDTH ∧
    mc6847_min_rgba8_buffer_size = 312320 ∧
    MC6847_DISPLAY_WIDTH * MC6847_DISPLAY_HEIGHT * 4 ≤ mc6847_min_rgba8_buffer_size := by
  decide

/-! ## Claims C25 and C26: row address and register select -/

theorem and_two_pow_ne_zero (p k : Nat) : p &&& 2 ^ k ≠ 0 ↔ p.testBit k = true := by
  constructor
  · intro h
    by_contra hb
    apply h
    apply Nat.eq_of_testBit_eq
    intro i
    rw [Nat.testBit_and, Nat.testBit_two_pow, Nat.zero_testBit]
    by_cases e : k = i
    · subst e
      simp [hb]
    · simp [e]
  · intro h
    apply ne_zero_of_testBit (i := k)
    rw [Nat.testBit_and, Nat.testBit_two_pow, h]
    simp

theorem int_mask_F_eq : int_to_u64 (int_not 0xF) = u64_not 0xF := by decide

theorem testBit_F (i : Nat) : (0xF : Nat).testBit i = decide (i < 4) := by
  have e : (0xF : Nat) = 2 ^ 4 - 1 := by decide
  rw [e, Nat.testBit_two_pow_sub_one]

theorem set_addr4_field (p d : Nat) : M6522_SET_ADDR p d &&& 0xF = d % 16 := by
  have e16 : (16 : Nat) = 2 ^ 4 := by decide
  rw [e16]
  apply Nat.eq_of_testBit_eq
  intro i
  simp only [M6522_SET_ADDR, int_mask_F_eq, Nat.testBit_and, Nat.testBit_or, testBit_u64_not,
    testBit_F, Nat.testBit_mod_two_pow]
  by_cases h : i < 4
  · simp [h]
  · simp [h]

theorem set_addr4_frame (p d i : Nat) (hp : p < 2 ^ 64) (hi : 4 ≤ i) :
    (M6522_SET_ADDR p d).testBit i = p.testBit i := by
  simp only [M6522_SET_ADDR, int_mask_F_eq, Nat.testBit_and, Nat.testBit_or, testBit_u64_not,
    testBit_F]
  have h : ¬ i < 4 := by omega
  by_cases h64 : i < 64
  · simp [h, h64]
  · simp [h, h64, testBit_of_lt_pow hp (Nat.le_of_not_lt h64)]

/-- C26: for every 64-bit pin word p and every value d, M6522_SET_ADDR(p, d) and
M6526_SET_ADDR(p, d) have the register-select field (bits 0..3, M6522_RS / M6526_RS) equal
to d mod 16 and every bit from 4 upwards, bits 32..63 included, equal to that of p: the int
mask ~0xF is sign-extended to 64 bits. -/
theorem C26_set_addr_frame (p d : Nat) (hp : p < 2 ^ 64) :
    int_to_u64 (int_not 0xF) = 0xFFFFFFFFFFFFFFF0 ∧
    (M6522_SET_ADDR p d &&& M6522_RS = d % 16 ∧
      (∀ i, 4 ≤ i → (M6522_SET_ADDR p d).testBit i = p.testBit i)) ∧
    (M6526_SET_ADDR p d &&& M6526_RS = d % 16 ∧
      (∀ i, 4 ≤ i → (M6526_SET_ADDR p d).testBit i = p.testBit i)) := by
  have r1 : M6522_RS = 0xF := by decide
  have r2 : M6526_RS = 0xF := by decide
  rw [r1, r2]
  exact ⟨by decide, ⟨set_addr4_field p d, fun i hi => set_addr4_frame p d i hp hi⟩,
    ⟨set_addr4_field p d, fun i hi => set_addr4_frame p d i hp hi⟩⟩

theorem C26_set_addr_frame_witness :
    int_to_u64 (int_not 0xF) = 0xFFFFFFFFFFFFFFF0 ∧
    (M6522_SET_ADDR 0xFFFFFFFFFFFFFFFF 0x25 &&& M6522_RS = 0x25 % 16 ∧
      (∀ i, 4 ≤ i →
        (M6522_SET_ADDR 0xFFFFFFFFFFFFFFFF 0x25).testBit i
          = (0xFFFFFFFFFFFFFFFF : Nat).testBit i)) ∧
    (M6526_SET_ADDR 0xFFFFFFFFFFFFFFFF 0x25 &&& M6526_RS = 0x25 % 16 ∧
      (∀ i, 4 ≤ i →
        (M6526_SET_ADDR 0xFFFFFFFFFFFFFFFF 0x25).testBit i
          = (0xFFFFFFFFFFFFFFFF : Nat).testBit i)) :=
  C26_set_addr_frame 0xFFFFFFFFFFFFFFFF 0x25 (by decide)

/-! ## Claim C27: the example tick callback -/

theorem make_pins_high (ctrl a d i : Nat) (hi : 24 ≤ i) :
    (Z80_MAKE_PINS ctrl a d).testBit i = ctrl.testBit i := by
  simp only [Z80_MAKE_PINS, Nat.testBit_and, Nat.testBit_or, testBit_FFFF, testBit_FF0000,
    testBit_u64, testBit_u64_shl]
  have h1 : ¬ i < 24 := by omega
  have h2 : ¬ i < 16 := by omega
  simp [h1, h2]

theorem tick_write (mem : Nat → Nat) (a d : Nat) (ha : a < 2 ^ 16) (hd : d < 2 ^ 8) :
    tick mem (Z80_MAKE_PINS (Z80_MREQ ||| Z80_WR) a d)
      = (fun x => if x = a then d else mem x, Z80_MAKE_PINS (Z80_MREQ ||| Z80_WR) a d) := by
  have e25 : Z80_MREQ = 2 ^ 25 := by decide
  have e27 : Z80_RD = 2 ^ 27 := by decide
  have e28 : Z80_WR = 2 ^ 28 := by decide
  have m : Z80_MAKE_PINS (Z80_MREQ ||| Z80_WR) a d &&& Z80_MREQ ≠ 0 := by
    rw [e25, and_two_pow_ne_zero, make_pins_high _ _ _ _ (by decide)]
    decide
  have r : ¬ Z80_MAKE_PINS (Z80_MREQ ||| Z80_WR) a d &&& Z80_RD ≠ 0 := by
    rw [e27, and_two_pow_ne_zero, make_pins_high _ _ _ _ (by decide)]
    decide
  have w : Z80_MAKE_PINS (Z80_MREQ ||| Z80_WR) a d &&& Z80_WR ≠ 0 := by
    rw [e28, and_two_pow_ne_zero, make_pins_high _ _ _ _ (by decide)]
    decide
  have k := make_pins_eq (Z80_MREQ ||| Z80_WR) a d (by decide) (by decide)
  have ga : Z80_GET_ADDR (Z80_MAKE_PINS (Z80_MREQ ||| Z80_WR) a d) = a := by
    rw [k, get_addr_set_data, get_set_addr, Nat.mod_eq_of_lt ha]
  have gd : Z80_GET_DATA (Z80_MAKE_PINS (Z80_MREQ ||| Z80_WR) a d) = d := by
    rw [k, get_set_data, Nat.mod_eq_of_lt hd]
  unfold tick
  rw [if_pos m, if_neg r, if_pos w, ga, gd]

theorem tick_read (mem : Nat → Nat) (a x : Nat) (ha : a < 2 ^ 16) :
    tick mem (Z80_MAKE_PINS (Z80_MREQ ||| Z80_RD) a x)
      = (mem, Z80_SET_DATA (Z80_MAKE_PINS (Z80_MREQ ||| Z80_RD) a x) (mem a)) := by
  have e25 : Z80_MREQ = 2 ^ 25 := by decide
  have e27 : Z80_RD = 2 ^ 27 := by decide
  have m : Z80_MAKE_PINS (Z80_MREQ ||| Z80_RD) a x &&& Z80_MREQ ≠ 0 := by
    rw [e25, and_two_pow_ne_zero, make_pins_high _ _ _ _ (by decide)]
    decide
  have r : Z80_MAKE_PINS (Z80_MREQ ||| Z80_RD) a x &&& Z80_RD ≠ 0 := by
    rw [e27, and_two_pow_ne_zero, make_pins_high _ _ _ _ (by decide)]
    decide
  have k := make_pins_eq (Z80_MREQ ||| Z80_RD) a x (by decide) (by decide)
  have ga : Z80_GET_ADDR (Z80_MAKE_PINS (Z80_MREQ ||| Z80_RD) a x) = a := by
    rw [k, get_addr_set_data, get_set_addr, Nat.mod_eq_of_lt ha]
  unfold tick
  rw [if_pos m, if_pos r, ga]

theorem tick_cells (mem : Nat → Nat) (p b : Nat) (hb : b ≠ Z80_GET_ADDR p) :
    (tick mem p).1 b = mem b := by
  unfold tick
  split
  · split
    · rfl
    · split
      · simp [hb]
      · rfl
  · split <;> rfl

theorem tick_pins (mem : Nat → Nat) (p i : Nat) (hp : p < 2 ^ 64) (hi : i < 16 ∨ 24 ≤ i) :
    (tick mem p).2.testBit i = p.testBit i := by
  unfold tick
  split
  · split
    · exact set_data_frame p _ i hp hi
    · split <;> rfl
  · split <;> rfl

theorem tick_idle (mem : Nat → Nat) (p : Nat)
    (h : p &&& Z80_MREQ = 0 ∨ (p &&& Z80_RD = 0 ∧ p &&& Z80_WR = 0)) :
    tick mem p = (mem, p) := by
  unfold tick
  rcases h with h | ⟨h1, h2⟩
  · simp [h]
  · simp [h1, h2]

/-- C27: for every memory state, 16-bit address a and byte d, the example tick callback
called with MREQ|WR, address a and data d and then with MREQ|RD and address a returns a pin
word whose Z80_GET_DATA is d; the write stores d in cell a and no call changes a cell other
than the addressed one; every call on a 64-bit pin word returns all bits outside the data
bus (address and control bits) unchanged, and a call with neither MREQ|RD nor MREQ|WR
returns the pin word and the memory unchanged. -/
theorem C27_tick_is_memory (mem : Nat → Nat) (a d x p : Nat) (ha : a < 2 ^ 16) (hd : d < 2 ^ 8)
    (hp : p < 2 ^ 64) :
    Z80_GET_DATA (tick (tick mem (Z80_MAKE_PINS (Z80_MREQ ||| Z80_WR) a d)).1
      (Z80_MAKE_PINS (Z80_MREQ ||| Z80_RD) a x)).2 = d ∧
    (tick mem (Z80_MAKE_PINS (Z80_MREQ ||| Z80_WR) a d)).1 a = d ∧
    (∀ b, b ≠ a → (tick mem (Z80_MAKE_PINS (Z80_MREQ ||| Z80_WR) a d)).1 b = mem b) ∧
    (∀ b, b ≠ Z80_GET_ADDR p → (tick mem p).1 b = mem b) ∧
    (∀ i, i < 16 ∨ 24 ≤ i → (tick mem p).2.testBit i = p.testBit i) ∧
    ((p &&& Z80_MREQ = 0 ∨ (p &&& Z80_RD = 0 ∧ p &&& Z80_WR = 0)) → tick mem p = (mem, p)) := by
  refine ⟨?_, ?_, ?_, fun b hb => tick_cells mem p b hb, fun i hi => tick_pins mem p i hp hi,
    tick_idle mem p⟩
  · rw [tick_write mem a d ha hd, tick_read _ a x ha]
    simp only []
    rw [get_set_data]
    simp only [if_true]
    exact Nat.mod_eq_of_lt hd
  · rw [tick_write mem a d ha hd]
    simp
  · intro b hb
    rw [tick_write mem a d ha hd]
    simp [hb]

theorem C27_tick_is_memory_witness :
    Z80_GET_DATA (tick (tick (fun _ => 0) (Z80_MAKE_PINS (Z80_MREQ ||| Z80_WR) 0x1234 0xAA)).1
      (Z80_MAKE_PINS (Z80_MREQ ||| Z80_RD) 0x1234 0)).2 = 0xAA ∧
    (tick (fun _ => 0) (Z80_MAKE_PINS (Z80_MREQ ||| Z80_WR) 0x1234 0xAA)).1 0x1234 = 0xAA ∧
    (∀ b, b ≠ 0x1234 →
      (tick (fun _ => 0) (Z80_MAKE_PINS (Z80_MREQ ||| Z80_WR) 0x1234 0xAA)).1 b
        = (fun _ => 0) b) ∧
    (∀ b, b ≠ Z80_GET_ADDR (Z80_IORQ ||| Z80_WR) →
      (tick (fun _ => 0) (Z80_IORQ ||| Z80_WR)).1 b = (fun _ => 0) b) ∧
    (∀ i, i < 16 ∨ 24 ≤ i →
      (tick (fun _ => 0) (Z80_IORQ ||| Z80_WR)).2.testBit i = (Z80_IORQ ||| Z80_WR).testBit i) ∧
    (((Z80_IORQ ||| Z80_WR) &&& Z80_MREQ = 0 ∨
        ((Z80_IORQ ||| Z80_WR) &&& Z80_RD = 0 ∧ (Z80_IORQ ||| Z80_WR) &&& Z80_WR = 0)) →
      tick (fun _ => 0) (Z80_IORQ ||| Z80_WR) = (fun _ => 0, Z80_IORQ ||| Z80_WR)) :=
  C27_tick_is_memory (fun _ => 0) 0x1234 0xAA 0 (Z80_IORQ ||| Z80_WR) (by decide) (by decide)
    (by decide)

/-! ## Claim C21: the trap table -/

end Chips
